import Mathlib

/-!
Verification of the `heyocollab` document-manager layer.

The repository implements two document managers (`SequenceManager` in
`src/sequence/manager.rs`, `StoryboardManager` in `src/storyboard/manager.rs`)
on top of the automerge CRDT engine, with typed models in
`src/sequence/model.rs` and `src/storyboard/model.rs`.

The CRDT engine is external (a black box per the design): we embed it as a
tree of maps/lists/scalars (`AMValue`).  Automerge map objects iterate their
keys in sorted order, and Rust `HashMap`s are unordered finite maps, so both
are modelled by the canonical key-sorted association list (`StrMap`).
Save/load round trips are content-preserving in the engine, so `save` is
modelled as exposing the document tree and `from_bytes` as loading it.

Machine integers: Rust `i64` is modelled as `Int` (no arithmetic overflow
occurs anywhere in this code), `i32` as the subtype `Int32` of `Int`, with
the `as` casts (`v as i64`, `v as i32`, `u as i64`) modelled as exact
embedding resp. two's-complement wrapping.  Rust `f64` values are only ever
stored and retrieved, never computed with, so they are modelled as the
abstract type `F64` (a bit pattern, or the image of an integer under the
`as f64` conversion).
-/

-- =============================================================================
-- MACHINE INTEGERS AND FLOATS
-- =============================================================================

/-- Two's-complement wrap of an integer into the `i32` range (Rust `as i32`). -/
def wrap32 (i : Int) : Int := (i + 2 ^ 31) % 2 ^ 32 - 2 ^ 31

/-- Two's-complement wrap into the `i64` range (Rust `u64 as i64`). -/
def wrap64 (i : Int) : Int := (i + 2 ^ 63) % 2 ^ 64 - 2 ^ 63

/-- Rust `i32`: integers in the `i32` range. -/
abbrev Int32 : Type := { v : Int // -(2 ^ 31) ≤ v ∧ v < 2 ^ 31 }

theorem wrap32_mem_range (i : Int) : -(2 ^ 31) ≤ wrap32 i ∧ wrap32 i < 2 ^ 31 := by
  unfold wrap32
  omega

/-- Rust `as i32` conversion landing in the `Int32` subtype. -/
def toInt32 (i : Int) : Int32 := ⟨wrap32 i, wrap32_mem_range i⟩

theorem wrap32_eq_of_range (i : Int) (h1 : -(2 ^ 31) ≤ i) (h2 : i < 2 ^ 31) :
    wrap32 i = i := by
  unfold wrap32
  omega

theorem wrap32_eq_self (v : Int32) : wrap32 v.val = v.val :=
  wrap32_eq_of_range v.val v.property.1 v.property.2

theorem toInt32_val (v : Int32) : toInt32 v.val = v := by
  apply Subtype.ext
  exact wrap32_eq_self v

/-- Rust `f64` values.  The manager never computes with floats — it only
stores them into the CRDT tree and reads them back — so an `f64` is either
an opaque bit pattern or the image of an `i64` under Rust's `as f64`
conversion (the latter arises in `hydrate_opt_f64`). -/
inductive F64 : Type where
  | bits (pattern : Nat)
  | ofInt (i : Int)
deriving DecidableEq, Repr

-- =============================================================================
-- THE CRDT TREE (automerge document content, black box per spec section 6)
-- =============================================================================

/-- Automerge `ScalarValue` (the constructors used by this repository). -/
inductive Scalar : Type where
  | str (s : String)
  | int (i : Int)
  | uint (n : Nat)
  | f64 (x : F64)
  | boolean (b : Bool)
  | null
deriving DecidableEq, Repr

/-- Automerge document values: scalar leaves, map objects and list objects. -/
inductive AMValue : Type where
  | scalar (s : Scalar)
  | map (entries : List (String × AMValue))
  | list (items : List AMValue)

/-!
Key/value association lists over string keys.  These model both automerge map
objects (which store and iterate their keys in sorted order) and Rust
`HashMap`s (unordered finite maps, represented canonically by their
key-sorted entry list).
-/

namespace KV

variable {α : Type}

/-- Key lookup in an entry list (automerge `get` on a map / `HashMap::get`). -/
def alookup (k : String) : List (String × α) → Option α
  | [] => none
  | (k', v) :: rest => if k' = k then some v else alookup k rest

/-- Sorted put: a new key is inserted at its sorted position, an existing
key's value is replaced (automerge `put` / `HashMap::insert`). -/
def put (k : String) (v : α) : List (String × α) → List (String × α)
  | [] => [(k, v)]
  | (k', v') :: rest =>
    if k = k' then (k, v) :: rest
    else if k < k' then (k, v) :: (k', v') :: rest
    else (k', v') :: put k v rest

/-- Key removal (automerge `delete` / `HashMap::remove`).  Removing an absent
key is a no-op (idempotent, per spec section 4.2). -/
def del (k : String) (entries : List (String × α)) : List (String × α) :=
  entries.filter (fun e => decide (e.1 ≠ k))

/-- In-place update of the value at a key, if present (`HashMap::get_mut`
followed by mutation). -/
def modifyVal (k : String) (f : α → α) (entries : List (String × α)) :
    List (String × α) :=
  entries.map (fun e => (e.1, if e.1 = k then f e.2 else e.2))

/-- Entry lists with strictly sorted keys. -/
abbrev KeySorted (l : List (String × α)) : Prop := l.Pairwise (fun a b => a.1 < b.1)

@[simp] theorem alookup_nil (k : String) : alookup k ([] : List (String × α)) = none := rfl

theorem alookup_put_self (k : String) (v : α) (l : List (String × α)) :
    alookup k (put k v l) = some v := by
  induction l with
  | nil => simp [put, alookup]
  | cons e rest ih =>
    obtain ⟨k', v'⟩ := e
    by_cases h : k = k'
    · simp [put, h, alookup]
    · by_cases h2 : k < k'
      · simp [put, h, h2, alookup]
      · simp [put, h, h2, alookup, Ne.symm h, ih]

theorem alookup_put_ne (k k2 : String) (v : α) (l : List (String × α))
    (h : k ≠ k2) : alookup k2 (put k v l) = alookup k2 l := by
  induction l with
  | nil => simp [put, alookup, h]
  | cons e rest ih =>
    obtain ⟨k', v'⟩ := e
    by_cases h1 : k = k'
    · subst h1
      simp [put, alookup, h, ih]
    · by_cases h2 : k < k'
      · simp [put, h1, h2, alookup, h]
      · simp [put, h1, h2, alookup, ih]

theorem alookup_del_self (k : String) (l : List (String × α)) :
    alookup k (del k l) = none := by
  induction l with
  | nil => rfl
  | cons e rest ih =>
    obtain ⟨k', v'⟩ := e
    simp only [del, List.filter_cons] at *
    by_cases h : k' = k
    · simpa [h] using ih
    · simpa [h, alookup] using ih

theorem alookup_del_ne (k k2 : String) (l : List (String × α)) (h : k ≠ k2) :
    alookup k2 (del k l) = alookup k2 l := by
  induction l with
  | nil => rfl
  | cons e rest ih =>
    obtain ⟨k', v'⟩ := e
    simp only [del, List.filter_cons] at *
    by_cases h1 : k' = k
    · subst h1
      simpa [alookup, h] using ih
    · by_cases h2 : k' = k2
      · simp [alookup, h1, h2, Ne.symm h]
      · simpa [alookup, h1, h2] using ih

theorem del_del (k : String) (l : List (String × α)) :
    del k (del k l) = del k l := by
  simp [del, List.filter_filter]

theorem alookup_modifyVal_self (k : String) (f : α → α) (l : List (String × α)) :
    alookup k (modifyVal k f l) = (alookup k l).map f := by
  induction l with
  | nil => rfl
  | cons e rest ih =>
    obtain ⟨k', v'⟩ := e
    simp only [modifyVal, List.map_cons, alookup]
    by_cases h : k' = k
    · simp [h]
    · simpa [modifyVal, h] using ih

theorem alookup_modifyVal_ne (k k2 : String) (f : α → α) (l : List (String × α))
    (h : k ≠ k2) : alookup k2 (modifyVal k f l) = alookup k2 l := by
  induction l with
  | nil => rfl
  | cons e rest ih =>
    obtain ⟨k', v'⟩ := e
    simp only [modifyVal, List.map_cons, alookup]
    by_cases h2 : k' = k2
    · simp [h2, Ne.symm h]
    · simpa [modifyVal, h2] using ih

theorem mem_put (k : String) (v : α) (l : List (String × α)) :
    ∀ b ∈ put k v l, b = (k, v) ∨ b ∈ l := by
  induction l with
  | nil =>
    intro b hb
    simp only [put, List.mem_singleton] at hb
    exact Or.inl hb
  | cons e rest ih =>
    obtain ⟨k', v'⟩ := e
    intro b hb
    by_cases h1 : k = k'
    · simp only [put, if_pos h1] at hb
      rcases List.mem_cons.mp hb with h | h
      · exact Or.inl h
      · exact Or.inr (List.mem_cons_of_mem _ h)
    · by_cases h2 : k < k'
      · simp only [put, if_neg h1, if_pos h2] at hb
        rcases List.mem_cons.mp hb with h | h
        · exact Or.inl h
        · exact Or.inr h
      · simp only [put, if_neg h1, if_neg h2] at hb
        rcases List.mem_cons.mp hb with h | h
        · subst h; exact Or.inr (List.mem_cons_self _ _)
        · rcases ih b h with h | h
          · exact Or.inl h
          · exact Or.inr (List.mem_cons_of_mem _ h)

theorem put_pairwise (k : String) (v : α) {l : List (String × α)}
    (h : KeySorted l) : KeySorted (put k v l) := by
  induction l with
  | nil => simp [put]
  | cons e rest ih =>
    obtain ⟨k', v'⟩ := e
    obtain ⟨hhead, htail⟩ := List.pairwise_cons.mp h
    by_cases h1 : k = k'
    · subst h1
      simp only [put, if_pos rfl]
      exact List.Pairwise.cons hhead htail
    · by_cases h2 : k < k'
      · simp only [put, if_neg h1, if_pos h2]
        refine List.Pairwise.cons ?_ (List.Pairwise.cons hhead htail)
        intro b hb
        rcases List.mem_cons.mp hb with hb | hb
        · subst hb; exact h2
        · exact lt_trans h2 (hhead b hb)
      · have h3 : k' < k := by
          rcases lt_trichotomy k k' with hk | hk | hk
          · exact absurd hk h2
          · exact absurd hk h1
          · exact hk
        simp only [put, if_neg h1, if_neg h2]
        refine List.Pairwise.cons ?_ (ih htail)
        intro b hb
        rcases mem_put k v rest b hb with hb | hb
        · subst hb; exact h3
        · exact hhead b hb

theorem del_pairwise (k : String) {l : List (String × α)} (h : KeySorted l) :
    KeySorted (del k l) :=
  h.filter _

theorem modifyVal_pairwise (k : String) (f : α → α) {l : List (String × α)}
    (h : KeySorted l) : KeySorted (modifyVal k f l) := by
  unfold modifyVal
  exact List.pairwise_map.mpr (h.imp (fun hab => hab))

end KV


-- =============================================================================
-- RUST HashMap MODEL
-- =============================================================================

/-- Model of Rust `HashMap String α`: an unordered finite map, represented
canonically by its key-sorted association list. -/
abbrev StrMap (α : Type) : Type := { l : List (String × α) // KV.KeySorted l }

namespace StrMap

variable {α : Type}

/-- The empty map (`HashMap::new` / `Default`). -/
def empty : StrMap α := ⟨[], List.Pairwise.nil⟩

/-- `HashMap::get`. -/
def get (m : StrMap α) (k : String) : Option α := KV.alookup k m.val

/-- `HashMap::insert` (replaces the value of an existing key). -/
def insert (m : StrMap α) (k : String) (v : α) : StrMap α :=
  ⟨KV.put k v m.val, KV.put_pairwise k v m.property⟩

/-- `HashMap::remove`. -/
def erase (m : StrMap α) (k : String) : StrMap α :=
  ⟨KV.del k m.val, KV.del_pairwise k m.property⟩

/-- `HashMap::get_mut` followed by an in-place mutation (no-op if absent). -/
def modify (m : StrMap α) (k : String) (f : α → α) : StrMap α :=
  ⟨KV.modifyVal k f m.val, KV.modifyVal_pairwise k f m.property⟩

/-- `HashMap::contains_key`. -/
def contains (m : StrMap α) (k : String) : Bool := (m.get k).isSome

/-- `HashMap::len`. -/
def size (m : StrMap α) : Nat := m.val.length

@[simp] theorem get_empty (k : String) : (empty : StrMap α).get k = none := rfl

@[simp] theorem get_insert_self (m : StrMap α) (k : String) (v : α) :
    (m.insert k v).get k = some v :=
  KV.alookup_put_self k v m.val

theorem get_insert_ne (m : StrMap α) (k k2 : String) (v : α) (h : k ≠ k2) :
    (m.insert k v).get k2 = m.get k2 :=
  KV.alookup_put_ne k k2 v m.val h

@[simp] theorem get_erase_self (m : StrMap α) (k : String) :
    (m.erase k).get k = none :=
  KV.alookup_del_self k m.val

theorem get_erase_ne (m : StrMap α) (k k2 : String) (h : k ≠ k2) :
    (m.erase k).get k2 = m.get k2 :=
  KV.alookup_del_ne k k2 m.val h

@[simp] theorem get_modify_self (m : StrMap α) (k : String) (f : α → α) :
    (m.modify k f).get k = (m.get k).map f :=
  KV.alookup_modifyVal_self k f m.val

theorem get_modify_ne (m : StrMap α) (k k2 : String) (f : α → α) (h : k ≠ k2) :
    (m.modify k f).get k2 = m.get k2 :=
  KV.alookup_modifyVal_ne k k2 f m.val h

theorem ext {m m2 : StrMap α} (h : m.val = m2.val) : m = m2 :=
  Subtype.ext h

/-- Putting a key greater than every existing key appends it at the end. -/
theorem put_append_of_lt (k : String) (v : α) (l : List (String × α))
    (h : ∀ a ∈ l, a.1 < k) : KV.put k v l = l ++ [(k, v)] := by
  induction l with
  | nil => rfl
  | cons e rest ih =>
    obtain ⟨k', v'⟩ := e
    have hk : k' < k := h (k', v') (List.mem_cons_self _ _)
    have h1 : ¬k = k' := fun he => absurd (he ▸ hk) (lt_irrefl k)
    have h2 : ¬k < k' := fun hlt => absurd (lt_trans hlt hk) (lt_irrefl k)
    simp only [KV.put, if_neg h1, if_neg h2, List.cons_append]
    congr 1
    exact ih (fun a ha => h a (List.mem_cons_of_mem _ ha))

/-- Folding `insert` over an already-sorted entry list whose keys all exceed
the accumulator's keys just appends the list (the hydration loop of a
`HashMap` reproduces the sorted entry list automerge iterates over). -/
theorem foldl_insert_val :
    ∀ (l : List (String × α)) (m : StrMap α),
      KV.KeySorted l → (∀ a ∈ m.val, ∀ b ∈ l, a.1 < b.1) →
      (l.foldl (fun acc e => acc.insert e.1 e.2) m).val = m.val ++ l := by
  intro l
  induction l with
  | nil => intro m _ _; simp
  | cons e rest ih =>
    intro m hsorted hcross
    obtain ⟨hhead, htail⟩ := List.pairwise_cons.mp hsorted
    have hins : (m.insert e.1 e.2).val = m.val ++ [e] := by
      simp only [insert]
      exact put_append_of_lt e.1 e.2 m.val
        (fun a ha => hcross a ha e (List.mem_cons_self _ _))
    rw [List.foldl_cons, ih (m.insert e.1 e.2) htail (fun a ha b hb => by
      rw [hins] at ha
      rcases List.mem_append.mp ha with ha | ha
      · exact hcross a ha b (List.mem_cons_of_mem _ hb)
      · rw [List.mem_singleton.mp ha]
        exact hhead b hb), hins]
    simp

/-- Folding `insert` over a sorted entry list starting from the empty map
reproduces the list exactly. -/
theorem foldl_insert_empty (l : List (String × α)) (h : KV.KeySorted l) :
    (l.foldl (fun acc e => acc.insert e.1 e.2) empty).val = l := by
  simpa using foldl_insert_val l empty h (by intro a ha; simp [empty] at ha)

end StrMap

-- =============================================================================
-- SEQUENCE DATA MODEL (src/sequence/model.rs)
-- =============================================================================

/-- `GenerationSettings`: nine independent optional scalar fields
(model.rs lines 193-230). -/
structure GenerationSettings where
  seed : Option Int
  cfg : Option F64
  num_steps : Option Int32
  model : Option String
  resolution : Option Int32
  duration : Option Int32
  width : Option Int32
  height : Option Int32
  fps : Option Int32
deriving DecidableEq

/-- `GenerationSettings::default()` / `new()`: all fields absent. -/
def GenerationSettings.default : GenerationSettings :=
  ⟨none, none, none, none, none, none, none, none, none⟩

/-- `OutputAsset` (model.rs lines 412-424). -/
structure OutputAsset where
  url : String
  seed : Option Int
  is_selected : Bool
deriving DecidableEq

/-- `GenerationNode` (model.rs lines 50-75). -/
structure GenerationNode where
  id : String
  type_ : String
  status : String
  title : String
  prompt : String
  negative_prompt : String
  notes : String
  settings : GenerationSettings
  outputs : List OutputAsset
  metadata : String
deriving DecidableEq

/-- `GenerationNode::new(id, type_)` (model.rs lines 78-92). -/
def GenerationNode.new (id type_ : String) : GenerationNode :=
  ⟨id, type_, "pending", "", "", "", "", GenerationSettings.default, [], ""⟩

/-- `DocumentRoot` (model.rs lines 16-23). -/
structure DocumentRoot where
  sequence_order : List String
  generations : StrMap GenerationNode
deriving DecidableEq

/-- `DocumentRoot::default()`. -/
def DocumentRoot.default : DocumentRoot := ⟨[], StrMap.empty⟩

/-- `DocumentRoot::len()`. -/
def DocumentRoot.len (s : DocumentRoot) : Nat := s.generations.size

-- =============================================================================
-- RECONCILE (write path) for the sequence types
--
-- Content semantics of autosurgeon `reconcile`: each struct field is written
-- under its field name; `HashMap` reconciliation makes the map object hold
-- exactly the map's keys (stale keys are deleted); `Vec` reconciliation makes
-- the list object hold exactly the encoded elements.  Automerge map objects
-- keep their keys sorted, hence `KV.put`.
-- =============================================================================

/-- One `reconcile_opt!` step (model.rs lines 302-311): put the scalar if
`Some`, delete the key if `None`. -/
def reconcileOpt (key : String) (v : Option Scalar)
    (entries : List (String × AMValue)) : List (String × AMValue) :=
  match v with
  | some sc => KV.put key (.scalar sc) entries
  | none => KV.del key entries

/-- Sparse `impl Reconcile for GenerationSettings` (model.rs lines 295-325):
the nine optional fields are written in source order; only these nine keys
are touched. -/
def reconcileSettings (old : List (String × AMValue)) (s : GenerationSettings) :
    List (String × AMValue) :=
  let e := reconcileOpt "seed" (s.seed.map Scalar.int) old
  let e := reconcileOpt "cfg" (s.cfg.map Scalar.f64) e
  let e := reconcileOpt "num_steps" (s.num_steps.map (fun v => Scalar.int v.val)) e
  let e := reconcileOpt "model" (s.model.map Scalar.str) e
  let e := reconcileOpt "resolution" (s.resolution.map (fun v => Scalar.int v.val)) e
  let e := reconcileOpt "width" (s.width.map (fun v => Scalar.int v.val)) e
  let e := reconcileOpt "height" (s.height.map (fun v => Scalar.int v.val)) e
  let e := reconcileOpt "duration" (s.duration.map (fun v => Scalar.int v.val)) e
  reconcileOpt "fps" (s.fps.map (fun v => Scalar.int v.val)) e

/-- Derived `Reconcile` for `OutputAsset`: all three fields are written; a
`None` seed becomes an explicit `Null` scalar (the naive-derive behaviour the
sparse codec exists to avoid, spec section 4.2). -/
def encodeOutput (o : OutputAsset) : AMValue :=
  .map [("is_selected", .scalar (.boolean o.is_selected)),
        ("seed", .scalar (match o.seed with | some v => .int v | none => .null)),
        ("url", .scalar (.str o.url))]

/-- Derived `Reconcile` for `GenerationNode`: every field is written under
its field name into the node's map object. -/
def reconcileNode (old : List (String × AMValue)) (n : GenerationNode) :
    List (String × AMValue) :=
  let oldSettings := match KV.alookup "settings" old with
    | some (.map es) => es
    | _ => []
  let e := KV.put "id" (.scalar (.str n.id)) old
  let e := KV.put "type_" (.scalar (.str n.type_)) e
  let e := KV.put "status" (.scalar (.str n.status)) e
  let e := KV.put "title" (.scalar (.str n.title)) e
  let e := KV.put "prompt" (.scalar (.str n.prompt)) e
  let e := KV.put "negative_prompt" (.scalar (.str n.negative_prompt)) e
  let e := KV.put "notes" (.scalar (.str n.notes)) e
  let e := KV.put "settings" (.map (reconcileSettings oldSettings n.settings)) e
  let e := KV.put "outputs" (.list (n.outputs.map encodeOutput)) e
  KV.put "metadata" (.scalar (.str n.metadata)) e

/-- `HashMap` reconciliation for the generations map: the resulting map
object holds exactly the map's keys (stale keys deleted); every entry's node
object is reconciled against the old node object under the same key. -/
def reconcileGens (old : List (String × AMValue)) (gens : StrMap GenerationNode) :
    List (String × AMValue) :=
  gens.val.map (fun e =>
    (e.1, .map (reconcileNode
      (match KV.alookup e.1 old with
       | some (.map es) => es
       | _ => []) e.2)))

/-- `Vec<String>` reconciliation: a list object holding string scalars. -/
def encodeStrList (l : List String) : AMValue :=
  .list (l.map (fun x => .scalar (.str x)))

/-- Derived `Reconcile` for `DocumentRoot`: fields written in declaration
order (`sequence_order`, then `generations`) into the root map object. -/
def reconcileRoot (old : AMValue) (s : DocumentRoot) : AMValue :=
  let oldEntries := match old with | .map es => es | _ => []
  let oldGens := match KV.alookup "generations" oldEntries with
    | some (.map es) => es
    | _ => []
  let e := KV.put "sequence_order" (encodeStrList s.sequence_order) oldEntries
  .map (KV.put "generations" (.map (reconcileGens oldGens s.generations)) e)

-- =============================================================================
-- HYDRATE (read path) for the sequence types
-- =============================================================================

/-- Sparse read helper `hydrate_opt_i64` (model.rs lines 335-350): absent key
or `Null` or incompatible scalar yield `None`; `Int`/`Uint` yield `Some`. -/
def hydrate_opt_i64 (entries : List (String × AMValue)) (key : String) : Option Int :=
  match KV.alookup key entries with
  | none => none
  | some (.scalar (.int i)) => some i
  | some (.scalar (.uint u)) => some (wrap64 u)
  | some (.scalar .null) => none
  | some (.scalar _) => none
  | some _ => none

/-- Sparse read helper `hydrate_opt_f64` (model.rs lines 352-367): `F64`
yields itself, `Int` is converted, everything else yields `None`. -/
def hydrate_opt_f64 (entries : List (String × AMValue)) (key : String) : Option F64 :=
  match KV.alookup key entries with
  | none => none
  | some (.scalar (.f64 x)) => some x
  | some (.scalar (.int i)) => some (F64.ofInt i)
  | some (.scalar .null) => none
  | some (.scalar _) => none
  | some _ => none

/-- Sparse read helper `hydrate_opt_i32` (model.rs lines 369-375): reads an
`i64` and casts with `as i32`. -/
def hydrate_opt_i32 (entries : List (String × AMValue)) (key : String) : Option Int32 :=
  (hydrate_opt_i64 entries key).map toInt32

/-- Sparse read helper `hydrate_opt_string` (model.rs lines 377-391). -/
def hydrate_opt_string (entries : List (String × AMValue)) (key : String) : Option String :=
  match KV.alookup key entries with
  | none => none
  | some (.scalar (.str st)) => some st
  | some (.scalar .null) => none
  | some (.scalar _) => none
  | some _ => none

/-- Sparse `impl Hydrate for GenerationSettings` (model.rs lines 329-405). -/
def hydrateSettings (entries : List (String × AMValue)) : GenerationSettings :=
  { seed := hydrate_opt_i64 entries "seed"
    cfg := hydrate_opt_f64 entries "cfg"
    num_steps := hydrate_opt_i32 entries "num_steps"
    model := hydrate_opt_string entries "model"
    resolution := hydrate_opt_i32 entries "resolution"
    width := hydrate_opt_i32 entries "width"
    height := hydrate_opt_i32 entries "height"
    duration := hydrate_opt_i32 entries "duration"
    fps := hydrate_opt_i32 entries "fps" }

/-- Derived hydrate of a `String` field: requires a `Str` scalar. -/
def hydrateStr (entries : List (String × AMValue)) (key : String) : Option String :=
  match KV.alookup key entries with
  | some (.scalar (.str s)) => some s
  | _ => none

/-- Derived hydrate of a `bool` field: requires a `Boolean` scalar. -/
def hydrateBool (entries : List (String × AMValue)) (key : String) : Option Bool :=
  match KV.alookup key entries with
  | some (.scalar (.boolean b)) => some b
  | _ => none

/-- Derived hydrate of `Option<i64>` (used for `OutputAsset::seed`): an
absent key or `Null` is `None`, an integer is `Some`, anything else is a
hydration error. -/
def hydrateOptIntDerived (entries : List (String × AMValue)) (key : String) :
    Option (Option Int) :=
  match KV.alookup key entries with
  | none => some none
  | some (.scalar .null) => some none
  | some (.scalar (.int i)) => some (some i)
  | some (.scalar (.uint u)) => some (some (wrap64 u))
  | _ => none

/-- Derived `Hydrate` for `OutputAsset`. -/
def hydrateOutput (v : AMValue) : Option OutputAsset :=
  match v with
  | .map es =>
    match hydrateStr es "url" with
    | some url =>
      match hydrateOptIntDerived es "seed" with
      | some seed =>
        match hydrateBool es "is_selected" with
        | some sel => some ⟨url, seed, sel⟩
        | none => none
      | none => none
    | none => none
  | _ => none

/-- Hydrate a list object of output assets (error on first bad element). -/
def hydrateOutputList : List AMValue → Option (List OutputAsset)
  | [] => some []
  | v :: rest =>
    match hydrateOutput v with
    | some o =>
      match hydrateOutputList rest with
      | some l => some (o :: l)
      | none => none
    | none => none

/-- Derived `Hydrate` for `GenerationNode`. -/
def hydrateNode (v : AMValue) : Option GenerationNode :=
  match v with
  | .map es =>
    match hydrateStr es "id" with
    | some nid =>
      match hydrateStr es "type_" with
      | some ty =>
        match hydrateStr es "status" with
        | some st =>
          match hydrateStr es "title" with
          | some ti =>
            match hydrateStr es "prompt" with
            | some pr =>
              match hydrateStr es "negative_prompt" with
              | some np =>
                match hydrateStr es "notes" with
                | some no =>
                  match KV.alookup "settings" es with
                  | some (.map ses) =>
                    match KV.alookup "outputs" es with
                    | some (.list items) =>
                      match hydrateOutputList items with
                      | some outs =>
                        match hydrateStr es "metadata" with
                        | some md =>
                          some ⟨nid, ty, st, ti, pr, np, no, hydrateSettings ses, outs, md⟩
                        | none => none
                      | none => none
                    | _ => none
                  | _ => none
                | none => none
              | none => none
            | none => none
          | none => none
        | none => none
      | none => none
    | none => none
  | _ => none

/-- Hydrate the generations map's entries in iteration (sorted) order. -/
def hydrateEntries : List (String × AMValue) → Option (List (String × GenerationNode))
  | [] => some []
  | (k, v) :: rest =>
    match hydrateNode v with
    | some n =>
      match hydrateEntries rest with
      | some l => some ((k, n) :: l)
      | none => none
    | none => none

/-- `HashMap` hydrate: iterate the map object's (sorted) entries, hydrate
each value and insert it. -/
def hydrateGens (entries : List (String × AMValue)) : Option (StrMap GenerationNode) :=
  (hydrateEntries entries).map
    (fun l => l.foldl (fun acc e => acc.insert e.1 e.2) StrMap.empty)

/-- Hydrate a list object of strings. -/
def hydrateStrList : List AMValue → Option (List String)
  | [] => some []
  | .scalar (.str s) :: rest => (hydrateStrList rest).map (s :: ·)
  | _ => none

/-- Derived `Hydrate` for `DocumentRoot` (the full-document hydration used by
`SequenceManager::get_state`). -/
def hydrateRoot (v : AMValue) : Option DocumentRoot :=
  match v with
  | .map es =>
    match KV.alookup "sequence_order" es with
    | some (.list items) =>
      match hydrateStrList items with
      | some so =>
        match KV.alookup "generations" es with
        | some (.map ges) =>
          match hydrateGens ges with
          | some gens => some ⟨so, gens⟩
          | none => none
        | _ => none
      | none => none
    | _ => none
  | _ => none

-- =============================================================================
-- ROUND-TRIP: hydrate after reconcile recovers the snapshot
-- =============================================================================

theorem alookup_reconcileOpt_self (key : String) (ov : Option Scalar)
    (entries : List (String × AMValue)) :
    KV.alookup key (reconcileOpt key ov entries) = ov.map AMValue.scalar := by
  cases ov with
  | none => simp [reconcileOpt, KV.alookup_del_self]
  | some sc => simp [reconcileOpt, KV.alookup_put_self]

theorem alookup_reconcileOpt_ne (key key2 : String) (ov : Option Scalar)
    (entries : List (String × AMValue)) (h : key ≠ key2) :
    KV.alookup key2 (reconcileOpt key ov entries) = KV.alookup key2 entries := by
  cases ov with
  | none => simp [reconcileOpt, KV.alookup_del_ne _ _ _ h]
  | some sc => simp [reconcileOpt, KV.alookup_put_ne _ _ _ _ h]

theorem hydrate_opt_i64_int (entries : List (String × AMValue)) (key : String)
    (ov : Option Int) (h : KV.alookup key entries = ov.map (fun v => .scalar (.int v))) :
    hydrate_opt_i64 entries key = ov := by
  cases ov <;> simp_all [hydrate_opt_i64]

theorem hydrate_opt_i32_int (entries : List (String × AMValue)) (key : String)
    (ov : Option Int32) (h : KV.alookup key entries = ov.map (fun v => .scalar (.int v.val))) :
    hydrate_opt_i32 entries key = ov := by
  cases ov with
  | none => simp_all [hydrate_opt_i32, hydrate_opt_i64]
  | some v => simp_all [hydrate_opt_i32, hydrate_opt_i64, toInt32_val]

theorem hydrate_opt_f64_val (entries : List (String × AMValue)) (key : String)
    (ov : Option F64) (h : KV.alookup key entries = ov.map (fun v => .scalar (.f64 v))) :
    hydrate_opt_f64 entries key = ov := by
  cases ov <;> simp_all [hydrate_opt_f64]

theorem hydrate_opt_string_val (entries : List (String × AMValue)) (key : String)
    (ov : Option String) (h : KV.alookup key entries = ov.map (fun v => .scalar (.str v))) :
    hydrate_opt_string entries key = ov := by
  cases ov <;> simp_all [hydrate_opt_string]


/-- The sparse settings codec round-trips: hydrating a reconciled settings
object recovers the settings, whatever the old object contained. -/
theorem hydrateSettings_reconcileSettings (old : List (String × AMValue))
    (s : GenerationSettings) :
    hydrateSettings (reconcileSettings old s) = s := by
  obtain ⟨seed, cfg, num_steps, model, resolution, duration, width, height, fps⟩ := s
  have hseed : KV.alookup "seed"
      (reconcileSettings old ⟨seed, cfg, num_steps, model, resolution, duration, width, height, fps⟩) =
      seed.map (fun v => AMValue.scalar (.int v)) := by
    simp only [reconcileSettings]
    rw [alookup_reconcileOpt_ne _ _ _ _ (by decide), alookup_reconcileOpt_ne _ _ _ _ (by decide),
        alookup_reconcileOpt_ne _ _ _ _ (by decide), alookup_reconcileOpt_ne _ _ _ _ (by decide),
        alookup_reconcileOpt_ne _ _ _ _ (by decide), alookup_reconcileOpt_ne _ _ _ _ (by decide),
        alookup_reconcileOpt_ne _ _ _ _ (by decide), alookup_reconcileOpt_ne _ _ _ _ (by decide),
        alookup_reconcileOpt_self]
    cases seed <;> rfl
  have hcfg : KV.alookup "cfg"
      (reconcileSettings old ⟨seed, cfg, num_steps, model, resolution, duration, width, height, fps⟩) =
      cfg.map (fun v => AMValue.scalar (.f64 v)) := by
    simp only [reconcileSettings]
    rw [alookup_reconcileOpt_ne _ _ _ _ (by decide), alookup_reconcileOpt_ne _ _ _ _ (by decide),
        alookup_reconcileOpt_ne _ _ _ _ (by decide), alookup_reconcileOpt_ne _ _ _ _ (by decide),
        alookup_reconcileOpt_ne _ _ _ _ (by decide), alookup_reconcileOpt_ne _ _ _ _ (by decide),
        alookup_reconcileOpt_ne _ _ _ _ (by decide), alookup_reconcileOpt_self]
    cases cfg <;> rfl
  have hnum : KV.alookup "num_steps"
      (reconcileSettings old ⟨seed, cfg, num_steps, model, resolution, duration, width, height, fps⟩) =
      num_steps.map (fun v => AMValue.scalar (.int v.val)) := by
    simp only [reconcileSettings]
    rw [alookup_reconcileOpt_ne _ _ _ _ (by decide), alookup_reconcileOpt_ne _ _ _ _ (by decide),
        alookup_reconcileOpt_ne _ _ _ _ (by decide), alookup_reconcileOpt_ne _ _ _ _ (by decide),
        alookup_reconcileOpt_ne _ _ _ _ (by decide), alookup_reconcileOpt_ne _ _ _ _ (by decide),
        alookup_reconcileOpt_self]
    cases num_steps <;> rfl
  have hmodel : KV.alookup "model"
      (reconcileSettings old ⟨seed, cfg, num_steps, model, resolution, duration, width, height, fps⟩) =
      model.map (fun v => AMValue.scalar (.str v)) := by
    simp only [reconcileSettings]
    rw [alookup_reconcileOpt_ne _ _ _ _ (by decide), alookup_reconcileOpt_ne _ _ _ _ (by decide),
        alookup_reconcileOpt_ne _ _ _ _ (by decide), alookup_reconcileOpt_ne _ _ _ _ (by decide),
        alookup_reconcileOpt_ne _ _ _ _ (by decide), alookup_reconcileOpt_self]
    cases model <;> rfl
  have hres : KV.alookup "resolution"
      (reconcileSettings old ⟨seed, cfg, num_steps, model, resolution, duration, width, height, fps⟩) =
      resolution.map (fun v => AMValue.scalar (.int v.val)) := by
    simp only [reconcileSettings]
    rw [alookup_reconcileOpt_ne _ _ _ _ (by decide), alookup_reconcileOpt_ne _ _ _ _ (by decide),
        alookup_reconcileOpt_ne _ _ _ _ (by decide), alookup_reconcileOpt_ne _ _ _ _ (by decide),
        alookup_reconcileOpt_self]
    cases resolution <;> rfl
  have hwidth : KV.alookup "width"
      (reconcileSettings old ⟨seed, cfg, num_steps, model, resolution, duration, width, height, fps⟩) =
      width.map (fun v => AMValue.scalar (.int v.val)) := by
    simp only [reconcileSettings]
    rw [alookup_reconcileOpt_ne _ _ _ _ (by decide), alookup_reconcileOpt_ne _ _ _ _ (by decide),
        alookup_reconcileOpt_ne _ _ _ _ (by decide), alookup_reconcileOpt_self]
    cases width <;> rfl
  have hheight : KV.alookup "height"
      (reconcileSettings old ⟨seed, cfg, num_steps, model, resolution, duration, width, height, fps⟩) =
      height.map (fun v => AMValue.scalar (.int v.val)) := by
    simp only [reconcileSettings]
    rw [alookup_reconcileOpt_ne _ _ _ _ (by decide), alookup_reconcileOpt_ne _ _ _ _ (by decide),
        alookup_reconcileOpt_self]
    cases height <;> rfl
  have hdur : KV.alookup "duration"
      (reconcileSettings old ⟨seed, cfg, num_steps, model, resolution, duration, width, height, fps⟩) =
      duration.map (fun v => AMValue.scalar (.int v.val)) := by
    simp only [reconcileSettings]
    rw [alookup_reconcileOpt_ne _ _ _ _ (by decide), alookup_reconcileOpt_self]
    cases duration <;> rfl
  have hfps : KV.alookup "fps"
      (reconcileSettings old ⟨seed, cfg, num_steps, model, resolution, duration, width, height, fps⟩) =
      fps.map (fun v => AMValue.scalar (.int v.val)) := by
    simp only [reconcileSettings]
    rw [alookup_reconcileOpt_self]
    cases fps <;> rfl
  simp only [hydrateSettings]
  congr 1
  · exact hydrate_opt_i64_int _ _ _ hseed
  · exact hydrate_opt_f64_val _ _ _ hcfg
  · exact hydrate_opt_i32_int _ _ _ hnum
  · exact hydrate_opt_string_val _ _ _ hmodel
  · exact hydrate_opt_i32_int _ _ _ hres
  · exact hydrate_opt_i32_int _ _ _ hdur
  · exact hydrate_opt_i32_int _ _ _ hwidth
  · exact hydrate_opt_i32_int _ _ _ hheight
  · exact hydrate_opt_i32_int _ _ _ hfps

theorem hydrateOutput_encodeOutput (o : OutputAsset) :
    hydrateOutput (encodeOutput o) = some o := by
  obtain ⟨url, seed, sel⟩ := o
  cases seed <;>
    simp [hydrateOutput, encodeOutput, hydrateStr, hydrateBool, hydrateOptIntDerived,
      KV.alookup]

theorem hydrateOutputList_map (l : List OutputAsset) :
    hydrateOutputList (l.map encodeOutput) = some l := by
  induction l with
  | nil => rfl
  | cons o rest ih => simp [hydrateOutputList, hydrateOutput_encodeOutput, ih]

theorem hydrateStrList_map (l : List String) :
    hydrateStrList (l.map (fun x => AMValue.scalar (.str x))) = some l := by
  induction l with
  | nil => rfl
  | cons x rest ih => simp [hydrateStrList, ih]

/-- A reconciled node object hydrates back to the node, whatever the old
node object contained. -/
theorem hydrateNode_reconcileNode (old : List (String × AMValue)) (n : GenerationNode) :
    hydrateNode (.map (reconcileNode old n)) = some n := by
  obtain ⟨nid, ty, st, ti, pr, np, no, se, outs, md⟩ := n
  simp only [hydrateNode, reconcileNode]
  rw [show ∀ es, hydrateStr es "id" = match KV.alookup "id" es with
    | some (.scalar (.str s)) => some s | _ => none from fun _ => rfl]
  simp [hydrateStr, KV.alookup_put_self, KV.alookup_put_ne,
    hydrateSettings_reconcileSettings, hydrateOutputList_map]

theorem hydrateEntries_of_map (f : String → List (String × AMValue))
    (l : List (String × GenerationNode)) :
    hydrateEntries (l.map (fun e => (e.1, AMValue.map (reconcileNode (f e.1) e.2)))) =
      some l := by
  induction l with
  | nil => rfl
  | cons e rest ih =>
    obtain ⟨k, n⟩ := e
    simp [hydrateEntries, hydrateNode_reconcileNode, ih]

/-- A reconciled generations map hydrates back to the same `HashMap`. -/
theorem hydrateGens_reconcileGens (old : List (String × AMValue))
    (gens : StrMap GenerationNode) :
    hydrateGens (reconcileGens old gens) = some gens := by
  unfold hydrateGens reconcileGens
  rw [hydrateEntries_of_map (fun k =>
    match KV.alookup k old with
    | some (.map es) => es
    | _ => []) gens.val]
  simp only [Option.map_some']
  congr 1
  exact StrMap.ext (StrMap.foldl_insert_empty gens.val gens.property)

/-- Full-document round trip of the write/read paths: hydrating a reconciled
document recovers the snapshot exactly, whatever the previous document tree
contained (src/sequence/model.rs, both impl blocks). -/
theorem hydrateRoot_reconcileRoot (old : AMValue) (s : DocumentRoot) :
    hydrateRoot (reconcileRoot old s) = some s := by
  obtain ⟨so, gens⟩ := s
  simp only [reconcileRoot, hydrateRoot]
  rw [KV.alookup_put_ne _ _ _ _ (by decide : "generations" ≠ "sequence_order"),
    KV.alookup_put_self, KV.alookup_put_self]
  simp [encodeStrList, hydrateStrList_map, hydrateGens_reconcileGens]

-- =============================================================================
-- ERRORS (src/error.rs)
-- =============================================================================

/-- `CollabError` (src/error.rs), restricted to the variants reachable from
the modelled operations. -/
inductive CollabError : Type where
  | Automerge
  | Hydrate
  | Reconcile
  | NodeNotFound (id : String)
  | FieldNotFound (name : String)
  | SchemaViolation (msg : String)
deriving DecidableEq

-- =============================================================================
-- PATH-ADDRESSED TREE OPERATIONS
--
-- Automerge `ObjId`s are modelled as paths from the root: within one document
-- epoch (no load/merge/incremental-apply in between) a cached handle denotes
-- the object at a fixed path, which is exactly the invariant the topology
-- cache relies on (manager.rs lines 27-34).
-- =============================================================================

/-- A handle to a nested object: the key path from the document root. -/
abbrev ObjPath : Type := List String

/-- Navigate the tree along a key path. -/
def getAtPath (v : AMValue) : ObjPath → Option AMValue
  | [] => some v
  | k :: rest =>
    match v with
    | .map entries =>
      match KV.alookup k entries with
      | some child => getAtPath child rest
      | none => none
    | _ => none

/-- `doc.put(obj, key, value)`: put a value under `key` in the map object at
path `obj` (the path is valid by construction when it came from handle
resolution). -/
def putAtPath : AMValue → ObjPath → String → AMValue → AMValue
  | v, [], key, child =>
    match v with
    | .map entries => .map (KV.put key child entries)
    | other => other
  | v, k :: rest, key, child =>
    match v with
    | .map entries => .map (KV.modifyVal k (fun c => putAtPath c rest key child) entries)
    | other => other

/-- `doc.delete(obj, key)`: delete `key` in the map object at path `obj`
(a no-op when the key is already absent). -/
def delAtPath : AMValue → ObjPath → String → AMValue
  | v, [], key =>
    match v with
    | .map entries => .map (KV.del key entries)
    | other => other
  | v, k :: rest, key =>
    match v with
    | .map entries => .map (KV.modifyVal k (fun c => delAtPath c rest key) entries)
    | other => other

-- =============================================================================
-- SEQUENCE MANAGER (src/sequence/manager.rs)
-- =============================================================================

/-- `SequenceManager` (manager.rs lines 28-35): the automerge document plus
the two caches. -/
structure SequenceManager where
  doc : AMValue
  /-- Cached hydrated state - invalidated after direct document mutations. -/
  cached_state : Option DocumentRoot
  /-- Cached ObjId for the "generations" map. Invalidated on `from_bytes()`
  and `merge()`. -/
  cached_generations_obj : Option ObjPath

namespace SequenceManager

/-- `SequenceManager::new()` (manager.rs lines 43-52): reconcile the default
root into an empty document; the state cache is primed, the topology cache
is lazily populated. -/
def new : SequenceManager :=
  { doc := reconcileRoot (.map []) DocumentRoot.default
    cached_state := some DocumentRoot.default
    cached_generations_obj := none }

/-- `SequenceManager::from_bytes(bytes)` (manager.rs lines 55-62).  The
engine's `save`/`load` pair is content-preserving (black box, spec section
6), so the loaded bytes are identified with the document tree they encode;
both caches start empty. -/
def from_bytes (bytes : AMValue) : SequenceManager :=
  { doc := bytes, cached_state := none, cached_generations_obj := none }

/-- `SequenceManager::get_state()` (manager.rs lines 90-97): serve the cached
snapshot if present, otherwise hydrate and populate the cache. -/
def get_state (m : SequenceManager) :
    Except CollabError DocumentRoot × SequenceManager :=
  match m.cached_state with
  | some cached => (.ok cached, m)
  | none =>
    match hydrateRoot m.doc with
    | some state => (.ok state, { m with cached_state := some state })
    | none => (.error .Hydrate, m)

/-- `SequenceManager::update_state(f)` (manager.rs lines 101-111): hydrate,
mutate the detached copy, reconcile it back, replace the state cache; the
topology cache is deliberately left untouched. -/
def update_state (m : SequenceManager) (f : DocumentRoot → DocumentRoot) :
    Except CollabError Unit × SequenceManager :=
  match m.get_state with
  | (.ok state, m1) =>
    let state2 := f state
    (.ok (), { m1 with doc := reconcileRoot m1.doc state2, cached_state := some state2 })
  | (.error e, m1) => (.error e, m1)

/-- `SequenceManager::create_node` (manager.rs lines 114-118). -/
def create_node (m : SequenceManager) (id : String) (node : GenerationNode) :
    Except CollabError Unit × SequenceManager :=
  m.update_state (fun state =>
    { state with generations := state.generations.insert id node })

/-- `SequenceManager::append_generation` (manager.rs lines 121-128). -/
def append_generation (m : SequenceManager) (id : String) :
    Except CollabError Unit × SequenceManager :=
  m.update_state (fun state =>
    if id ∈ state.sequence_order then state
    else { state with sequence_order := state.sequence_order ++ [id] })

/-- `SequenceManager::create_and_append` (manager.rs lines 131-139). -/
def create_and_append (m : SequenceManager) (id : String) (node : GenerationNode) :
    Except CollabError Unit × SequenceManager :=
  m.update_state (fun state =>
    let state := { state with generations := state.generations.insert id node }
    if id ∈ state.sequence_order then state
    else { state with sequence_order := state.sequence_order ++ [id] })

/-- `SequenceManager::get_node` (manager.rs lines 142-145). -/
def get_node (m : SequenceManager) (id : String) :
    Except CollabError (Option GenerationNode) × SequenceManager :=
  match m.get_state with
  | (.ok state, m1) => (.ok (state.generations.get id), m1)
  | (.error e, m1) => (.error e, m1)

/-- `SequenceManager::update_node` (manager.rs lines 148-157): mutate the
node under `id` if present, silently do nothing otherwise. -/
def update_node (m : SequenceManager) (id : String) (f : GenerationNode → GenerationNode) :
    Except CollabError Unit × SequenceManager :=
  m.update_state (fun state =>
    { state with generations := state.generations.modify id f })

/-- `SequenceManager::update_settings` (manager.rs lines 161-170). -/
def update_settings (m : SequenceManager) (id : String)
    (f : GenerationSettings → GenerationSettings) :
    Except CollabError Unit × SequenceManager :=
  m.update_state (fun state =>
    { state with generations :=
        state.generations.modify id (fun n => { n with settings := f n.settings }) })

/-- `SequenceManager::add_output` (manager.rs lines 173-179). -/
def add_output (m : SequenceManager) (node_id : String) (output : OutputAsset) :
    Except CollabError Unit × SequenceManager :=
  m.update_state (fun state =>
    { state with generations :=
        state.generations.modify node_id (fun n => { n with outputs := n.outputs ++ [output] }) })

/-- `SequenceManager::delete_node` (manager.rs lines 182-187): remove from
the collection and from the order list. -/
def delete_node (m : SequenceManager) (id : String) :
    Except CollabError Unit × SequenceManager :=
  m.update_state (fun state =>
    { state with generations := state.generations.erase id,
                 sequence_order := state.sequence_order.filter (fun s => decide (s ≠ id)) })

/-- `SequenceManager::remove_from_order` (manager.rs lines 190-194). -/
def remove_from_order (m : SequenceManager) (id : String) :
    Except CollabError Unit × SequenceManager :=
  m.update_state (fun state =>
    { state with sequence_order := state.sequence_order.filter (fun s => decide (s ≠ id)) })

/-- `SequenceManager::insert_at_position` (manager.rs lines 197-204). -/
def insert_at_position (m : SequenceManager) (index : Nat) (id : String) :
    Except CollabError Unit × SequenceManager :=
  m.update_state (fun state =>
    if index ≤ state.sequence_order.length ∧ id ∉ state.sequence_order then
      { state with sequence_order := state.sequence_order.insertIdx index id }
    else state)

/-- `SequenceManager::move_generation` (manager.rs lines 207-216). -/
def move_generation (m : SequenceManager) (src dst : Nat) :
    Except CollabError Unit × SequenceManager :=
  m.update_state (fun state =>
    if h : src < state.sequence_order.length ∧ dst ≤ state.sequence_order.length ∧ src ≠ dst
    then
      let id := state.sequence_order.get ⟨src, h.1⟩
      let removed := state.sequence_order.eraseIdx src
      let adjusted := if src < dst then dst - 1 else dst
      { state with sequence_order := removed.insertIdx adjusted id }
    else state)

/-- `SequenceManager::get_order` (manager.rs lines 219-222). -/
def get_order (m : SequenceManager) :
    Except CollabError (List String) × SequenceManager :=
  match m.get_state with
  | (.ok state, m1) => (.ok state.sequence_order, m1)
  | (.error e, m1) => (.error e, m1)

/-- `SequenceManager::get_obj_at_key` (manager.rs lines 407-424): resolve a
key inside a parent container; a missing key that is shaped like a UUID
(36 bytes) reports `NodeNotFound`, any other missing key `FieldNotFound`, a
present non-object key `SchemaViolation`. -/
def get_obj_at_key (m : SequenceManager) (parent : ObjPath) (key : String) :
    Except CollabError ObjPath :=
  match getAtPath m.doc parent with
  | some (.map entries) =>
    match KV.alookup key entries with
    | some (.map _) => .ok (parent ++ [key])
    | some (.list _) => .ok (parent ++ [key])
    | some (.scalar _) =>
      .error (.SchemaViolation (String.append key " is not an object"))
    | none =>
      if key.utf8ByteSize = 36 then .error (.NodeNotFound key)
      else .error (.FieldNotFound key)
  | _ => .error .Automerge

/-- `SequenceManager::get_generations_obj` (manager.rs lines 385-392): serve
the cached handle or discover and cache it. -/
def get_generations_obj (m : SequenceManager) :
    Except CollabError ObjPath × SequenceManager :=
  match m.cached_generations_obj with
  | some obj => (.ok obj, m)
  | none =>
    match m.get_obj_at_key [] "generations" with
    | .ok obj => (.ok obj, { m with cached_generations_obj := some obj })
    | .error e => (.error e, m)

/-- `SequenceManager::get_node_obj` (manager.rs lines 395-398). -/
def get_node_obj (m : SequenceManager) (node_id : String) :
    Except CollabError ObjPath × SequenceManager :=
  match m.get_generations_obj with
  | (.ok gens, m1) =>
    match m1.get_obj_at_key gens node_id with
    | .ok obj => (.ok obj, m1)
    | .error e => (.error e, m1)
  | (.error e, m1) => (.error e, m1)

/-- `SequenceManager::get_settings_obj` (manager.rs lines 401-404). -/
def get_settings_obj (m : SequenceManager) (node_id : String) :
    Except CollabError ObjPath × SequenceManager :=
  match m.get_node_obj node_id with
  | (.ok node_obj, m1) =>
    match m1.get_obj_at_key node_obj "settings" with
    | .ok obj => (.ok obj, m1)
    | .error e => (.error e, m1)
  | (.error e, m1) => (.error e, m1)

/-- `SequenceManager::set_setting_value` (manager.rs lines 230-240): clear
the state cache, resolve the settings object (via the topology cache), issue
one scalar put. -/
def set_setting_value (m : SequenceManager) (node_id key : String) (value : Scalar) :
    Except CollabError Unit × SequenceManager :=
  match ({ m with cached_state := none } : SequenceManager).get_settings_obj node_id with
  | (.ok obj, m1) => (.ok (), { m1 with doc := putAtPath m1.doc obj key (.scalar value) })
  | (.error e, m1) => (.error e, m1)

/-- `SequenceManager::set_setting_null` (manager.rs lines 244-249): clear the
state cache, resolve the settings object, delete the key. -/
def set_setting_null (m : SequenceManager) (node_id key : String) :
    Except CollabError Unit × SequenceManager :=
  match ({ m with cached_state := none } : SequenceManager).get_settings_obj node_id with
  | (.ok obj, m1) => (.ok (), { m1 with doc := delAtPath m1.doc obj key })
  | (.error e, m1) => (.error e, m1)

/-- `SequenceManager::set_setting_seed` (manager.rs lines 252-257). -/
def set_setting_seed (m : SequenceManager) (node_id : String) (seed : Option Int) :
    Except CollabError Unit × SequenceManager :=
  match seed with
  | some v => m.set_setting_value node_id "seed" (.int v)
  | none => m.set_setting_null node_id "seed"

/-- `SequenceManager::set_setting_cfg` (manager.rs lines 260-265). -/
def set_setting_cfg (m : SequenceManager) (node_id : String) (cfg : Option F64) :
    Except CollabError Unit × SequenceManager :=
  match cfg with
  | some v => m.set_setting_value node_id "cfg" (.f64 v)
  | none => m.set_setting_null node_id "cfg"

/-- `SequenceManager::set_setting_num_steps` (manager.rs lines 268-273). -/
def set_setting_num_steps (m : SequenceManager) (node_id : String) (steps : Option Int32) :
    Except CollabError Unit × SequenceManager :=
  match steps with
  | some v => m.set_setting_value node_id "num_steps" (.int v.val)
  | none => m.set_setting_null node_id "num_steps"

/-- `SequenceManager::set_setting_model` (manager.rs lines 276-281). -/
def set_setting_model (m : SequenceManager) (node_id : String) (mdl : Option String) :
    Except CollabError Unit × SequenceManager :=
  match mdl with
  | some v => m.set_setting_value node_id "model" (.str v)
  | none => m.set_setting_null node_id "model"

/-- `SequenceManager::set_setting_resolution` (manager.rs lines 284-293). -/
def set_setting_resolution (m : SequenceManager) (node_id : String) (res : Option Int32) :
    Except CollabError Unit × SequenceManager :=
  match res with
  | some v => m.set_setting_value node_id "resolution" (.int v.val)
  | none => m.set_setting_null node_id "resolution"

/-- `SequenceManager::set_setting_width` (manager.rs lines 296-301). -/
def set_setting_width (m : SequenceManager) (node_id : String) (width : Option Int32) :
    Except CollabError Unit × SequenceManager :=
  match width with
  | some v => m.set_setting_value node_id "width" (.int v.val)
  | none => m.set_setting_null node_id "width"

/-- `SequenceManager::set_setting_height` (manager.rs lines 304-309). -/
def set_setting_height (m : SequenceManager) (node_id : String) (height : Option Int32) :
    Except CollabError Unit × SequenceManager :=
  match height with
  | some v => m.set_setting_value node_id "height" (.int v.val)
  | none => m.set_setting_null node_id "height"

/-- `SequenceManager::set_setting_duration` (manager.rs lines 312-321). -/
def set_setting_duration (m : SequenceManager) (node_id : String) (dur : Option Int32) :
    Except CollabError Unit × SequenceManager :=
  match dur with
  | some v => m.set_setting_value node_id "duration" (.int v.val)
  | none => m.set_setting_null node_id "duration"

/-- `SequenceManager::set_setting_fps` (manager.rs lines 324-329). -/
def set_setting_fps (m : SequenceManager) (node_id : String) (fps : Option Int32) :
    Except CollabError Unit × SequenceManager :=
  match fps with
  | some v => m.set_setting_value node_id "fps" (.int v.val)
  | none => m.set_setting_null node_id "fps"

/-- `SequenceManager::set_status` (manager.rs lines 332-338). -/
def set_status (m : SequenceManager) (node_id status : String) :
    Except CollabError Unit × SequenceManager :=
  match ({ m with cached_state := none } : SequenceManager).get_node_obj node_id with
  | (.ok obj, m1) => (.ok (), { m1 with doc := putAtPath m1.doc obj "status" (.scalar (.str status)) })
  | (.error e, m1) => (.error e, m1)

/-- `SequenceManager::merge` (manager.rs lines 349-353): both caches are
invalidated unconditionally; the merged document content is produced by the
CRDT engine (black box), so it appears as a parameter. -/
def merge (m : SequenceManager) (merged : AMValue) : SequenceManager :=
  { doc := merged, cached_state := none, cached_generations_obj := none }

/-- `SequenceManager::apply_sync_message` (manager.rs lines 370-374): both
caches are invalidated unconditionally; the post-apply document content is
produced by the CRDT engine (black box), so it appears as a parameter. -/
def apply_sync_message (m : SequenceManager) (applied : AMValue) : SequenceManager :=
  { doc := applied, cached_state := none, cached_generations_obj := none }

end SequenceManager


namespace SequenceManager

/-- Automerge map objects keep their keys sorted; this records that invariant
for the generations map object of a document tree (needed to relate tree
lookups to `HashMap` gets). -/
def gensSorted (t : AMValue) : Bool :=
  match t with
  | .map es =>
    match KV.alookup "generations" es with
    | some (.map ges) => decide (KV.KeySorted ges)
    | _ => true
  | _ => true

/-- A manager whose document hydrates to snapshot `s` and whose caches are
coherent with it: the state cache, when warm, holds `s`; the topology cache,
when warm, holds the handle of the root "generations" object. -/
def GoodState (m : SequenceManager) (s : DocumentRoot) : Prop :=
  hydrateRoot m.doc = some s ∧
  (m.cached_state = none ∨ m.cached_state = some s) ∧
  (m.cached_generations_obj = none ∨ m.cached_generations_obj = some ["generations"]) ∧
  gensSorted m.doc = true

theorem mk_cached_eta (m : SequenceManager) {s : DocumentRoot}
    (h : m.cached_state = some s) : { m with cached_state := some s } = m := by
  cases m
  simp_all

theorem get_state_good {m : SequenceManager} {s : DocumentRoot} (h : GoodState m s) :
    m.get_state = (.ok s, { m with cached_state := some s }) := by
  obtain ⟨hh, hc, _⟩ := h
  rcases hc with hc | hc
  · unfold get_state
    rw [hc, hh]
  · rw [mk_cached_eta m hc]
    unfold get_state
    rw [hc]

end SequenceManager

namespace SequenceManager

theorem update_state_good {m : SequenceManager} {s : DocumentRoot} (h : GoodState m s)
    (f : DocumentRoot → DocumentRoot) :
    m.update_state f =
      (.ok (), ⟨reconcileRoot m.doc (f s), some (f s), m.cached_generations_obj⟩) := by
  unfold update_state
  rw [get_state_good h]

theorem gensSorted_reconcileRoot (old : AMValue) (s : DocumentRoot) :
    gensSorted (reconcileRoot old s) = true := by
  simp only [reconcileRoot, gensSorted]
  rw [KV.alookup_put_self]
  simp only [decide_eq_true_eq]
  exact List.pairwise_map.mpr (s.generations.property.imp (fun hab => hab))

theorem goodState_update {m : SequenceManager} {s : DocumentRoot} (h : GoodState m s)
    (f : DocumentRoot → DocumentRoot) :
    GoodState (m.update_state f).2 (f s) := by
  rw [update_state_good h f]
  exact ⟨hydrateRoot_reconcileRoot _ _, Or.inr rfl, h.2.2.1, gensSorted_reconcileRoot _ _⟩

theorem goodState_new : GoodState new DocumentRoot.default := by
  refine ⟨?_, ?_, ?_, ?_⟩
  · exact hydrateRoot_reconcileRoot (.map []) DocumentRoot.default
  · exact Or.inr rfl
  · exact Or.inl rfl
  · exact gensSorted_reconcileRoot (.map []) DocumentRoot.default

end SequenceManager

namespace SequenceManager

theorem get_generations_obj_frame {m : SequenceManager} {r : Except CollabError ObjPath}
    {m1 : SequenceManager} (h : m.get_generations_obj = (r, m1)) :
    m1.doc = m.doc ∧ m1.cached_state = m.cached_state ∧
    (m1.cached_generations_obj = m.cached_generations_obj ∨
      m.cached_generations_obj = none) := by
  unfold get_generations_obj at h
  rcases hc : m.cached_generations_obj with _ | obj
  · rw [hc] at h
    rcases hr : m.get_obj_at_key [] "generations" with obj | e <;> rw [hr] at h <;>
      injection h with h1 h2 <;> subst h2
    · exact ⟨rfl, rfl, Or.inr rfl⟩
    · exact ⟨rfl, rfl, Or.inr rfl⟩
  · rw [hc] at h
    injection h with h1 h2
    subst h2
    exact ⟨rfl, rfl, Or.inl hc⟩

theorem get_node_obj_frame {m : SequenceManager} {node_id : String}
    {r : Except CollabError ObjPath} {m1 : SequenceManager}
    (h : m.get_node_obj node_id = (r, m1)) :
    m1.doc = m.doc ∧ m1.cached_state = m.cached_state ∧
    (m1.cached_generations_obj = m.cached_generations_obj ∨
      m.cached_generations_obj = none) := by
  unfold get_node_obj at h
  split at h
  · rename_i gens m0 heq
    have hf := get_generations_obj_frame heq
    split at h <;> injection h with h1 h2 <;> subst h2 <;> exact hf
  · rename_i e m0 heq
    have hf := get_generations_obj_frame heq
    injection h with h1 h2
    subst h2
    exact hf

theorem get_settings_obj_frame {m : SequenceManager} {node_id : String}
    {r : Except CollabError ObjPath} {m1 : SequenceManager}
    (h : m.get_settings_obj node_id = (r, m1)) :
    m1.doc = m.doc ∧ m1.cached_state = m.cached_state ∧
    (m1.cached_generations_obj = m.cached_generations_obj ∨
      m.cached_generations_obj = none) := by
  unfold get_settings_obj at h
  split at h
  · rename_i node_obj m0 heq
    have hf := get_node_obj_frame heq
    split at h <;> injection h with h1 h2 <;> subst h2 <;> exact hf
  · rename_i e m0 heq
    have hf := get_node_obj_frame heq
    injection h with h1 h2
    subst h2
    exact hf

end SequenceManager

namespace SequenceManager

theorem set_setting_value_cached {m : SequenceManager} {node_id key : String}
    {value : Scalar} {r : Except CollabError Unit} {m1 : SequenceManager}
    (h : m.set_setting_value node_id key value = (r, m1)) :
    m1.cached_state = none := by
  unfold set_setting_value at h
  split at h <;> rename_i o m0 heq <;>
    injection h with h1 h2 <;> subst h2 <;>
    exact (get_settings_obj_frame heq).2.1

theorem set_setting_null_cached {m : SequenceManager} {node_id key : String}
    {r : Except CollabError Unit} {m1 : SequenceManager}
    (h : m.set_setting_null node_id key = (r, m1)) :
    m1.cached_state = none := by
  unfold set_setting_null at h
  split at h <;> rename_i o m0 heq <;>
    injection h with h1 h2 <;> subst h2 <;>
    exact (get_settings_obj_frame heq).2.1

theorem set_status_cached {m : SequenceManager} {node_id status : String}
    {r : Except CollabError Unit} {m1 : SequenceManager}
    (h : m.set_status node_id status = (r, m1)) :
    m1.cached_state = none := by
  unfold set_status at h
  split at h <;> rename_i o m0 heq <;>
    injection h with h1 h2 <;> subst h2 <;>
    exact (get_node_obj_frame heq).2.1

end SequenceManager

-- =============================================================================
-- TARGETED-WRITE HELPER LEMMAS
-- =============================================================================

namespace KV

theorem modifyVal_absent {α : Type} (k : String) (f : α → α) (l : List (String × α))
    (h : alookup k l = none) : modifyVal k f l = l := by
  induction l with
  | nil => rfl
  | cons e rest ih =>
    obtain ⟨k', v'⟩ := e
    by_cases hk : k' = k
    · simp [alookup, hk] at h
    · simp only [alookup, if_neg hk] at h
      have h2 := ih h
      simp only [modifyVal, List.map_cons, if_neg hk] at h2 ⊢
      rw [h2]

theorem modifyVal_modifyVal {α : Type} (k : String) (f g : α → α)
    (l : List (String × α)) :
    modifyVal k g (modifyVal k f l) = modifyVal k (fun x => g (f x)) l := by
  induction l with
  | nil => rfl
  | cons e rest ih =>
    obtain ⟨k', v'⟩ := e
    by_cases hk : k' = k <;> simp [modifyVal, hk] at ih ⊢ <;> exact ih

theorem modifyVal_congr {α : Type} (k : String) (f g : α → α)
    (l : List (String × α)) (h : ∀ x, f x = g x) :
    modifyVal k f l = modifyVal k g l := by
  have : f = g := funext h
  rw [this]

end KV

namespace StrMap

theorem modify_absent {α : Type} (m : StrMap α) (k : String) (f : α → α)
    (h : m.get k = none) : m.modify k f = m :=
  ext (KV.modifyVal_absent k f m.val h)

theorem modify_modify {α : Type} (m : StrMap α) (k : String) (f g : α → α) :
    (m.modify k f).modify k g = m.modify k (fun x => g (f x)) :=
  ext (KV.modifyVal_modifyVal k f g m.val)

theorem modify_congr {α : Type} (m : StrMap α) (k : String) (f g : α → α)
    (h : ∀ x, f x = g x) : m.modify k f = m.modify k g :=
  ext (KV.modifyVal_congr k f g m.val h)

end StrMap

theorem hydrateSettings_put_seed (ses : List (String × AMValue)) (v : Int) :
    hydrateSettings (KV.put "seed" (AMValue.scalar (.int v)) ses) =
      { hydrateSettings ses with seed := some v } := by
  simp [hydrateSettings, hydrate_opt_i64, hydrate_opt_f64, hydrate_opt_i32,
    hydrate_opt_string, KV.alookup_put_self, KV.alookup_put_ne]

theorem hydrateSettings_put_cfg (ses : List (String × AMValue)) (v : F64) :
    hydrateSettings (KV.put "cfg" (AMValue.scalar (.f64 v)) ses) =
      { hydrateSettings ses with cfg := some v } := by
  simp [hydrateSettings, hydrate_opt_i64, hydrate_opt_f64, hydrate_opt_i32,
    hydrate_opt_string, KV.alookup_put_self, KV.alookup_put_ne]

theorem hydrateSettings_put_num_steps (ses : List (String × AMValue)) (v : Int32) :
    hydrateSettings (KV.put "num_steps" (AMValue.scalar (.int v.val)) ses) =
      { hydrateSettings ses with num_steps := some v } := by
  simp [hydrateSettings, hydrate_opt_i64, hydrate_opt_f64, hydrate_opt_i32,
    hydrate_opt_string, KV.alookup_put_self, KV.alookup_put_ne, toInt32_val]

theorem hydrateSettings_put_model (ses : List (String × AMValue)) (v : String) :
    hydrateSettings (KV.put "model" (AMValue.scalar (.str v)) ses) =
      { hydrateSettings ses with model := some v } := by
  simp [hydrateSettings, hydrate_opt_i64, hydrate_opt_f64, hydrate_opt_i32,
    hydrate_opt_string, KV.alookup_put_self, KV.alookup_put_ne]

theorem hydrateSettings_put_resolution (ses : List (String × AMValue)) (v : Int32) :
    hydrateSettings (KV.put "resolution" (AMValue.scalar (.int v.val)) ses) =
      { hydrateSettings ses with resolution := some v } := by
  simp [hydrateSettings, hydrate_opt_i64, hydrate_opt_f64, hydrate_opt_i32,
    hydrate_opt_string, KV.alookup_put_self, KV.alookup_put_ne, toInt32_val]

theorem hydrateSettings_put_width (ses : List (String × AMValue)) (v : Int32) :
    hydrateSettings (KV.put "width" (AMValue.scalar (.int v.val)) ses) =
      { hydrateSettings ses with width := some v } := by
  simp [hydrateSettings, hydrate_opt_i64, hydrate_opt_f64, hydrate_opt_i32,
    hydrate_opt_string, KV.alookup_put_self, KV.alookup_put_ne, toInt32_val]

theorem hydrateSettings_put_height (ses : List (String × AMValue)) (v : Int32) :
    hydrateSettings (KV.put "height" (AMValue.scalar (.int v.val)) ses) =
      { hydrateSettings ses with height := some v } := by
  simp [hydrateSettings, hydrate_opt_i64, hydrate_opt_f64, hydrate_opt_i32,
    hydrate_opt_string, KV.alookup_put_self, KV.alookup_put_ne, toInt32_val]

theorem hydrateSettings_put_duration (ses : List (String × AMValue)) (v : Int32) :
    hydrateSettings (KV.put "duration" (AMValue.scalar (.int v.val)) ses) =
      { hydrateSettings ses with duration := some v } := by
  simp [hydrateSettings, hydrate_opt_i64, hydrate_opt_f64, hydrate_opt_i32,
    hydrate_opt_string, KV.alookup_put_self, KV.alookup_put_ne, toInt32_val]

theorem hydrateSettings_put_fps (ses : List (String × AMValue)) (v : Int32) :
    hydrateSettings (KV.put "fps" (AMValue.scalar (.int v.val)) ses) =
      { hydrateSettings ses with fps := some v } := by
  simp [hydrateSettings, hydrate_opt_i64, hydrate_opt_f64, hydrate_opt_i32,
    hydrate_opt_string, KV.alookup_put_self, KV.alookup_put_ne, toInt32_val]

theorem hydrateSettings_del_seed (ses : List (String × AMValue)) :
    hydrateSettings (KV.del "seed" ses) =
      { hydrateSettings ses with seed := none } := by
  simp [hydrateSettings, hydrate_opt_i64, hydrate_opt_f64, hydrate_opt_i32,
    hydrate_opt_string, KV.alookup_del_self, KV.alookup_del_ne]

theorem hydrateSettings_del_cfg (ses : List (String × AMValue)) :
    hydrateSettings (KV.del "cfg" ses) =
      { hydrateSettings ses with cfg := none } := by
  simp [hydrateSettings, hydrate_opt_i64, hydrate_opt_f64, hydrate_opt_i32,
    hydrate_opt_string, KV.alookup_del_self, KV.alookup_del_ne]

theorem hydrateSettings_del_num_steps (ses : List (String × AMValue)) :
    hydrateSettings (KV.del "num_steps" ses) =
      { hydrateSettings ses with num_steps := none } := by
  simp [hydrateSettings, hydrate_opt_i64, hydrate_opt_f64, hydrate_opt_i32,
    hydrate_opt_string, KV.alookup_del_self, KV.alookup_del_ne]

theorem hydrateSettings_del_model (ses : List (String × AMValue)) :
    hydrateSettings (KV.del "model" ses) =
      { hydrateSettings ses with model := none } := by
  simp [hydrateSettings, hydrate_opt_i64, hydrate_opt_f64, hydrate_opt_i32,
    hydrate_opt_string, KV.alookup_del_self, KV.alookup_del_ne]

theorem hydrateSettings_del_resolution (ses : List (String × AMValue)) :
    hydrateSettings (KV.del "resolution" ses) =
      { hydrateSettings ses with resolution := none } := by
  simp [hydrateSettings, hydrate_opt_i64, hydrate_opt_f64, hydrate_opt_i32,
    hydrate_opt_string, KV.alookup_del_self, KV.alookup_del_ne]

theorem hydrateSettings_del_width (ses : List (String × AMValue)) :
    hydrateSettings (KV.del "width" ses) =
      { hydrateSettings ses with width := none } := by
  simp [hydrateSettings, hydrate_opt_i64, hydrate_opt_f64, hydrate_opt_i32,
    hydrate_opt_string, KV.alookup_del_self, KV.alookup_del_ne]

theorem hydrateSettings_del_height (ses : List (String × AMValue)) :
    hydrateSettings (KV.del "height" ses) =
      { hydrateSettings ses with height := none } := by
  simp [hydrateSettings, hydrate_opt_i64, hydrate_opt_f64, hydrate_opt_i32,
    hydrate_opt_string, KV.alookup_del_self, KV.alookup_del_ne]

theorem hydrateSettings_del_duration (ses : List (String × AMValue)) :
    hydrateSettings (KV.del "duration" ses) =
      { hydrateSettings ses with duration := none } := by
  simp [hydrateSettings, hydrate_opt_i64, hydrate_opt_f64, hydrate_opt_i32,
    hydrate_opt_string, KV.alookup_del_self, KV.alookup_del_ne]

theorem hydrateSettings_del_fps (ses : List (String × AMValue)) :
    hydrateSettings (KV.del "fps" ses) =
      { hydrateSettings ses with fps := none } := by
  simp [hydrateSettings, hydrate_opt_i64, hydrate_opt_f64, hydrate_opt_i32,
    hydrate_opt_string, KV.alookup_del_self, KV.alookup_del_ne]

theorem keySorted_of_keys_eq {α β : Type} {l1 : List (String × α)} {l2 : List (String × β)}
    (hk : l1.map Prod.fst = l2.map Prod.fst) (h : KV.KeySorted l2) : KV.KeySorted l1 := by
  have h2 : (l2.map Prod.fst).Pairwise (· < ·) :=
    List.pairwise_map.mpr (h.imp (fun hab => hab))
  rw [← hk] at h2
  exact (List.pairwise_map.mp h2).imp (fun hab => hab)

theorem hydrateRoot_elim {t : AMValue} {s : DocumentRoot} (h : hydrateRoot t = some s) :
    ∃ es items ges,
      t = .map es ∧
      KV.alookup "sequence_order" es = some (.list items) ∧
      hydrateStrList items = some s.sequence_order ∧
      KV.alookup "generations" es = some (.map ges) ∧
      hydrateGens ges = some s.generations := by
  unfold hydrateRoot at h
  split at h
  · rename_i es
    split at h
    · rename_i items heq1
      split at h
      · rename_i so heq2
        split at h
        · rename_i ges heq3
          split at h
          · rename_i gens heq4
            injection h with h
            subst h
            exact ⟨es, items, ges, rfl, heq1, heq2, heq3, heq4⟩
          · exact Option.noConfusion h
        · exact Option.noConfusion h
      · exact Option.noConfusion h
    · exact Option.noConfusion h
  · exact Option.noConfusion h

theorem hydrateNode_elim {tv : AMValue} {n : GenerationNode} (h : hydrateNode tv = some n) :
    ∃ nes ses outItems,
      tv = .map nes ∧
      hydrateStr nes "id" = some n.id ∧
      hydrateStr nes "type_" = some n.type_ ∧
      hydrateStr nes "status" = some n.status ∧
      hydrateStr nes "title" = some n.title ∧
      hydrateStr nes "prompt" = some n.prompt ∧
      hydrateStr nes "negative_prompt" = some n.negative_prompt ∧
      hydrateStr nes "notes" = some n.notes ∧
      KV.alookup "settings" nes = some (.map ses) ∧
      hydrateSettings ses = n.settings ∧
      KV.alookup "outputs" nes = some (.list outItems) ∧
      hydrateOutputList outItems = some n.outputs ∧
      hydrateStr nes "metadata" = some n.metadata := by
  unfold hydrateNode at h
  split at h
  · rename_i nes
    split at h
    · rename_i nid h1
      split at h
      · rename_i ty h2
        split at h
        · rename_i st h3
          split at h
          · rename_i ti h4
            split at h
            · rename_i pr h5
              split at h
              · rename_i np h6
                split at h
                · rename_i no h7
                  split at h
                  · rename_i ses h8
                    split at h
                    · rename_i outItems h9
                      split at h
                      · rename_i outs h10
                        split at h
                        · rename_i md h11
                          injection h with h
                          subst h
                          exact ⟨nes, ses, outItems, rfl, h1, h2, h3, h4, h5,
                            h6, h7, h8, rfl, h9, h10, h11⟩
                        · exact Option.noConfusion h
                      · exact Option.noConfusion h
                    · exact Option.noConfusion h
                  · exact Option.noConfusion h
                · exact Option.noConfusion h
              · exact Option.noConfusion h
            · exact Option.noConfusion h
          · exact Option.noConfusion h
        · exact Option.noConfusion h
      · exact Option.noConfusion h
    · exact Option.noConfusion h
  · exact Option.noConfusion h

theorem hydrateStr_modifyVal_ne (k key : String) (F : AMValue → AMValue)
    (nes : List (String × AMValue)) (h : k ≠ key) :
    hydrateStr (KV.modifyVal k F nes) key = hydrateStr nes key := by
  unfold hydrateStr
  rw [KV.alookup_modifyVal_ne k key F nes h]

theorem hydrateNode_intro (nes ses : List (String × AMValue)) (outItems : List AMValue)
    {n : GenerationNode}
    (h1 : hydrateStr nes "id" = some n.id)
    (h2 : hydrateStr nes "type_" = some n.type_)
    (h3 : hydrateStr nes "status" = some n.status)
    (h4 : hydrateStr nes "title" = some n.title)
    (h5 : hydrateStr nes "prompt" = some n.prompt)
    (h6 : hydrateStr nes "negative_prompt" = some n.negative_prompt)
    (h7 : hydrateStr nes "notes" = some n.notes)
    (h8 : KV.alookup "settings" nes = some (.map ses))
    (h9 : hydrateSettings ses = n.settings)
    (h10 : KV.alookup "outputs" nes = some (.list outItems))
    (h11 : hydrateOutputList outItems = some n.outputs)
    (h12 : hydrateStr nes "metadata" = some n.metadata) :
    hydrateNode (.map nes) = some n := by
  obtain ⟨nid, ty, st, ti, pr, np, no, se, outs, md⟩ := n
  simp only at h1 h2 h3 h4 h5 h6 h7 h9 h11 h12
  simp [hydrateNode, h1, h2, h3, h4, h5, h6, h7, h8, h9, h10, h11, h12]

theorem hydrateRoot_intro (es ges : List (String × AMValue)) (items : List AMValue)
    {s : DocumentRoot}
    (h1 : KV.alookup "sequence_order" es = some (.list items))
    (h2 : hydrateStrList items = some s.sequence_order)
    (h3 : KV.alookup "generations" es = some (.map ges))
    (h4 : hydrateGens ges = some s.generations) :
    hydrateRoot (.map es) = some s := by
  obtain ⟨so, gens⟩ := s
  simp only at h2 h4
  simp [hydrateRoot, h1, h2, h3, h4]

/-- A targeted put of a settings key inside a node object changes the
hydrated node exactly by the corresponding settings-field update. -/
theorem hydrateNode_put_settings {tv : AMValue} {n : GenerationNode} {key : String}
    {child : AMValue} {g : GenerationSettings → GenerationSettings}
    (hkey : ∀ ses, hydrateSettings (KV.put key child ses) = g (hydrateSettings ses))
    (h : hydrateNode tv = some n) :
    hydrateNode (putAtPath tv ["settings"] key child) =
      some { n with settings := g n.settings } := by
  obtain ⟨nes, ses, outItems, rfl, h1, h2, h3, h4, h5, h6, h7, h8, h9, h10, h11, h12⟩ :=
    hydrateNode_elim h
  show hydrateNode
      (.map (KV.modifyVal "settings" (fun c => putAtPath c [] key child) nes)) = _
  refine hydrateNode_intro _ (KV.put key child ses) _
    ((hydrateStr_modifyVal_ne _ _ _ _ (by decide)).trans h1)
    ((hydrateStr_modifyVal_ne _ _ _ _ (by decide)).trans h2)
    ((hydrateStr_modifyVal_ne _ _ _ _ (by decide)).trans h3)
    ((hydrateStr_modifyVal_ne _ _ _ _ (by decide)).trans h4)
    ((hydrateStr_modifyVal_ne _ _ _ _ (by decide)).trans h5)
    ((hydrateStr_modifyVal_ne _ _ _ _ (by decide)).trans h6)
    ((hydrateStr_modifyVal_ne _ _ _ _ (by decide)).trans h7)
    ?_ ?_
    ((KV.alookup_modifyVal_ne _ _ _ _ (by decide)).trans h10)
    h11
    ((hydrateStr_modifyVal_ne _ _ _ _ (by decide)).trans h12)
  · rw [KV.alookup_modifyVal_self, h8]
    simp [putAtPath]
  · rw [hkey ses, h9]

/-- A targeted delete of a settings key inside a node object changes the
hydrated node exactly by the corresponding settings-field update. -/
theorem hydrateNode_del_settings {tv : AMValue} {n : GenerationNode} {key : String}
    {g : GenerationSettings → GenerationSettings}
    (hkey : ∀ ses, hydrateSettings (KV.del key ses) = g (hydrateSettings ses))
    (h : hydrateNode tv = some n) :
    hydrateNode (delAtPath tv ["settings"] key) =
      some { n with settings := g n.settings } := by
  obtain ⟨nes, ses, outItems, rfl, h1, h2, h3, h4, h5, h6, h7, h8, h9, h10, h11, h12⟩ :=
    hydrateNode_elim h
  show hydrateNode
      (.map (KV.modifyVal "settings" (fun c => delAtPath c [] key) nes)) = _
  refine hydrateNode_intro _ (KV.del key ses) _
    ((hydrateStr_modifyVal_ne _ _ _ _ (by decide)).trans h1)
    ((hydrateStr_modifyVal_ne _ _ _ _ (by decide)).trans h2)
    ((hydrateStr_modifyVal_ne _ _ _ _ (by decide)).trans h3)
    ((hydrateStr_modifyVal_ne _ _ _ _ (by decide)).trans h4)
    ((hydrateStr_modifyVal_ne _ _ _ _ (by decide)).trans h5)
    ((hydrateStr_modifyVal_ne _ _ _ _ (by decide)).trans h6)
    ((hydrateStr_modifyVal_ne _ _ _ _ (by decide)).trans h7)
    ?_ ?_
    ((KV.alookup_modifyVal_ne _ _ _ _ (by decide)).trans h10)
    h11
    ((hydrateStr_modifyVal_ne _ _ _ _ (by decide)).trans h12)
  · rw [KV.alookup_modifyVal_self, h8]
    simp [delAtPath]
  · rw [hkey ses, h9]

theorem hydrateEntries_keys {ges : List (String × AMValue)}
    {l : List (String × GenerationNode)} (h : hydrateEntries ges = some l) :
    l.map Prod.fst = ges.map Prod.fst := by
  induction ges generalizing l with
  | nil =>
    injection h with h
    subst h
    rfl
  | cons e rest ih =>
    obtain ⟨k, v⟩ := e
    unfold hydrateEntries at h
    split at h
    · rename_i n hn
      split at h
      · rename_i l2 hl2
        injection h with h
        subst h
        simpa using ih hl2
      · exact Option.noConfusion h
    · exact Option.noConfusion h

theorem hydrateEntries_alookup {ges : List (String × AMValue)}
    {l : List (String × GenerationNode)} (h : hydrateEntries ges = some l) (id : String) :
    (KV.alookup id ges = none ∧ KV.alookup id l = none) ∨
    (∃ tv n, KV.alookup id ges = some tv ∧ hydrateNode tv = some n ∧
      KV.alookup id l = some n) := by
  induction ges generalizing l with
  | nil =>
    injection h with h
    subst h
    exact Or.inl ⟨rfl, rfl⟩
  | cons e rest ih =>
    obtain ⟨k, v⟩ := e
    unfold hydrateEntries at h
    split at h
    · rename_i n hn
      split at h
      · rename_i l2 hl2
        injection h with h
        subst h
        by_cases hk : k = id
        · subst hk
          exact Or.inr ⟨v, n, by simp [KV.alookup], by simpa using hn, by simp [KV.alookup]⟩
        · rcases ih hl2 with ⟨ha, hb⟩ | ⟨tv, n2, ha, hb, hc⟩
          · exact Or.inl ⟨by simp [KV.alookup, hk, ha], by simp [KV.alookup, hk, hb]⟩
          · exact Or.inr ⟨tv, n2, by simp [KV.alookup, hk, ha], hb, by simp [KV.alookup, hk, hc]⟩
      · exact Option.noConfusion h
    · exact Option.noConfusion h

theorem hydrateEntries_modify {ges : List (String × AMValue)}
    {l : List (String × GenerationNode)} (id : String) (F : AMValue → AMValue)
    (g : GenerationNode → GenerationNode)
    (hFg : ∀ tv n, hydrateNode tv = some n → hydrateNode (F tv) = some (g n))
    (h : hydrateEntries ges = some l) :
    hydrateEntries (KV.modifyVal id F ges) = some (KV.modifyVal id g l) := by
  induction ges generalizing l with
  | nil =>
    injection h with h
    subst h
    rfl
  | cons e rest ih =>
    obtain ⟨k, v⟩ := e
    unfold hydrateEntries at h
    split at h
    · rename_i n hn
      split at h
      · rename_i l2 hl2
        injection h with h
        subst h
        by_cases hk : k = id
        · subst hk
          simp only [KV.modifyVal, List.map_cons, eq_self_iff_true, if_true]
          unfold hydrateEntries
          rw [hFg v n hn]
          have := ih hl2
          simp only [KV.modifyVal] at this
          rw [this]
        · simp only [KV.modifyVal, List.map_cons, if_neg hk]
          unfold hydrateEntries
          rw [hn]
          have := ih hl2
          simp only [KV.modifyVal] at this
          rw [this]
      · exact Option.noConfusion h
    · exact Option.noConfusion h

/-- Under the automerge sorted-keys invariant, hydrating a generations map
object yields exactly its entry list (with hydrated values). -/
theorem hydrateGens_val {ges : List (String × AMValue)} {g : StrMap GenerationNode}
    (hs : KV.KeySorted ges) (h : hydrateGens ges = some g) :
    ∃ l, hydrateEntries ges = some l ∧ g.val = l := by
  unfold hydrateGens at h
  rcases he : hydrateEntries ges with _ | l
  · rw [he] at h
    exact Option.noConfusion h
  · rw [he] at h
    simp only [Option.map_some'] at h
    injection h with h
    refine ⟨l, rfl, ?_⟩
    rw [← h]
    exact StrMap.foldl_insert_empty l (keySorted_of_keys_eq (hydrateEntries_keys he) hs)

/-- Reassemble: hydrating a sorted entry list gives the map with exactly
those (hydrated) entries. -/
theorem hydrateGens_intro {ges : List (String × AMValue)}
    {l : List (String × GenerationNode)} (hs : KV.KeySorted l)
    (h : hydrateEntries ges = some l) :
    hydrateGens ges = some ⟨l, hs⟩ := by
  unfold hydrateGens
  rw [h]
  simp only [Option.map_some']
  congr 1
  exact StrMap.ext (StrMap.foldl_insert_empty l hs)

namespace SequenceManager

theorem gensSorted_elim {es ges : List (String × AMValue)}
    (hg : KV.alookup "generations" es = some (.map ges))
    (h : gensSorted (.map es) = true) : KV.KeySorted ges := by
  have h2 : (match KV.alookup "generations" es with
    | some (.map ges2) => decide (KV.KeySorted ges2)
    | _ => true) = true := h
  rw [hg] at h2
  simpa using h2

theorem gensSorted_intro {es ges : List (String × AMValue)}
    (hg : KV.alookup "generations" es = some (.map ges))
    (hs : KV.KeySorted ges) : gensSorted (.map es) = true := by
  show (match KV.alookup "generations" es with
    | some (.map ges2) => decide (KV.KeySorted ges2)
    | _ => true) = true
  rw [hg]
  simpa using hs

theorem getAtPath_cons_map {d : AMValue} {es : List (String × AMValue)} {k : String}
    {child : AMValue} (path : ObjPath) (hd : d = .map es)
    (hc : KV.alookup k es = some child) :
    getAtPath d (k :: path) = getAtPath child path := by
  subst hd
  show (match KV.alookup k es with
    | some c => getAtPath c path
    | none => none) = getAtPath child path
  rw [hc]

theorem get_obj_at_key_map {m2 : SequenceManager} {parent : ObjPath} {key : String}
    {entries nes : List (String × AMValue)}
    (hp : getAtPath m2.doc parent = some (.map entries))
    (hc : KV.alookup key entries = some (.map nes)) :
    m2.get_obj_at_key parent key = .ok (parent ++ [key]) := by
  unfold get_obj_at_key
  rw [hp]
  show (match KV.alookup key entries with
    | some (.map _) => (.ok (parent ++ [key]) : Except CollabError ObjPath)
    | some (.list _) => .ok (parent ++ [key])
    | some (.scalar _) =>
      .error (.SchemaViolation (String.append key " is not an object"))
    | none =>
      if key.utf8ByteSize = 36 then .error (.NodeNotFound key)
      else .error (.FieldNotFound key)) = .ok (parent ++ [key])
  rw [hc]

theorem get_generations_obj_warm (d : AMValue) (cs : Option DocumentRoot) (p : ObjPath) :
    get_generations_obj ⟨d, cs, some p⟩ = (.ok p, ⟨d, cs, some p⟩) := rfl

theorem get_generations_obj_cold (d : AMValue) (cs : Option DocumentRoot) {p : ObjPath}
    (h : get_obj_at_key ⟨d, cs, none⟩ [] "generations" = .ok p) :
    get_generations_obj ⟨d, cs, none⟩ = (.ok p, ⟨d, cs, some p⟩) := by
  unfold get_generations_obj
  rw [h]

theorem get_node_obj_eq (m2 : SequenceManager) (id : String) {p q : ObjPath}
    {m3 : SequenceManager} (hg : m2.get_generations_obj = (.ok p, m3))
    (hk : m3.get_obj_at_key p id = .ok q) :
    m2.get_node_obj id = (.ok q, m3) := by
  unfold get_node_obj
  rw [hg]
  show (match m3.get_obj_at_key p id with
    | .ok obj => ((.ok obj : Except CollabError ObjPath), m3)
    | .error e => (.error e, m3)) = _
  rw [hk]

theorem get_settings_obj_eq (m2 : SequenceManager) (id : String) {q r : ObjPath}
    {m3 : SequenceManager} (hn : m2.get_node_obj id = (.ok q, m3))
    (hk : m3.get_obj_at_key q "settings" = .ok r) :
    m2.get_settings_obj id = (.ok r, m3) := by
  unfold get_settings_obj
  rw [hn]
  show (match m3.get_obj_at_key q "settings" with
    | .ok obj => ((.ok obj : Except CollabError ObjPath), m3)
    | .error e => (.error e, m3)) = _
  rw [hk]

/-- Decomposition of a good manager state at a present node: all the tree
facts the targeted path relies on, plus the full resolution trace of
`get_settings_obj` (manager.rs lines 385-404). -/
theorem targeted_resolution {m : SequenceManager} {s : DocumentRoot} {id : String}
    {node : GenerationNode} (hG : GoodState m s)
    (hid : s.generations.get id = some node) :
    ∃ es items ges l nes ses,
      m.doc = .map es ∧
      KV.alookup "sequence_order" es = some (.list items) ∧
      hydrateStrList items = some s.sequence_order ∧
      KV.alookup "generations" es = some (.map ges) ∧
      KV.KeySorted ges ∧
      hydrateEntries ges = some l ∧
      s.generations.val = l ∧
      KV.alookup id ges = some (.map nes) ∧
      hydrateNode (.map nes) = some node ∧
      KV.alookup "settings" nes = some (.map ses) ∧
      ({ m with cached_state := none } : SequenceManager).get_settings_obj id =
        (.ok ["generations", id, "settings"],
          ⟨m.doc, none, some ["generations"]⟩) := by
  obtain ⟨hh, _, htopo, hsorted⟩ := hG
  obtain ⟨es, items, ges, hdoc, hso, hsl, hg, hgens⟩ := hydrateRoot_elim hh
  have hks : KV.KeySorted ges := gensSorted_elim hg (hdoc ▸ hsorted)
  obtain ⟨l, hentries, hval⟩ := hydrateGens_val hks hgens
  have hlook : KV.alookup id l = some node := by
    rw [← hval]
    exact hid
  rcases hydrateEntries_alookup hentries id with ⟨_, hnone⟩ | ⟨tv, n2, ha, hb, hc⟩
  · rw [hnone] at hlook
    exact Option.noConfusion hlook
  · rw [hc] at hlook
    injection hlook with hlook
    subst hlook
    obtain ⟨nes, ses, outItems, htv, _, _, _, _, _, _, _, h8, _, _, _, _⟩ :=
      hydrateNode_elim hb
    subst htv
    refine ⟨es, items, ges, l, nes, ses, hdoc, hso, hsl, hg, hks, hentries, hval, ha, hb, h8, ?_⟩
    have hA : getAtPath m.doc ["generations"] = some (.map ges) :=
      getAtPath_cons_map [] hdoc hg
    have hB : getAtPath m.doc ["generations", id] = some (.map nes) :=
      (getAtPath_cons_map [id] hdoc hg).trans (getAtPath_cons_map [] rfl ha)
    have hg1 : get_generations_obj ⟨m.doc, none, none⟩ =
        (.ok ["generations"], ⟨m.doc, none, some ["generations"]⟩) :=
      get_generations_obj_cold m.doc none
        (get_obj_at_key_map (by rw [show (⟨m.doc, none, none⟩ : SequenceManager).doc
          = m.doc from rfl, hdoc]; rfl) hg)
    have hn1 : ∀ cs topo, get_obj_at_key ⟨m.doc, cs, topo⟩ ["generations"] id =
        .ok ["generations", id] := by
      intro cs topo
      exact get_obj_at_key_map hA ha
    have hs1 : ∀ cs topo, get_obj_at_key ⟨m.doc, cs, topo⟩ ["generations", id] "settings" =
        .ok ["generations", id, "settings"] := by
      intro cs topo
      exact get_obj_at_key_map hB h8
    rcases htopo with ht | ht
    · have hm0 : ({ m with cached_state := none } : SequenceManager) =
          ⟨m.doc, none, none⟩ := by
        cases m
        simp_all
      rw [hm0]
      exact get_settings_obj_eq _ id
        (get_node_obj_eq _ id hg1 (hn1 none (some ["generations"])))
        (hs1 none (some ["generations"]))
    · have hm0 : ({ m with cached_state := none } : SequenceManager) =
          ⟨m.doc, none, some ["generations"]⟩ := by
        cases m
        simp_all
      rw [hm0]
      exact get_settings_obj_eq _ id
        (get_node_obj_eq _ id
          (get_generations_obj_warm m.doc none ["generations"])
          (hn1 none (some ["generations"])))
        (hs1 none (some ["generations"]))

end SequenceManager

namespace SequenceManager

/-- Modifying the node object under `id` inside the generations map changes
the hydrated document exactly by the corresponding `HashMap` modification. -/
theorem hydrateRoot_modify_gens {es ges : List (String × AMValue)}
    {items : List AMValue} {l : List (String × GenerationNode)} {s : DocumentRoot}
    (id : String) (F1 F2 : AMValue → AMValue) (gNode : GenerationNode → GenerationNode)
    (hso : KV.alookup "sequence_order" es = some (.list items))
    (hsl : hydrateStrList items = some s.sequence_order)
    (hg : KV.alookup "generations" es = some (.map ges))
    (hks : KV.KeySorted ges)
    (hentries : hydrateEntries ges = some l)
    (hval : s.generations.val = l)
    (hF1 : F1 (.map ges) = .map (KV.modifyVal id F2 ges))
    (hFg : ∀ tv n, hydrateNode tv = some n → hydrateNode (F2 tv) = some (gNode n)) :
    hydrateRoot (.map (KV.modifyVal "generations" F1 es)) =
      some { s with generations := s.generations.modify id gNode } ∧
    gensSorted (.map (KV.modifyVal "generations" F1 es)) = true := by
  have hso2 : KV.alookup "sequence_order" (KV.modifyVal "generations" F1 es) =
      some (.list items) :=
    (KV.alookup_modifyVal_ne _ _ _ _ (by decide)).trans hso
  have hg2 : KV.alookup "generations" (KV.modifyVal "generations" F1 es) =
      some (.map (KV.modifyVal id F2 ges)) := by
    rw [KV.alookup_modifyVal_self, hg]
    simp [hF1]
  have hl2 : hydrateEntries (KV.modifyVal id F2 ges) =
      some (KV.modifyVal id gNode l) :=
    hydrateEntries_modify id F2 gNode hFg hentries
  have hks2 : KV.KeySorted (KV.modifyVal id gNode l) :=
    KV.modifyVal_pairwise id gNode
      (keySorted_of_keys_eq (hydrateEntries_keys hentries) hks)
  have hgens2 : hydrateGens (KV.modifyVal id F2 ges) =
      some (s.generations.modify id gNode) := by
    rw [hydrateGens_intro hks2 hl2]
    congr 1
    apply StrMap.ext
    show KV.modifyVal id gNode l = KV.modifyVal id gNode s.generations.val
    rw [hval]
  constructor
  · exact hydrateRoot_intro _ (KV.modifyVal id F2 ges) items hso2 hsl hg2 hgens2
  · exact gensSorted_intro hg2 (KV.modifyVal_pairwise id F2 hks)

/-- `set_setting_value` on a present node: succeeds, and the document
afterwards hydrates to the snapshot with exactly that settings field updated
(the rest of the snapshot unchanged). -/
theorem set_setting_value_good {m : SequenceManager} {s : DocumentRoot} {id : String}
    {node : GenerationNode} (hG : GoodState m s) (hid : s.generations.get id = some node)
    (key : String) (val : Scalar) (g : GenerationSettings → GenerationSettings)
    (hkey : ∀ ses, hydrateSettings (KV.put key (.scalar val) ses) = g (hydrateSettings ses)) :
    (m.set_setting_value id key val).1 = .ok () ∧
    GoodState (m.set_setting_value id key val).2
      { s with generations :=
          (s.generations.modify id (fun n => { n with settings := g n.settings })) } := by
  obtain ⟨es, items, ges, l, nes, ses, hdoc, hso, hsl, hg, hks, hentries, hval, ha, hb,
    h8, hres⟩ := targeted_resolution hG hid
  have heq : m.set_setting_value id key val =
      (.ok (), ⟨putAtPath m.doc ["generations", id, "settings"] key (.scalar val), none,
        some ["generations"]⟩) := by
    unfold set_setting_value
    rw [hres]
  have hmain := hydrateRoot_modify_gens id
    (fun c => putAtPath c [id, "settings"] key (.scalar val))
    (fun c => putAtPath c ["settings"] key (.scalar val))
    (fun n => { n with settings := g n.settings })
    hso hsl hg hks hentries hval rfl
    (fun tv n hn => hydrateNode_put_settings hkey hn)
  rw [heq]
  refine ⟨rfl, ?_, Or.inl rfl, Or.inr rfl, ?_⟩
  · show hydrateRoot (putAtPath m.doc ["generations", id, "settings"] key (.scalar val)) = _
    rw [hdoc]
    exact hmain.1
  · show gensSorted (putAtPath m.doc ["generations", id, "settings"] key (.scalar val)) = true
    rw [hdoc]
    exact hmain.2

/-- `set_setting_null` on a present node: succeeds, and the document
afterwards hydrates to the snapshot with exactly that settings field cleared. -/
theorem set_setting_null_good {m : SequenceManager} {s : DocumentRoot} {id : String}
    {node : GenerationNode} (hG : GoodState m s) (hid : s.generations.get id = some node)
    (key : String) (g : GenerationSettings → GenerationSettings)
    (hkey : ∀ ses, hydrateSettings (KV.del key ses) = g (hydrateSettings ses)) :
    (m.set_setting_null id key).1 = .ok () ∧
    GoodState (m.set_setting_null id key).2
      { s with generations :=
          (s.generations.modify id (fun n => { n with settings := g n.settings })) } := by
  obtain ⟨es, items, ges, l, nes, ses, hdoc, hso, hsl, hg, hks, hentries, hval, ha, hb,
    h8, hres⟩ := targeted_resolution hG hid
  have heq : m.set_setting_null id key =
      (.ok (), ⟨delAtPath m.doc ["generations", id, "settings"] key, none,
        some ["generations"]⟩) := by
    unfold set_setting_null
    rw [hres]
  have hmain := hydrateRoot_modify_gens id
    (fun c => delAtPath c [id, "settings"] key)
    (fun c => delAtPath c ["settings"] key)
    (fun n => { n with settings := g n.settings })
    hso hsl hg hks hentries hval rfl
    (fun tv n hn => hydrateNode_del_settings hkey hn)
  rw [heq]
  refine ⟨rfl, ?_, Or.inl rfl, Or.inr rfl, ?_⟩
  · show hydrateRoot (delAtPath m.doc ["generations", id, "settings"] key) = _
    rw [hdoc]
    exact hmain.1
  · show gensSorted (delAtPath m.doc ["generations", id, "settings"] key) = true
    rw [hdoc]
    exact hmain.2

end SequenceManager

namespace SequenceManager

theorem get_state_cached (d : AMValue) (x : DocumentRoot) (p : Option ObjPath) :
    get_state ⟨d, some x, p⟩ = (.ok x, ⟨d, some x, p⟩) := rfl

theorem get_state_topo {m : SequenceManager} {r : Except CollabError DocumentRoot}
    {m1 : SequenceManager} (h : m.get_state = (r, m1)) :
    m1.cached_generations_obj = m.cached_generations_obj := by
  unfold get_state at h
  split at h
  · rename_i c heq
    injection h with h1 h2
    subst h2
    rfl
  · rename_i heq
    split at h <;> injection h with h1 h2 <;> subst h2 <;> rfl

theorem update_state_topo (m : SequenceManager) (f : DocumentRoot → DocumentRoot) :
    (m.update_state f).2.cached_generations_obj = m.cached_generations_obj := by
  unfold update_state
  rcases hg : m.get_state with ⟨r0, m1⟩
  have ht := get_state_topo hg
  cases r0 with
  | ok st => exact ht
  | error e => exact ht

theorem set_setting_value_topo {m : SequenceManager} {node_id key : String}
    {value : Scalar} {r : Except CollabError Unit} {m1 : SequenceManager}
    (h : m.set_setting_value node_id key value = (r, m1)) (p : ObjPath)
    (hp : m.cached_generations_obj = some p) :
    m1.cached_generations_obj = some p := by
  unfold set_setting_value at h
  split at h <;> rename_i o m0 heq <;> injection h with h1 h2 <;> subst h2 <;>
    rcases (get_settings_obj_frame heq).2.2 with he | he
  · exact he.trans hp
  · rw [show ({ m with cached_state := none } : SequenceManager).cached_generations_obj
      = m.cached_generations_obj from rfl, hp] at he
    exact Option.noConfusion he
  · exact he.trans hp
  · rw [show ({ m with cached_state := none } : SequenceManager).cached_generations_obj
      = m.cached_generations_obj from rfl, hp] at he
    exact Option.noConfusion he

theorem set_setting_null_topo {m : SequenceManager} {node_id key : String}
    {r : Except CollabError Unit} {m1 : SequenceManager}
    (h : m.set_setting_null node_id key = (r, m1)) (p : ObjPath)
    (hp : m.cached_generations_obj = some p) :
    m1.cached_generations_obj = some p := by
  unfold set_setting_null at h
  split at h <;> rename_i o m0 heq <;> injection h with h1 h2 <;> subst h2 <;>
    rcases (get_settings_obj_frame heq).2.2 with he | he
  · exact he.trans hp
  · rw [show ({ m with cached_state := none } : SequenceManager).cached_generations_obj
      = m.cached_generations_obj from rfl, hp] at he
    exact Option.noConfusion he
  · exact he.trans hp
  · rw [show ({ m with cached_state := none } : SequenceManager).cached_generations_obj
      = m.cached_generations_obj from rfl, hp] at he
    exact Option.noConfusion he

theorem set_status_topo {m : SequenceManager} {node_id status : String}
    {r : Except CollabError Unit} {m1 : SequenceManager}
    (h : m.set_status node_id status = (r, m1)) (p : ObjPath)
    (hp : m.cached_generations_obj = some p) :
    m1.cached_generations_obj = some p := by
  unfold set_status at h
  split at h <;> rename_i o m0 heq <;> injection h with h1 h2 <;> subst h2 <;>
    rcases (get_node_obj_frame heq).2.2 with he | he
  · exact he.trans hp
  · rw [show ({ m with cached_state := none } : SequenceManager).cached_generations_obj
      = m.cached_generations_obj from rfl, hp] at he
    exact Option.noConfusion he
  · exact he.trans hp
  · rw [show ({ m with cached_state := none } : SequenceManager).cached_generations_obj
      = m.cached_generations_obj from rfl, hp] at he
    exact Option.noConfusion he

end SequenceManager

-- =============================================================================
-- CLAIM C1
-- =============================================================================

/-- C4: the topology cache (`cached_generations_obj`) is invalidated exactly
at full load (`from_bytes`), `merge` and `apply_sync_message`, and at no
other operation: `update_state` and `get_state` leave it identical (while
`update_state` replaces the state cache with the mutated snapshot), and the
targeted setters (`set_setting_value`, `set_setting_null`, `set_status`, to
which every public `set_setting_*` wrapper dispatches) clear only the state
cache and never clear a populated topology cache. -/
theorem C4_topology_cache_invalidation :
    (∀ bytes : AMValue,
      (SequenceManager.from_bytes bytes).cached_generations_obj = none) ∧
    (∀ (m : SequenceManager) (merged : AMValue),
      (m.merge merged).cached_generations_obj = none ∧
      (m.merge merged).cached_state = none) ∧
    (∀ (m : SequenceManager) (applied : AMValue),
      (m.apply_sync_message applied).cached_generations_obj = none ∧
      (m.apply_sync_message applied).cached_state = none) ∧
    (∀ (m : SequenceManager) (f : DocumentRoot → DocumentRoot),
      (m.update_state f).2.cached_generations_obj = m.cached_generations_obj) ∧
    (∀ (m : SequenceManager) (s : DocumentRoot) (f : DocumentRoot → DocumentRoot),
      SequenceManager.GoodState m s →
      (m.update_state f).2.cached_state = some (f s)) ∧
    (∀ m : SequenceManager,
      (m.get_state).2.cached_generations_obj = m.cached_generations_obj) ∧
    (∀ (m m1 : SequenceManager) (node_id key : String) (value : Scalar)
        (r : Except CollabError Unit),
      m.set_setting_value node_id key value = (r, m1) →
      m1.cached_state = none ∧
      ∀ p, m.cached_generations_obj = some p → m1.cached_generations_obj = some p) ∧
    (∀ (m m1 : SequenceManager) (node_id key : String) (r : Except CollabError Unit),
      m.set_setting_null node_id key = (r, m1) →
      m1.cached_state = none ∧
      ∀ p, m.cached_generations_obj = some p → m1.cached_generations_obj = some p) ∧
    (∀ (m m1 : SequenceManager) (node_id status : String) (r : Except CollabError Unit),
      m.set_status node_id status = (r, m1) →
      m1.cached_state = none ∧
      ∀ p, m.cached_generations_obj = some p → m1.cached_generations_obj = some p) := by
  refine ⟨fun bytes => rfl, fun m merged => ⟨rfl, rfl⟩, fun m applied => ⟨rfl, rfl⟩,
    SequenceManager.update_state_topo, ?_, ?_, ?_, ?_, ?_⟩
  · intro m s f hG
    rw [SequenceManager.update_state_good hG f]
  · intro m
    rcases hg : m.get_state with ⟨r, m1⟩
    exact SequenceManager.get_state_topo hg
  · intro m m1 node_id key value r h
    exact ⟨SequenceManager.set_setting_value_cached h,
      fun p hp => SequenceManager.set_setting_value_topo h p hp⟩
  · intro m m1 node_id key r h
    exact ⟨SequenceManager.set_setting_null_cached h,
      fun p hp => SequenceManager.set_setting_null_topo h p hp⟩
  · intro m m1 node_id status r h
    exact ⟨SequenceManager.set_status_cached h,
      fun p hp => SequenceManager.set_status_topo h p hp⟩

/-- C4 witness: the invalidation behaviour at concrete inputs — a merge
clears both caches; a concrete `update_state` on `new` keeps the (empty)
topology cache and replaces the state cache; a concrete targeted setter
clears the state cache. -/
theorem C4_witness :
    (SequenceManager.new.merge (.map [])).cached_generations_obj = none ∧
    (SequenceManager.new.update_state (fun st => st)).2.cached_generations_obj =
      SequenceManager.new.cached_generations_obj ∧
    (SequenceManager.new.update_state (fun st => st)).2.cached_state =
      some DocumentRoot.default ∧
    (SequenceManager.new.set_setting_seed "n1" (some 7)).2.cached_state = none :=
  ⟨(C4_topology_cache_invalidation.2.1 SequenceManager.new (.map [])).1,
    C4_topology_cache_invalidation.2.2.2.1 SequenceManager.new (fun st => st),
    C4_topology_cache_invalidation.2.2.2.2.1 SequenceManager.new DocumentRoot.default
      (fun st => st) SequenceManager.goodState_new,
    (C4_topology_cache_invalidation.2.2.2.2.2.2.1 SequenceManager.new
      (SequenceManager.new.set_setting_seed "n1" (some 7)).2 "n1" "seed" (.int 7)
      (SequenceManager.new.set_setting_seed "n1" (some 7)).1 rfl).1⟩

-- =============================================================================
-- CLAIM C10
-- =============================================================================

/-- C10: for an id absent from the generations map, `update_node`,
`update_settings` and `add_output` return Ok and leave the observable
snapshot unchanged: a silent no-op, never a `NodeNotFound` error. -/
theorem C10_absent_id_silent_noop (m : SequenceManager) (s : DocumentRoot) (id : String)
    (hG : SequenceManager.GoodState m s) (hid : s.generations.get id = none) :
    (∀ f, (m.update_node id f).1 = .ok () ∧
      ((m.update_node id f).2.get_state).1 = .ok s) ∧
    (∀ g, (m.update_settings id g).1 = .ok () ∧
      ((m.update_settings id g).2.get_state).1 = .ok s) ∧
    (∀ o, (m.add_output id o).1 = .ok () ∧
      ((m.add_output id o).2.get_state).1 = .ok s) := by
  refine ⟨fun f => ?_, fun g => ?_, fun o => ?_⟩
  · unfold SequenceManager.update_node
    rw [SequenceManager.update_state_good hG _]
    rw [StrMap.modify_absent s.generations id _ hid]
    exact ⟨rfl, rfl⟩
  · unfold SequenceManager.update_settings
    rw [SequenceManager.update_state_good hG _]
    rw [StrMap.modify_absent s.generations id _ hid]
    exact ⟨rfl, rfl⟩
  · unfold SequenceManager.add_output
    rw [SequenceManager.update_state_good hG _]
    rw [StrMap.modify_absent s.generations id _ hid]
    exact ⟨rfl, rfl⟩

/-- C10 witness: on the fresh empty manager (no node "missing"), all three
operations succeed and the snapshot stays the default. -/
theorem C10_witness :
    (SequenceManager.new.update_node "missing" (fun n => n)).1 = .ok () ∧
    ((SequenceManager.new.update_settings "missing" (fun gs => gs)).2.get_state).1 =
      .ok DocumentRoot.default ∧
    (SequenceManager.new.add_output "missing" (OutputAsset.mk "u" none false)).1 =
      .ok () :=
  ⟨((C10_absent_id_silent_noop SequenceManager.new DocumentRoot.default "missing"
      SequenceManager.goodState_new rfl).1 (fun n => n)).1,
    ((C10_absent_id_silent_noop SequenceManager.new DocumentRoot.default "missing"
      SequenceManager.goodState_new rfl).2.1 (fun gs => gs)).2,
    ((C10_absent_id_silent_noop SequenceManager.new DocumentRoot.default "missing"
      SequenceManager.goodState_new rfl).2.2 (OutputAsset.mk "u" none false)).1⟩

namespace SequenceManager

/-- Generic targeted-vs-bulk equivalence: writing one settings key through
the O(1) path and writing the same field through a bulk `update_state`
produce managers whose `get_state()` snapshots agree (and equal the snapshot
with exactly that field updated). -/
theorem targeted_vs_bulk {m : SequenceManager} {s : DocumentRoot} {id : String}
    {node : GenerationNode} (hG : GoodState m s) (hid : s.generations.get id = some node)
    (key : String) (val : Scalar) (g : GenerationSettings → GenerationSettings)
    (hkey : ∀ ses, hydrateSettings (KV.put key (.scalar val) ses) = g (hydrateSettings ses)) :
    (m.set_setting_value id key val).1 = .ok () ∧
    ((m.set_setting_value id key val).2.get_state).1 =
      .ok { s with generations :=
        (s.generations.modify id (fun n => { n with settings := g n.settings })) } ∧
    ((m.update_state (fun st => { st with generations :=
        (st.generations.modify id (fun n => { n with settings := g n.settings })) })).2.get_state).1 =
      .ok { s with generations :=
        (s.generations.modify id (fun n => { n with settings := g n.settings })) } := by
  obtain ⟨hok, hG2⟩ := set_setting_value_good hG hid key val g hkey
  refine ⟨hok, ?_, ?_⟩
  · rw [get_state_good hG2]
  · rw [update_state_good hG _]
    rfl

/-- Generic double-delete idempotence: deleting one settings key twice
through the O(1) path succeeds both times and the snapshot after the second
call equals the snapshot after the first. -/
theorem double_null_idempotent {m : SequenceManager} {s : DocumentRoot} {id : String}
    {node : GenerationNode} (hG : GoodState m s) (hid : s.generations.get id = some node)
    (key : String) (g : GenerationSettings → GenerationSettings)
    (hkey : ∀ ses, hydrateSettings (KV.del key ses) = g (hydrateSettings ses))
    (hgg : ∀ n : GenerationNode,
      ({ n with settings := g n.settings } : GenerationNode) =
        { ({ n with settings := g n.settings } : GenerationNode) with
          settings := g ({ n with settings := g n.settings } : GenerationNode).settings }) :
    (m.set_setting_null id key).1 = .ok () ∧
    ((m.set_setting_null id key).2.set_setting_null id key).1 = .ok () ∧
    (((m.set_setting_null id key).2.set_setting_null id key).2.get_state).1 =
      ((m.set_setting_null id key).2.get_state).1 := by
  obtain ⟨hok1, hG2⟩ := set_setting_null_good hG hid key g hkey
  have hid2 : ((m.set_setting_null id key).2.get_state).1 =
      .ok { s with generations :=
        (s.generations.modify id (fun n => { n with settings := g n.settings })) } := by
    rw [get_state_good hG2]
  have hpresent : ({ s with generations :=
      (s.generations.modify id (fun n => { n with settings := g n.settings })) }
        : DocumentRoot).generations.get id =
      some { node with settings := g node.settings } := by
    show (s.generations.modify id _).get id = _
    rw [StrMap.get_modify_self, hid]
    rfl
  obtain ⟨hok2, hG3⟩ := set_setting_null_good hG2 hpresent key g hkey
  refine ⟨hok1, hok2, ?_⟩
  rw [get_state_good hG3, hid2]
  have hmap :
      ((s.generations.modify id (fun n => { n with settings := g n.settings })).modify id
        (fun n => { n with settings := g n.settings })) =
      s.generations.modify id (fun n => { n with settings := g n.settings }) := by
    rw [StrMap.modify_modify]
    exact StrMap.modify_congr s.generations id _ _ (fun n => (hgg n).symm)
  show Except.ok ({ s with generations :=
      ((s.generations.modify id (fun n => { n with settings := g n.settings })).modify id
        (fun n => { n with settings := g n.settings })) } : DocumentRoot) =
    Except.ok ({ s with generations :=
      (s.generations.modify id (fun n => { n with settings := g n.settings })) } : DocumentRoot)
  rw [hmap]

end SequenceManager

-- =============================================================================
-- CLAIM C2
-- =============================================================================

/-- The bulk-update closure the spec compares against: assign a new value to
one node's settings through `update_state`, mirroring
`update_state(|s| s.generations.get_mut(id).settings = g(settings))`. -/
def settingsUpd (id : String) (g : GenerationSettings → GenerationSettings) :
    DocumentRoot → DocumentRoot :=
  fun st => { st with generations :=
    (st.generations.modify id (fun n => { n with settings := g n.settings })) }

/-- C2: for every node id present in the document and every optional settings
field (seed, cfg, num_steps, model, resolution, width, height, duration, fps),
the targeted setter `set_setting_X(id, Some(v))` followed by `get_state()`
yields the same snapshot — hence the same field value — as the bulk
`update_state` that assigns `Some(v)` to that node's settings field. -/
theorem C2_targeted_vs_bulk_per_field (m : SequenceManager) (s : DocumentRoot)
    (id : String) (node : GenerationNode) (hG : SequenceManager.GoodState m s)
    (hid : s.generations.get id = some node) :
    (∀ v : Int,
      ((m.set_setting_seed id (some v)).2.get_state).1 =
        .ok (settingsUpd id (fun t => { t with seed := some v }) s) ∧
      ((m.update_state (settingsUpd id (fun t => { t with seed := some v }))).2.get_state).1 =
        .ok (settingsUpd id (fun t => { t with seed := some v }) s)) ∧
    (∀ v : F64,
      ((m.set_setting_cfg id (some v)).2.get_state).1 =
        .ok (settingsUpd id (fun t => { t with cfg := some v }) s) ∧
      ((m.update_state (settingsUpd id (fun t => { t with cfg := some v }))).2.get_state).1 =
        .ok (settingsUpd id (fun t => { t with cfg := some v }) s)) ∧
    (∀ v : Int32,
      ((m.set_setting_num_steps id (some v)).2.get_state).1 =
        .ok (settingsUpd id (fun t => { t with num_steps := some v }) s) ∧
      ((m.update_state (settingsUpd id (fun t => { t with num_steps := some v }))).2.get_state).1 =
        .ok (settingsUpd id (fun t => { t with num_steps := some v }) s)) ∧
    (∀ v : String,
      ((m.set_setting_model id (some v)).2.get_state).1 =
        .ok (settingsUpd id (fun t => { t with model := some v }) s) ∧
      ((m.update_state (settingsUpd id (fun t => { t with model := some v }))).2.get_state).1 =
        .ok (settingsUpd id (fun t => { t with model := some v }) s)) ∧
    (∀ v : Int32,
      ((m.set_setting_resolution id (some v)).2.get_state).1 =
        .ok (settingsUpd id (fun t => { t with resolution := some v }) s) ∧
      ((m.update_state (settingsUpd id (fun t => { t with resolution := some v }))).2.get_state).1 =
        .ok (settingsUpd id (fun t => { t with resolution := some v }) s)) ∧
    (∀ v : Int32,
      ((m.set_setting_width id (some v)).2.get_state).1 =
        .ok (settingsUpd id (fun t => { t with width := some v }) s) ∧
      ((m.update_state (settingsUpd id (fun t => { t with width := some v }))).2.get_state).1 =
        .ok (settingsUpd id (fun t => { t with width := some v }) s)) ∧
    (∀ v : Int32,
      ((m.set_setting_height id (some v)).2.get_state).1 =
        .ok (settingsUpd id (fun t => { t with height := some v }) s) ∧
      ((m.update_state (settingsUpd id (fun t => { t with height := some v }))).2.get_state).1 =
        .ok (settingsUpd id (fun t => { t with height := some v }) s)) ∧
    (∀ v : Int32,
      ((m.set_setting_duration id (some v)).2.get_state).1 =
        .ok (settingsUpd id (fun t => { t with duration := some v }) s) ∧
      ((m.update_state (settingsUpd id (fun t => { t with duration := some v }))).2.get_state).1 =
        .ok (settingsUpd id (fun t => { t with duration := some v }) s)) ∧
    (∀ v : Int32,
      ((m.set_setting_fps id (some v)).2.get_state).1 =
        .ok (settingsUpd id (fun t => { t with fps := some v }) s) ∧
      ((m.update_state (settingsUpd id (fun t => { t with fps := some v }))).2.get_state).1 =
        .ok (settingsUpd id (fun t => { t with fps := some v }) s)) := by
  refine ⟨?_, ?_, ?_, ?_, ?_, ?_, ?_, ?_, ?_⟩
  · intro v
    obtain ⟨_, h1, h2⟩ := SequenceManager.targeted_vs_bulk hG hid "seed" (.int v)
      (fun t => { t with seed := some v }) (fun ses => hydrateSettings_put_seed ses v)
    exact ⟨h1, h2⟩
  · intro v
    obtain ⟨_, h1, h2⟩ := SequenceManager.targeted_vs_bulk hG hid "cfg" (.f64 v)
      (fun t => { t with cfg := some v }) (fun ses => hydrateSettings_put_cfg ses v)
    exact ⟨h1, h2⟩
  · intro v
    obtain ⟨_, h1, h2⟩ := SequenceManager.targeted_vs_bulk hG hid "num_steps" (.int v.val)
      (fun t => { t with num_steps := some v }) (fun ses => hydrateSettings_put_num_steps ses v)
    exact ⟨h1, h2⟩
  · intro v
    obtain ⟨_, h1, h2⟩ := SequenceManager.targeted_vs_bulk hG hid "model" (.str v)
      (fun t => { t with model := some v }) (fun ses => hydrateSettings_put_model ses v)
    exact ⟨h1, h2⟩
  · intro v
    obtain ⟨_, h1, h2⟩ := SequenceManager.targeted_vs_bulk hG hid "resolution" (.int v.val)
      (fun t => { t with resolution := some v }) (fun ses => hydrateSettings_put_resolution ses v)
    exact ⟨h1, h2⟩
  · intro v
    obtain ⟨_, h1, h2⟩ := SequenceManager.targeted_vs_bulk hG hid "width" (.int v.val)
      (fun t => { t with width := some v }) (fun ses => hydrateSettings_put_width ses v)
    exact ⟨h1, h2⟩
  · intro v
    obtain ⟨_, h1, h2⟩ := SequenceManager.targeted_vs_bulk hG hid "height" (.int v.val)
      (fun t => { t with height := some v }) (fun ses => hydrateSettings_put_height ses v)
    exact ⟨h1, h2⟩
  · intro v
    obtain ⟨_, h1, h2⟩ := SequenceManager.targeted_vs_bulk hG hid "duration" (.int v.val)
      (fun t => { t with duration := some v }) (fun ses => hydrateSettings_put_duration ses v)
    exact ⟨h1, h2⟩
  · intro v
    obtain ⟨_, h1, h2⟩ := SequenceManager.targeted_vs_bulk hG hid "fps" (.int v.val)
      (fun t => { t with fps := some v }) (fun ses => hydrateSettings_put_fps ses v)
    exact ⟨h1, h2⟩

/-- C2 witness: on a concrete one-node document, the targeted seed write and
the bulk seed write yield the same concrete snapshot. -/
theorem C2_witness :
    ((((SequenceManager.new.create_and_append "n1"
          (GenerationNode.new "n1" "t2i")).2.set_setting_seed "n1"
            (some 7)).2.get_state).1 =
      .ok (settingsUpd "n1" (fun t => { t with seed := some (7 : Int) })
        ⟨["n1"], StrMap.empty.insert "n1" (GenerationNode.new "n1" "t2i")⟩)) ∧
    ((((SequenceManager.new.create_and_append "n1"
          (GenerationNode.new "n1" "t2i")).2.update_state
            (settingsUpd "n1" (fun t => { t with seed := some (7 : Int) }))).2.get_state).1 =
      .ok (settingsUpd "n1" (fun t => { t with seed := some (7 : Int) })
        ⟨["n1"], StrMap.empty.insert "n1" (GenerationNode.new "n1" "t2i")⟩)) := by
  have hG : SequenceManager.GoodState
      (SequenceManager.new.create_and_append "n1" (GenerationNode.new "n1" "t2i")).2
      ⟨["n1"], StrMap.empty.insert "n1" (GenerationNode.new "n1" "t2i")⟩ :=
    SequenceManager.goodState_update SequenceManager.goodState_new _
  exact (C2_targeted_vs_bulk_per_field _ _ "n1" (GenerationNode.new "n1" "t2i") hG rfl).1 7

-- =============================================================================
-- CLAIM C9
-- =============================================================================

/-- C9: for every node id present in the document and every optional settings
field (seed, cfg, num_steps, model, resolution, width, height, duration, fps),
calling `set_setting_X(id, None)` twice succeeds on both calls and the
snapshot returned by `get_state` after the second call equals the snapshot
after the first. -/
theorem C9_double_null_idempotent (m : SequenceManager) (s : DocumentRoot)
    (id : String) (node : GenerationNode) (hG : SequenceManager.GoodState m s)
    (hid : s.generations.get id = some node) :
    ((m.set_setting_seed id none).1 = .ok () ∧
      ((m.set_setting_seed id none).2.set_setting_seed id none).1 = .ok () ∧
      (((m.set_setting_seed id none).2.set_setting_seed id none).2.get_state).1 =
        ((m.set_setting_seed id none).2.get_state).1) ∧
    ((m.set_setting_cfg id none).1 = .ok () ∧
      ((m.set_setting_cfg id none).2.set_setting_cfg id none).1 = .ok () ∧
      (((m.set_setting_cfg id none).2.set_setting_cfg id none).2.get_state).1 =
        ((m.set_setting_cfg id none).2.get_state).1) ∧
    ((m.set_setting_num_steps id none).1 = .ok () ∧
      ((m.set_setting_num_steps id none).2.set_setting_num_steps id none).1 = .ok () ∧
      (((m.set_setting_num_steps id none).2.set_setting_num_steps id none).2.get_state).1 =
        ((m.set_setting_num_steps id none).2.get_state).1) ∧
    ((m.set_setting_model id none).1 = .ok () ∧
      ((m.set_setting_model id none).2.set_setting_model id none).1 = .ok () ∧
      (((m.set_setting_model id none).2.set_setting_model id none).2.get_state).1 =
        ((m.set_setting_model id none).2.get_state).1) ∧
    ((m.set_setting_resolution id none).1 = .ok () ∧
      ((m.set_setting_resolution id none).2.set_setting_resolution id none).1 = .ok () ∧
      (((m.set_setting_resolution id none).2.set_setting_resolution id none).2.get_state).1 =
        ((m.set_setting_resolution id none).2.get_state).1) ∧
    ((m.set_setting_width id none).1 = .ok () ∧
      ((m.set_setting_width id none).2.set_setting_width id none).1 = .ok () ∧
      (((m.set_setting_width id none).2.set_setting_width id none).2.get_state).1 =
        ((m.set_setting_width id none).2.get_state).1) ∧
    ((m.set_setting_height id none).1 = .ok () ∧
      ((m.set_setting_height id none).2.set_setting_height id none).1 = .ok () ∧
      (((m.set_setting_height id none).2.set_setting_height id none).2.get_state).1 =
        ((m.set_setting_height id none).2.get_state).1) ∧
    ((m.set_setting_duration id none).1 = .ok () ∧
      ((m.set_setting_duration id none).2.set_setting_duration id none).1 = .ok () ∧
      (((m.set_setting_duration id none).2.set_setting_duration id none).2.get_state).1 =
        ((m.set_setting_duration id none).2.get_state).1) ∧
    ((m.set_setting_fps id none).1 = .ok () ∧
      ((m.set_setting_fps id none).2.set_setting_fps id none).1 = .ok () ∧
      (((m.set_setting_fps id none).2.set_setting_fps id none).2.get_state).1 =
        ((m.set_setting_fps id none).2.get_state).1) := by
  refine ⟨?_, ?_, ?_, ?_, ?_, ?_, ?_, ?_, ?_⟩
  · exact SequenceManager.double_null_idempotent hG hid "seed"
      (fun t => { t with seed := none }) (fun ses => hydrateSettings_del_seed ses)
      (fun n => rfl)
  · exact SequenceManager.double_null_idempotent hG hid "cfg"
      (fun t => { t with cfg := none }) (fun ses => hydrateSettings_del_cfg ses)
      (fun n => rfl)
  · exact SequenceManager.double_null_idempotent hG hid "num_steps"
      (fun t => { t with num_steps := none }) (fun ses => hydrateSettings_del_num_steps ses)
      (fun n => rfl)
  · exact SequenceManager.double_null_idempotent hG hid "model"
      (fun t => { t with model := none }) (fun ses => hydrateSettings_del_model ses)
      (fun n => rfl)
  · exact SequenceManager.double_null_idempotent hG hid "resolution"
      (fun t => { t with resolution := none }) (fun ses => hydrateSettings_del_resolution ses)
      (fun n => rfl)
  · exact SequenceManager.double_null_idempotent hG hid "width"
      (fun t => { t with width := none }) (fun ses => hydrateSettings_del_width ses)
      (fun n => rfl)
  · exact SequenceManager.double_null_idempotent hG hid "height"
      (fun t => { t with height := none }) (fun ses => hydrateSettings_del_height ses)
      (fun n => rfl)
  · exact SequenceManager.double_null_idempotent hG hid "duration"
      (fun t => { t with duration := none }) (fun ses => hydrateSettings_del_duration ses)
      (fun n => rfl)
  · exact SequenceManager.double_null_idempotent hG hid "fps"
      (fun t => { t with fps := none }) (fun ses => hydrateSettings_del_fps ses)
      (fun n => rfl)

/-- C9 witness: double seed-delete on a concrete one-node document: both
calls succeed and the second snapshot equals the first. -/
theorem C9_witness :
    (((SequenceManager.new.create_and_append "n1"
        (GenerationNode.new "n1" "t2i")).2.set_setting_seed "n1" none).1 = .ok () ∧
      (((SequenceManager.new.create_and_append "n1"
          (GenerationNode.new "n1" "t2i")).2.set_setting_seed "n1"
            none).2.set_setting_seed "n1" none).1 = .ok () ∧
      ((((SequenceManager.new.create_and_append "n1"
          (GenerationNode.new "n1" "t2i")).2.set_setting_seed "n1"
            none).2.set_setting_seed "n1" none).2.get_state).1 =
        (((SequenceManager.new.create_and_append "n1"
          (GenerationNode.new "n1" "t2i")).2.set_setting_seed "n1"
            none).2.get_state).1) := by
  have hG : SequenceManager.GoodState
      (SequenceManager.new.create_and_append "n1" (GenerationNode.new "n1" "t2i")).2
      ⟨["n1"], StrMap.empty.insert "n1" (GenerationNode.new "n1" "t2i")⟩ :=
    SequenceManager.goodState_update SequenceManager.goodState_new _
  exact (C9_double_null_idempotent _ _ "n1" (GenerationNode.new "n1" "t2i") hG rfl).1

-- =============================================================================
-- CLAIM C3
-- =============================================================================

theorem reconcileSettings_alookup_seed (old : List (String × AMValue))
    (s : GenerationSettings) :
    KV.alookup "seed" (reconcileSettings old s) =
      s.seed.map (fun v => AMValue.scalar (.int v)) := by
  obtain ⟨seed, cfg, num_steps, model, resolution, duration, width, height, fps⟩ := s
  simp only [reconcileSettings]
  rw [alookup_reconcileOpt_ne _ _ _ _ (by decide), alookup_reconcileOpt_ne _ _ _ _ (by decide),
      alookup_reconcileOpt_ne _ _ _ _ (by decide), alookup_reconcileOpt_ne _ _ _ _ (by decide),
      alookup_reconcileOpt_ne _ _ _ _ (by decide), alookup_reconcileOpt_ne _ _ _ _ (by decide),
      alookup_reconcileOpt_ne _ _ _ _ (by decide), alookup_reconcileOpt_ne _ _ _ _ (by decide),
      alookup_reconcileOpt_self]
  cases seed <;> rfl

theorem reconcileSettings_alookup_cfg (old : List (String × AMValue))
    (s : GenerationSettings) :
    KV.alookup "cfg" (reconcileSettings old s) =
      s.cfg.map (fun v => AMValue.scalar (.f64 v)) := by
  obtain ⟨seed, cfg, num_steps, model, resolution, duration, width, height, fps⟩ := s
  simp only [reconcileSettings]
  rw [alookup_reconcileOpt_ne _ _ _ _ (by decide), alookup_reconcileOpt_ne _ _ _ _ (by decide),
      alookup_reconcileOpt_ne _ _ _ _ (by decide), alookup_reconcileOpt_ne _ _ _ _ (by decide),
      alookup_reconcileOpt_ne _ _ _ _ (by decide), alookup_reconcileOpt_ne _ _ _ _ (by decide),
      alookup_reconcileOpt_ne _ _ _ _ (by decide), alookup_reconcileOpt_self]
  cases cfg <;> rfl

theorem reconcileSettings_alookup_num_steps (old : List (String × AMValue))
    (s : GenerationSettings) :
    KV.alookup "num_steps" (reconcileSettings old s) =
      s.num_steps.map (fun v => AMValue.scalar (.int v.val)) := by
  obtain ⟨seed, cfg, num_steps, model, resolution, duration, width, height, fps⟩ := s
  simp only [reconcileSettings]
  rw [alookup_reconcileOpt_ne _ _ _ _ (by decide), alookup_reconcileOpt_ne _ _ _ _ (by decide),
      alookup_reconcileOpt_ne _ _ _ _ (by decide), alookup_reconcileOpt_ne _ _ _ _ (by decide),
      alookup_reconcileOpt_ne _ _ _ _ (by decide), alookup_reconcileOpt_ne _ _ _ _ (by decide),
      alookup_reconcileOpt_self]
  cases num_steps <;> rfl

theorem reconcileSettings_alookup_model (old : List (String × AMValue))
    (s : GenerationSettings) :
    KV.alookup "model" (reconcileSettings old s) =
      s.model.map (fun v => AMValue.scalar (.str v)) := by
  obtain ⟨seed, cfg, num_steps, model, resolution, duration, width, height, fps⟩ := s
  simp only [reconcileSettings]
  rw [alookup_reconcileOpt_ne _ _ _ _ (by decide), alookup_reconcileOpt_ne _ _ _ _ (by decide),
      alookup_reconcileOpt_ne _ _ _ _ (by decide), alookup_reconcileOpt_ne _ _ _ _ (by decide),
      alookup_reconcileOpt_ne _ _ _ _ (by decide), alookup_reconcileOpt_self]
  cases model <;> rfl

theorem reconcileSettings_alookup_resolution (old : List (String × AMValue))
    (s : GenerationSettings) :
    KV.alookup "resolution" (reconcileSettings old s) =
      s.resolution.map (fun v => AMValue.scalar (.int v.val)) := by
  obtain ⟨seed, cfg, num_steps, model, resolution, duration, width, height, fps⟩ := s
  simp only [reconcileSettings]
  rw [alookup_reconcileOpt_ne _ _ _ _ (by decide), alookup_reconcileOpt_ne _ _ _ _ (by decide),
      alookup_reconcileOpt_ne _ _ _ _ (by decide), alookup_reconcileOpt_ne _ _ _ _ (by decide),
      alookup_reconcileOpt_self]
  cases resolution <;> rfl

theorem reconcileSettings_alookup_width (old : List (String × AMValue))
    (s : GenerationSettings) :
    KV.alookup "width" (reconcileSettings old s) =
      s.width.map (fun v => AMValue.scalar (.int v.val)) := by
  obtain ⟨seed, cfg, num_steps, model, resolution, duration, width, height, fps⟩ := s
  simp only [reconcileSettings]
  rw [alookup_reconcileOpt_ne _ _ _ _ (by decide), alookup_reconcileOpt_ne _ _ _ _ (by decide),
      alookup_reconcileOpt_ne _ _ _ _ (by decide), alookup_reconcileOpt_self]
  cases width <;> rfl

theorem reconcileSettings_alookup_height (old : List (String × AMValue))
    (s : GenerationSettings) :
    KV.alookup "height" (reconcileSettings old s) =
      s.height.map (fun v => AMValue.scalar (.int v.val)) := by
  obtain ⟨seed, cfg, num_steps, model, resolution, duration, width, height, fps⟩ := s
  simp only [reconcileSettings]
  rw [alookup_reconcileOpt_ne _ _ _ _ (by decide), alookup_reconcileOpt_ne _ _ _ _ (by decide),
      alookup_reconcileOpt_self]
  cases height <;> rfl

theorem reconcileSettings_alookup_duration (old : List (String × AMValue))
    (s : GenerationSettings) :
    KV.alookup "duration" (reconcileSettings old s) =
      s.duration.map (fun v => AMValue.scalar (.int v.val)) := by
  obtain ⟨seed, cfg, num_steps, model, resolution, duration, width, height, fps⟩ := s
  simp only [reconcileSettings]
  rw [alookup_reconcileOpt_ne _ _ _ _ (by decide), alookup_reconcileOpt_self]
  cases duration <;> rfl

theorem reconcileSettings_alookup_fps (old : List (String × AMValue))
    (s : GenerationSettings) :
    KV.alookup "fps" (reconcileSettings old s) =
      s.fps.map (fun v => AMValue.scalar (.int v.val)) := by
  obtain ⟨seed, cfg, num_steps, model, resolution, duration, width, height, fps⟩ := s
  simp only [reconcileSettings]
  rw [alookup_reconcileOpt_self]
  cases fps <;> rfl

/-- Collapsed read-path case analysis for the lenient `i64` helper: a
compatible integer scalar (signed or unsigned) yields the value, everything
else — absent key, null, or an incompatible value — yields `none`. -/
theorem hydrate_opt_i64_cases (entries : List (String × AMValue)) (key : String) :
    hydrate_opt_i64 entries key =
      match KV.alookup key entries with
      | some (.scalar (.int i)) => some i
      | some (.scalar (.uint u)) => some (wrap64 u)
      | _ => none := by
  unfold hydrate_opt_i64
  cases h : KV.alookup key entries with
  | none => rfl
  | some v =>
    cases v with
    | scalar sc => cases sc <;> rfl
    | map es => rfl
    | list xs => rfl

/-- Collapsed read-path case analysis for the lenient `f64` helper. -/
theorem hydrate_opt_f64_cases (entries : List (String × AMValue)) (key : String) :
    hydrate_opt_f64 entries key =
      match KV.alookup key entries with
      | some (.scalar (.f64 x)) => some x
      | some (.scalar (.int i)) => some (F64.ofInt i)
      | _ => none := by
  unfold hydrate_opt_f64
  cases h : KV.alookup key entries with
  | none => rfl
  | some v =>
    cases v with
    | scalar sc => cases sc <;> rfl
    | map es => rfl
    | list xs => rfl

/-- Collapsed read-path case analysis for the lenient `i32` helper (an `i64`
read followed by the wrapping `as i32` cast). -/
theorem hydrate_opt_i32_cases (entries : List (String × AMValue)) (key : String) :
    hydrate_opt_i32 entries key =
      match KV.alookup key entries with
      | some (.scalar (.int i)) => some (toInt32 i)
      | some (.scalar (.uint u)) => some (toInt32 (wrap64 u))
      | _ => none := by
  unfold hydrate_opt_i32 hydrate_opt_i64
  cases h : KV.alookup key entries with
  | none => rfl
  | some v =>
    cases v with
    | scalar sc => cases sc <;> rfl
    | map es => rfl
    | list xs => rfl

/-- Collapsed read-path case analysis for the lenient string helper. -/
theorem hydrate_opt_string_cases (entries : List (String × AMValue)) (key : String) :
    hydrate_opt_string entries key =
      match KV.alookup key entries with
      | some (.scalar (.str st)) => some st
      | _ => none := by
  unfold hydrate_opt_string
  cases h : KV.alookup key entries with
  | none => rfl
  | some v =>
    cases v with
    | scalar sc => cases sc <;> rfl
    | map es => rfl
    | list xs => rfl

/-- C3: the sparse optional-field codec for `GenerationSettings`. Write path:
after `reconcile`, each of the nine keys maps to the encoded scalar exactly
when the field is `Some` and is absent (deleted, never an explicit null)
when the field is `None`, whatever the previous map contents. The write is
exactly recovered by a read (`hydrate ∘ reconcile = id`). Read path: each
field of the hydrated settings is `Some` exactly on a present, type
compatible scalar and `none` on an absent key, a null, or an incompatible
value — the read helpers are total, never an error. -/
theorem C3_sparse_codec :
    (∀ (old : List (String × AMValue)) (s : GenerationSettings),
      KV.alookup "seed" (reconcileSettings old s) =
        s.seed.map (fun v => AMValue.scalar (.int v)) ∧
      KV.alookup "cfg" (reconcileSettings old s) =
        s.cfg.map (fun v => AMValue.scalar (.f64 v)) ∧
      KV.alookup "num_steps" (reconcileSettings old s) =
        s.num_steps.map (fun v => AMValue.scalar (.int v.val)) ∧
      KV.alookup "model" (reconcileSettings old s) =
        s.model.map (fun v => AMValue.scalar (.str v)) ∧
      KV.alookup "resolution" (reconcileSettings old s) =
        s.resolution.map (fun v => AMValue.scalar (.int v.val)) ∧
      KV.alookup "width" (reconcileSettings old s) =
        s.width.map (fun v => AMValue.scalar (.int v.val)) ∧
      KV.alookup "height" (reconcileSettings old s) =
        s.height.map (fun v => AMValue.scalar (.int v.val)) ∧
      KV.alookup "duration" (reconcileSettings old s) =
        s.duration.map (fun v => AMValue.scalar (.int v.val)) ∧
      KV.alookup "fps" (reconcileSettings old s) =
        s.fps.map (fun v => AMValue.scalar (.int v.val))) ∧
    (∀ (old : List (String × AMValue)) (s : GenerationSettings),
      hydrateSettings (reconcileSettings old s) = s) ∧
    (∀ ses : List (String × AMValue),
      ((hydrateSettings ses).seed =
        match KV.alookup "seed" ses with
        | some (.scalar (.int i)) => some i
        | some (.scalar (.uint u)) => some (wrap64 u)
        | _ => none) ∧
      ((hydrateSettings ses).cfg =
        match KV.alookup "cfg" ses with
        | some (.scalar (.f64 x)) => some x
        | some (.scalar (.int i)) => some (F64.ofInt i)
        | _ => none) ∧
      ((hydrateSettings ses).num_steps =
        match KV.alookup "num_steps" ses with
        | some (.scalar (.int i)) => some (toInt32 i)
        | some (.scalar (.uint u)) => some (toInt32 (wrap64 u))
        | _ => none) ∧
      ((hydrateSettings ses).model =
        match KV.alookup "model" ses with
        | some (.scalar (.str st)) => some st
        | _ => none) ∧
      ((hydrateSettings ses).resolution =
        match KV.alookup "resolution" ses with
        | some (.scalar (.int i)) => some (toInt32 i)
        | some (.scalar (.uint u)) => some (toInt32 (wrap64 u))
        | _ => none) ∧
      ((hydrateSettings ses).width =
        match KV.alookup "width" ses with
        | some (.scalar (.int i)) => some (toInt32 i)
        | some (.scalar (.uint u)) => some (toInt32 (wrap64 u))
        | _ => none) ∧
      ((hydrateSettings ses).height =
        match KV.alookup "height" ses with
        | some (.scalar (.int i)) => some (toInt32 i)
        | some (.scalar (.uint u)) => some (toInt32 (wrap64 u))
        | _ => none) ∧
      ((hydrateSettings ses).duration =
        match KV.alookup "duration" ses with
        | some (.scalar (.int i)) => some (toInt32 i)
        | some (.scalar (.uint u)) => some (toInt32 (wrap64 u))
        | _ => none) ∧
      ((hydrateSettings ses).fps =
        match KV.alookup "fps" ses with
        | some (.scalar (.int i)) => some (toInt32 i)
        | some (.scalar (.uint u)) => some (toInt32 (wrap64 u))
        | _ => none)) := by
  refine ⟨?_, ?_, ?_⟩
  · intro old s
    exact ⟨reconcileSettings_alookup_seed old s, reconcileSettings_alookup_cfg old s,
      reconcileSettings_alookup_num_steps old s, reconcileSettings_alookup_model old s,
      reconcileSettings_alookup_resolution old s, reconcileSettings_alookup_width old s,
      reconcileSettings_alookup_height old s, reconcileSettings_alookup_duration old s,
      reconcileSettings_alookup_fps old s⟩
  · intro old s
    exact hydrateSettings_reconcileSettings old s
  · intro ses
    exact ⟨hydrate_opt_i64_cases ses "seed", hydrate_opt_f64_cases ses "cfg",
      hydrate_opt_i32_cases ses "num_steps", hydrate_opt_string_cases ses "model",
      hydrate_opt_i32_cases ses "resolution", hydrate_opt_i32_cases ses "width",
      hydrate_opt_i32_cases ses "height", hydrate_opt_i32_cases ses "duration",
      hydrate_opt_i32_cases ses "fps"⟩

-- =============================================================================
-- STORYBOARD DATA MODEL (storyboard/model.rs)
-- =============================================================================

/-- `AssetHistory` (storyboard/model.rs lines 605-614). -/
structure AssetHistory where
  id : String
  image : String
  image_prompt : String
  generation_id : Option String
  lora_model_id : Option String
  timestamp : Int
deriving DecidableEq

/-- `ShotHistory` (storyboard/model.rs lines 576-583). -/
structure ShotHistory where
  id : String
  image : String
  prompt : String
  timestamp : Int
deriving DecidableEq

/-- `EntityRef` (storyboard/model.rs lines 398-402). -/
structure EntityRef where
  tag : String
  name : String
deriving DecidableEq

/-- `KnownEntities` (storyboard/model.rs lines 390-395). -/
structure KnownEntities where
  characters : List EntityRef
  sets : List EntityRef
  props : List EntityRef
deriving DecidableEq

/-- `CharacterLook` (storyboard/model.rs lines 406-417). -/
structure CharacterLook where
  description : String
  image : Option String
  image_prompt : Option String
  generation_id : Option String
  caption : Option String
  enhanced : Option Bool
  history : List AssetHistory
deriving DecidableEq

/-- `CharacterOutfit` (storyboard/model.rs lines 421-431). -/
structure CharacterOutfit where
  description : String
  image : Option String
  image_prompt : Option String
  generation_id : Option String
  caption : Option String
  history : List AssetHistory
deriving DecidableEq

/-- `LooksWithOutfit` (storyboard/model.rs lines 435-442). -/
structure LooksWithOutfit where
  image : Option String
  generation_id : Option String
  prompt : Option String
  caption : Option String
deriving DecidableEq

/-- `OutfitEntry` (storyboard/model.rs lines 445-451). -/
structure OutfitEntry where
  description : String
  image : Option String
  image_prompt : Option String
  generation_id : Option String
deriving DecidableEq

/-- `Character` (storyboard/model.rs lines 141-170). -/
structure Character where
  id : String
  name : String
  description : String
  image_prompt : String
  attributes : StrMap String
  tag : Option String
  caption : Option String
  image : Option String
  enhanced : Option Bool
  generation_id : Option String
  generation_status : Option String
  description_status : Option String
  description_error : Option String
  lora_model_id : Option String
  history : List AssetHistory
deriving DecidableEq

/-- `Prop` (storyboard/model.rs lines 207-227); `Prop` is reserved in Lean,
so the type is named with a prime. -/
structure Prop' where
  id : String
  name : String
  description : String
  image_prompt : String
  tag : Option String
  caption : Option String
  image : Option String
  original_image : Option String
  enhanced : Option Bool
  generation_id : Option String
  generation_status : Option String
  description_status : Option String
  description_error : Option String
  lora_model_id : Option String
  history : List AssetHistory
deriving DecidableEq

/-- `SetLocation` (storyboard/model.rs lines 258-276). -/
structure SetLocation where
  id : String
  name : String
  description : String
  image_prompt : String
  tag : Option String
  caption : Option String
  image : Option String
  enhanced : Option Bool
  generation_id : Option String
  generation_status : Option String
  description_status : Option String
  description_error : Option String
  lora_model_id : Option String
  history : List AssetHistory
deriving DecidableEq

/-- `AssetRef` (storyboard/model.rs lines 533-537). -/
structure AssetRef where
  tag : String
  name : String
deriving DecidableEq

/-- `ShotCharacterRef` (storyboard/model.rs lines 549-560). -/
structure ShotCharacterRef where
  description : String
  outfit : String
  looks_with_outfit_image : Option String
  looks_image : Option String
  outfit_image : Option String
  character_image : Option String
deriving DecidableEq

/-- `ShotAssetRef` (storyboard/model.rs lines 563-568). -/
structure ShotAssetRef where
  tag : String
  name : String
  image : Option String
deriving DecidableEq

/-- `ShotKnownAssets` (storyboard/model.rs lines 540-546). -/
structure ShotKnownAssets where
  characters : StrMap ShotCharacterRef
  sets : List ShotAssetRef
  props : List ShotAssetRef
deriving DecidableEq

/-- `Shot` (storyboard/model.rs lines 459-501). -/
structure Shot where
  id : String
  shot_number : Int32
  image_prompt : String
  size : String
  angle : String
  visual_description : String
  assets_used : List String
  image : Option String
  generation_status : Option String
  assets : Option (List AssetRef)
  environment : Option String
  action : Option String
  camera : Option String
  additional_instructions : Option String
  known_assets : Option ShotKnownAssets
  title : Option String
  visual_prompt : Option String
  camera_type : Option String
  camera_angle : Option String
  subject : Option String
  ref_shot_id : Option Int32
  history : List ShotHistory
deriving DecidableEq

/-- `Scene` (storyboard/model.rs lines 307-358). -/
structure Scene where
  id : String
  scene_number : Int32
  title : String
  header : String
  content : String
  visual_density_score : Int32
  predicted_shots : Int32
  reasoning : String
  characters_present : List String
  set_ref : Option String
  synopsis : Option String
  time : Option String
  raw_text : Option String
  looks_description : Option String
  outfit_description : Option String
  known_entities : Option KnownEntities
  character_looks : StrMap CharacterLook
  character_outfits : StrMap CharacterOutfit
  looks_with_outfit : StrMap LooksWithOutfit
  outfits : StrMap OutfitEntry
  shot_order : List String
  shots : StrMap Shot
deriving DecidableEq

/-- `UploadedAsset` (storyboard/model.rs lines 647-659). -/
structure UploadedAsset where
  id : String
  name : String
  image : String
  file_type : String
  file_size : Int
  uploaded_at : Int
deriving DecidableEq

/-- `StoryboardMetadata` (storyboard/model.rs lines 105-109). -/
structure StoryboardMetadata where
  num_shots : Option Int32
  aspect_ratio : Option String
deriving DecidableEq

/-- `ProcessingStages` (storyboard/model.rs lines 117-133). -/
structure ProcessingStages where
  characters : StrMap Character
  character_order : List String
  props : StrMap Prop'
  prop_order : List String
  sets : StrMap SetLocation
  set_order : List String
deriving DecidableEq

/-- `StoryboardRoot` (storyboard/model.rs lines 16-67). -/
structure StoryboardRoot where
  id : String
  title : String
  description : String
  script_content : String
  script_files : List String
  drive_file_ids : List String
  status : String
  current_stage : String
  created_at : Int
  last_updated : Int
  num_shots : Option Int32
  thumbnail_image : Option String
  last_synced_sha : Option String
  encrypted_by_email : Option String
  processing_stages : ProcessingStages
  scene_order : List String
  scenes : StrMap Scene
  uploaded_assets : StrMap UploadedAsset
  metadata : StoryboardMetadata
deriving DecidableEq

/-- `ProcessingStages::default()`. -/
def ProcessingStages.default : ProcessingStages :=
  ⟨StrMap.empty, [], StrMap.empty, [], StrMap.empty, []⟩

/-- `StoryboardMetadata::default()`. -/
def StoryboardMetadata.default : StoryboardMetadata := ⟨none, none⟩

/-- `StoryboardRoot::default()` (the standard `#[derive(Default)]`). -/
def StoryboardRoot.default : StoryboardRoot :=
  ⟨"", "", "", "", [], [], "", "", 0, 0, none, none, none, none,
    ProcessingStages.default, [], StrMap.empty, StrMap.empty,
    StoryboardMetadata.default⟩

-- =============================================================================
-- STORYBOARD MANAGER (storyboard/manager.rs)
-- =============================================================================

/-- `StoryboardManager` (storyboard/manager.rs lines 100-104), modelled at the
state level. Every storyboard operation verified below is implemented in the
source solely through `update_state` (manager.rs lines 160-170), which runs
the closure on the hydrated snapshot, reconciles it into the document and
replaces `cached_state` with the mutated snapshot, while `get_state`
(lines 149-157) serves that cache verbatim when it is populated. Along any
sequence of such operations starting from `new()` — whose cache starts as
`Some(StoryboardRoot::default())`, lines 110-119 — the automerge document is
therefore never re-read, and the observable behaviour is fully determined by
the cached snapshot, which is what this structure carries. The one document
reader relevant to the claims, `get_obj_at_key`, only touches `self.doc` and
is modelled as a standalone function of the document tree. -/
structure StoryboardManager where
  state : StoryboardRoot

namespace StoryboardManager

/-- `StoryboardManager::new` (manager.rs lines 110-119): fresh default root,
cached. -/
def new : StoryboardManager := ⟨StoryboardRoot.default⟩

/-- `StoryboardManager::get_state` (manager.rs lines 149-157) on a warm
cache: returns the cached snapshot. -/
def get_state (m : StoryboardManager) :
    Except CollabError StoryboardRoot × StoryboardManager :=
  (.ok m.state, m)

/-- `StoryboardManager::update_state` (manager.rs lines 160-170) on a warm
cache: mutate the snapshot, reconcile, re-cache. -/
def update_state (m : StoryboardManager) (f : StoryboardRoot → StoryboardRoot) :
    Except CollabError Unit × StoryboardManager :=
  (.ok (), ⟨f m.state⟩)

/-- The `insert(0, entry)` + `truncate(20)` pattern shared by every
append-history operation (manager.rs lines 407-413, 664-685). -/
def cappedPrepend {α : Type} (entry : α) (l : List α) : List α :=
  let l2 := entry :: l
  if 20 < l2.length then l2.take 20 else l2

/-- `create_characters` from `entity_crud!(Character, characters,
character_order)` (manager.rs lines 28-36): insert into the collection, then
append the id to the order list only if absent. -/
def create_characters (m : StoryboardManager) (id : String) (entity : Character) :
    Except CollabError Unit × StoryboardManager :=
  m.update_state (fun state =>
    let state := { state with processing_stages :=
      { state.processing_stages with
        characters := state.processing_stages.characters.insert id entity } }
    if id ∈ state.processing_stages.character_order then state
    else { state with processing_stages :=
      { state.processing_stages with
        character_order := state.processing_stages.character_order ++ [id] } })

/-- `get_characters` (entity_crud, manager.rs lines 39-42). -/
def get_characters (m : StoryboardManager) (id : String) :
    Except CollabError (Option Character) × StoryboardManager :=
  (.ok (m.state.processing_stages.characters.get id), m)

/-- `delete_characters` (entity_crud, manager.rs lines 45-50): remove from
the collection and retain everything but the id in the order list. -/
def delete_characters (m : StoryboardManager) (id : String) :
    Except CollabError Unit × StoryboardManager :=
  m.update_state (fun state =>
    { state with processing_stages :=
      { state.processing_stages with
        characters := state.processing_stages.characters.erase id,
        character_order :=
          state.processing_stages.character_order.filter (fun s => decide (s ≠ id)) } })

/-- `create_props` (entity_crud, manager.rs lines 28-36). -/
def create_props (m : StoryboardManager) (id : String) (entity : Prop') :
    Except CollabError Unit × StoryboardManager :=
  m.update_state (fun state =>
    let state := { state with processing_stages :=
      { state.processing_stages with
        props := state.processing_stages.props.insert id entity } }
    if id ∈ state.processing_stages.prop_order then state
    else { state with processing_stages :=
      { state.processing_stages with
        prop_order := state.processing_stages.prop_order ++ [id] } })

/-- `get_props` (entity_crud, manager.rs lines 39-42). -/
def get_props (m : StoryboardManager) (id : String) :
    Except CollabError (Option Prop') × StoryboardManager :=
  (.ok (m.state.processing_stages.props.get id), m)

/-- `delete_props` (entity_crud, manager.rs lines 45-50). -/
def delete_props (m : StoryboardManager) (id : String) :
    Except CollabError Unit × StoryboardManager :=
  m.update_state (fun state =>
    { state with processing_stages :=
      { state.processing_stages with
        props := state.processing_stages.props.erase id,
        prop_order :=
          state.processing_stages.prop_order.filter (fun s => decide (s ≠ id)) } })

/-- `create_sets` (entity_crud, manager.rs lines 28-36). -/
def create_sets (m : StoryboardManager) (id : String) (entity : SetLocation) :
    Except CollabError Unit × StoryboardManager :=
  m.update_state (fun state =>
    let state := { state with processing_stages :=
      { state.processing_stages with
        sets := state.processing_stages.sets.insert id entity } }
    if id ∈ state.processing_stages.set_order then state
    else { state with processing_stages :=
      { state.processing_stages with
        set_order := state.processing_stages.set_order ++ [id] } })

/-- `get_sets` (entity_crud, manager.rs lines 39-42). -/
def get_sets (m : StoryboardManager) (id : String) :
    Except CollabError (Option SetLocation) × StoryboardManager :=
  (.ok (m.state.processing_stages.sets.get id), m)

/-- `delete_sets` (entity_crud, manager.rs lines 45-50). -/
def delete_sets (m : StoryboardManager) (id : String) :
    Except CollabError Unit × StoryboardManager :=
  m.update_state (fun state =>
    { state with processing_stages :=
      { state.processing_stages with
        sets := state.processing_stages.sets.erase id,
        set_order :=
          state.processing_stages.set_order.filter (fun s => decide (s ≠ id)) } })

/-- `StoryboardManager::create_scene` (manager.rs lines 227-236). -/
def create_scene (m : StoryboardManager) (id : String) (scene : Scene) :
    Except CollabError Unit × StoryboardManager :=
  m.update_state (fun state =>
    let state := { state with scenes := state.scenes.insert id scene }
    if id ∈ state.scene_order then state
    else { state with scene_order := state.scene_order ++ [id] })

/-- `StoryboardManager::delete_scene` (manager.rs lines 245-251). -/
def delete_scene (m : StoryboardManager) (id : String) :
    Except CollabError Unit × StoryboardManager :=
  m.update_state (fun state =>
    { state with scenes := state.scenes.erase id,
                 scene_order := state.scene_order.filter (fun s => decide (s ≠ id)) })

/-- `StoryboardManager::create_shot` (manager.rs lines 305-315): the shot is
inserted into the scene's shots and appended to the scene's shot order only
if absent; a missing scene is a silent no-op. -/
def create_shot (m : StoryboardManager) (scene_id shot_id : String) (shot : Shot) :
    Except CollabError Unit × StoryboardManager :=
  m.update_state (fun state =>
    { state with scenes := state.scenes.modify scene_id (fun scene =>
        let scene := { scene with shots := scene.shots.insert shot_id shot }
        if shot_id ∈ scene.shot_order then scene
        else { scene with shot_order := scene.shot_order ++ [shot_id] }) })

/-- `StoryboardManager::delete_shot` (manager.rs lines 328-335). -/
def delete_shot (m : StoryboardManager) (scene_id shot_id : String) :
    Except CollabError Unit × StoryboardManager :=
  m.update_state (fun state =>
    { state with scenes := state.scenes.modify scene_id (fun scene =>
        { scene with shots := scene.shots.erase shot_id,
                     shot_order := scene.shot_order.filter (fun s => decide (s ≠ shot_id)) }) })

/-- `StoryboardManager::append_shot_history` (manager.rs lines 401-419):
prepend the entry into the shot's history and trim to 20; missing scene or
shot is a silent no-op. -/
def append_shot_history (m : StoryboardManager) (scene_id shot_id : String)
    (entry : ShotHistory) : Except CollabError Unit × StoryboardManager :=
  m.update_state (fun state =>
    { state with scenes := state.scenes.modify scene_id (fun scene =>
        { scene with shots := scene.shots.modify shot_id (fun shot =>
            { shot with history := cappedPrepend entry shot.history }) }) })

/-- `StoryboardManager::append_to_asset_history` (manager.rs lines 651-691):
navigate by the path's shape and prepend-with-cap into the matching entity's
history; any unrecognised path is a silent no-op. -/
def append_to_asset_history (m : StoryboardManager) (path : List String)
    (entry : AssetHistory) : Except CollabError Unit × StoryboardManager :=
  m.update_state (fun state =>
    match path with
    | "processing_stages" :: collection :: id :: _ =>
      match collection with
      | "characters" =>
        { state with processing_stages :=
          { state.processing_stages with
            characters := state.processing_stages.characters.modify id (fun e =>
              { e with history := cappedPrepend entry e.history }) } }
      | "props" =>
        { state with processing_stages :=
          { state.processing_stages with
            props := state.processing_stages.props.modify id (fun e =>
              { e with history := cappedPrepend entry e.history }) } }
      | "sets" =>
        { state with processing_stages :=
          { state.processing_stages with
            sets := state.processing_stages.sets.modify id (fun e =>
              { e with history := cappedPrepend entry e.history }) } }
      | _ => state
    | _ => state)

/-- `append_characters_history` (entity_crud, manager.rs lines 80-86). -/
def append_characters_history (m : StoryboardManager) (id : String)
    (entry : AssetHistory) : Except CollabError Unit × StoryboardManager :=
  m.append_to_asset_history ["processing_stages", "characters", id] entry

/-- `append_props_history` (entity_crud, manager.rs lines 80-86). -/
def append_props_history (m : StoryboardManager) (id : String)
    (entry : AssetHistory) : Except CollabError Unit × StoryboardManager :=
  m.append_to_asset_history ["processing_stages", "props", id] entry

/-- `append_sets_history` (entity_crud, manager.rs lines 80-86). -/
def append_sets_history (m : StoryboardManager) (id : String)
    (entry : AssetHistory) : Except CollabError Unit × StoryboardManager :=
  m.append_to_asset_history ["processing_stages", "sets", id] entry

/-- `StoryboardManager::get_obj_at_key` (manager.rs lines 711-721): resolve a
key inside a parent container. Unlike the sequence flavour there is no
UUID-length heuristic — every missing key reports `FieldNotFound`. The
function only reads `self.doc`, so the document tree is passed explicitly. -/
def get_obj_at_key (doc : AMValue) (parent : ObjPath) (key : String) :
    Except CollabError ObjPath :=
  match getAtPath doc parent with
  | some (.map entries) =>
    match KV.alookup key entries with
    | some (.map _) => .ok (parent ++ [key])
    | some (.list _) => .ok (parent ++ [key])
    | some (.scalar _) =>
      .error (.SchemaViolation (String.append key " is not an object"))
    | none => .error (.FieldNotFound key)
  | _ => .error .Automerge

end StoryboardManager

namespace StoryboardManager

/-- `StoryboardManager::get_shot` (manager.rs lines 318-325). -/
def get_shot (m : StoryboardManager) (scene_id shot_id : String) :
    Except CollabError (Option Shot) × StoryboardManager :=
  (.ok ((m.state.scenes.get scene_id).bind (fun s => s.shots.get shot_id)), m)

theorem cappedPrepend_eq_take {α : Type} (e : α) (l : List α) :
    cappedPrepend e l = (e :: l).take 20 := by
  unfold cappedPrepend
  by_cases h : 20 < (e :: l).length
  · rw [if_pos h]
  · rw [if_neg h, List.take_of_length_le (by omega)]

theorem take20_append_take20 {α : Type} (x y : List α) :
    (x ++ y.take 20).take 20 = (x ++ y).take 20 := by
  rw [List.take_append_eq_append_take, List.take_append_eq_append_take, List.take_take]
  congr 1
  rw [Nat.min_eq_left (by omega)]

theorem foldl_cappedPrepend {α : Type} (l : List α) (h0 : List α)
    (hle : h0.length ≤ 20) :
    l.foldl (fun h e => cappedPrepend e h) h0 = (l.reverse ++ h0).take 20 := by
  induction l generalizing h0 with
  | nil => simp [List.take_of_length_le hle]
  | cons e es ih =>
    rw [List.foldl_cons, ih (cappedPrepend e h0)
        (by rw [cappedPrepend_eq_take]; exact List.length_take_le _ _)]
    rw [cappedPrepend_eq_take, take20_append_take20, List.reverse_cons,
        List.append_assoc, List.singleton_append]

/-- A fold of 21 or more capped prepends forgets the starting history
entirely: the result is the newest 20 entries, newest first. -/
theorem foldl_cappedPrepend_long {α : Type} (l : List α) (h0 : List α)
    (hlen : 21 ≤ l.length) :
    l.foldl (fun h e => cappedPrepend e h) h0 = l.reverse.take 20 := by
  cases l with
  | nil => simp at hlen
  | cons e es =>
    have hes : 20 - es.reverse.length = 0 := by
      simp only [List.length_reverse]
      simp at hlen
      omega
    rw [List.foldl_cons, foldl_cappedPrepend es (cappedPrepend e h0)
        (by rw [cappedPrepend_eq_take]; exact List.length_take_le _ _)]
    rw [List.take_append_eq_append_take, hes, List.take_zero, List.append_nil,
        List.reverse_cons, List.take_append_eq_append_take, hes, List.take_zero,
        List.append_nil]

theorem head?_take20 {α : Type} (l : List α) : (l.take 20).head? = l.head? := by
  cases l <;> rfl

/-- Iterated `append_characters_history`. -/
def appendManyCharacters (m : StoryboardManager) (id : String)
    (entries : List AssetHistory) : StoryboardManager :=
  entries.foldl (fun mm e => (mm.append_characters_history id e).2) m

/-- Iterated `append_props_history`. -/
def appendManyProps (m : StoryboardManager) (id : String)
    (entries : List AssetHistory) : StoryboardManager :=
  entries.foldl (fun mm e => (mm.append_props_history id e).2) m

/-- Iterated `append_sets_history`. -/
def appendManySets (m : StoryboardManager) (id : String)
    (entries : List AssetHistory) : StoryboardManager :=
  entries.foldl (fun mm e => (mm.append_sets_history id e).2) m

/-- Iterated `append_shot_history`. -/
def appendManyShot (m : StoryboardManager) (scene_id shot_id : String)
    (entries : List ShotHistory) : StoryboardManager :=
  entries.foldl (fun mm e => (mm.append_shot_history scene_id shot_id e).2) m

theorem appendManyCharacters_get (entries : List AssetHistory)
    (m : StoryboardManager) (id : String) (c : Character)
    (h : m.state.processing_stages.characters.get id = some c) :
    (appendManyCharacters m id entries).state.processing_stages.characters.get id =
      some { c with history :=
        entries.foldl (fun hh e => cappedPrepend e hh) c.history } := by
  induction entries generalizing m c with
  | nil => exact h
  | cons e es ih =>
    have h2 : ((m.append_characters_history id e).2).state.processing_stages.characters.get id =
        some { c with history := cappedPrepend e c.history } := by
      show (m.state.processing_stages.characters.modify id (fun en =>
          { en with history := cappedPrepend e en.history })).get id = _
      rw [StrMap.get_modify_self, h]
      rfl
    exact ih _ _ h2

theorem appendManyProps_get (entries : List AssetHistory)
    (m : StoryboardManager) (id : String) (c : Prop')
    (h : m.state.processing_stages.props.get id = some c) :
    (appendManyProps m id entries).state.processing_stages.props.get id =
      some { c with history :=
        entries.foldl (fun hh e => cappedPrepend e hh) c.history } := by
  induction entries generalizing m c with
  | nil => exact h
  | cons e es ih =>
    have h2 : ((m.append_props_history id e).2).state.processing_stages.props.get id =
        some { c with history := cappedPrepend e c.history } := by
      show (m.state.processing_stages.props.modify id (fun en =>
          { en with history := cappedPrepend e en.history })).get id = _
      rw [StrMap.get_modify_self, h]
      rfl
    exact ih _ _ h2

theorem appendManySets_get (entries : List AssetHistory)
    (m : StoryboardManager) (id : String) (c : SetLocation)
    (h : m.state.processing_stages.sets.get id = some c) :
    (appendManySets m id entries).state.processing_stages.sets.get id =
      some { c with history :=
        entries.foldl (fun hh e => cappedPrepend e hh) c.history } := by
  induction entries generalizing m c with
  | nil => exact h
  | cons e es ih =>
    have h2 : ((m.append_sets_history id e).2).state.processing_stages.sets.get id =
        some { c with history := cappedPrepend e c.history } := by
      show (m.state.processing_stages.sets.modify id (fun en =>
          { en with history := cappedPrepend e en.history })).get id = _
      rw [StrMap.get_modify_self, h]
      rfl
    exact ih _ _ h2

theorem appendManyShot_get (entries : List ShotHistory)
    (m : StoryboardManager) (scene_id shot_id : String) (sc : Scene) (sh : Shot)
    (hsc : m.state.scenes.get scene_id = some sc)
    (hsh : sc.shots.get shot_id = some sh) :
    ∃ sc2 : Scene,
      (appendManyShot m scene_id shot_id entries).state.scenes.get scene_id = some sc2 ∧
      sc2.shots.get shot_id =
        some { sh with history :=
          entries.foldl (fun hh e => cappedPrepend e hh) sh.history } := by
  induction entries generalizing m sc sh with
  | nil => exact ⟨sc, hsc, hsh⟩
  | cons e es ih =>
    have hsc2 : ((m.append_shot_history scene_id shot_id e).2).state.scenes.get scene_id =
        some { sc with shots := sc.shots.modify shot_id (fun s =>
          { s with history := cappedPrepend e s.history }) } := by
      show (m.state.scenes.modify scene_id (fun scene =>
          { scene with shots := scene.shots.modify shot_id (fun s =>
            { s with history := cappedPrepend e s.history }) })).get scene_id = _
      rw [StrMap.get_modify_self, hsc]
      rfl
    have hsh2 : ({ sc with shots := sc.shots.modify shot_id (fun s =>
        { s with history := cappedPrepend e s.history }) } : Scene).shots.get shot_id =
        some { sh with history := cappedPrepend e sh.history } := by
      show (sc.shots.modify shot_id (fun s =>
          { s with history := cappedPrepend e s.history })).get shot_id = _
      rw [StrMap.get_modify_self, hsh]
      rfl
    exact ih _ _ _ hsc2 hsh2

end StoryboardManager

-- =============================================================================
-- CLAIM C5
-- =============================================================================

/-- C5: for every entity (character, prop, set) and every shot, appending 25
history entries through the append-history operation leaves exactly 20
entries, the history equals the newest 20 entries newest-first, and the most
recently appended entry (the last of the 25) sits at position 0; the oldest
entries beyond the cap are dropped. -/
theorem C5_history_cap :
    (∀ (m : StoryboardManager) (id : String) (c : Character)
        (entries : List AssetHistory),
      entries.length = 25 →
      m.state.processing_stages.characters.get id = some c →
      ∃ c2 : Character,
        ((StoryboardManager.appendManyCharacters m id entries).get_characters id).1 =
          .ok (some c2) ∧
        c2.history.length = 20 ∧
        c2.history = entries.reverse.take 20 ∧
        c2.history.head? = entries.getLast?) ∧
    (∀ (m : StoryboardManager) (id : String) (c : Prop')
        (entries : List AssetHistory),
      entries.length = 25 →
      m.state.processing_stages.props.get id = some c →
      ∃ c2 : Prop',
        ((StoryboardManager.appendManyProps m id entries).get_props id).1 =
          .ok (some c2) ∧
        c2.history.length = 20 ∧
        c2.history = entries.reverse.take 20 ∧
        c2.history.head? = entries.getLast?) ∧
    (∀ (m : StoryboardManager) (id : String) (c : SetLocation)
        (entries : List AssetHistory),
      entries.length = 25 →
      m.state.processing_stages.sets.get id = some c →
      ∃ c2 : SetLocation,
        ((StoryboardManager.appendManySets m id entries).get_sets id).1 =
          .ok (some c2) ∧
        c2.history.length = 20 ∧
        c2.history = entries.reverse.take 20 ∧
        c2.history.head? = entries.getLast?) ∧
    (∀ (m : StoryboardManager) (scene_id shot_id : String) (sc : Scene) (sh : Shot)
        (entries : List ShotHistory),
      entries.length = 25 →
      m.state.scenes.get scene_id = some sc →
      sc.shots.get shot_id = some sh →
      ∃ sh2 : Shot,
        ((StoryboardManager.appendManyShot m scene_id shot_id entries).get_shot
          scene_id shot_id).1 = .ok (some sh2) ∧
        sh2.history.length = 20 ∧
        sh2.history = entries.reverse.take 20 ∧
        sh2.history.head? = entries.getLast?) := by
  refine ⟨?_, ?_, ?_, ?_⟩
  · intro m id c entries hlen hid
    have hg := StoryboardManager.appendManyCharacters_get entries m id c hid
    have hfold : entries.foldl (fun hh e => StoryboardManager.cappedPrepend e hh)
        c.history = entries.reverse.take 20 :=
      StoryboardManager.foldl_cappedPrepend_long entries c.history (by omega)
    refine ⟨{ c with history := entries.reverse.take 20 }, ?_, ?_, rfl, ?_⟩
    · show Except.ok ((StoryboardManager.appendManyCharacters m id
        entries).state.processing_stages.characters.get id) = _
      rw [hg, hfold]
    · show (entries.reverse.take 20).length = 20
      rw [List.length_take, List.length_reverse, hlen]
      decide
    · show (entries.reverse.take 20).head? = entries.getLast?
      rw [StoryboardManager.head?_take20, List.head?_reverse]
  · intro m id c entries hlen hid
    have hg := StoryboardManager.appendManyProps_get entries m id c hid
    have hfold : entries.foldl (fun hh e => StoryboardManager.cappedPrepend e hh)
        c.history = entries.reverse.take 20 :=
      StoryboardManager.foldl_cappedPrepend_long entries c.history (by omega)
    refine ⟨{ c with history := entries.reverse.take 20 }, ?_, ?_, rfl, ?_⟩
    · show Except.ok ((StoryboardManager.appendManyProps m id
        entries).state.processing_stages.props.get id) = _
      rw [hg, hfold]
    · show (entries.reverse.take 20).length = 20
      rw [List.length_take, List.length_reverse, hlen]
      decide
    · show (entries.reverse.take 20).head? = entries.getLast?
      rw [StoryboardManager.head?_take20, List.head?_reverse]
  · intro m id c entries hlen hid
    have hg := StoryboardManager.appendManySets_get entries m id c hid
    have hfold : entries.foldl (fun hh e => StoryboardManager.cappedPrepend e hh)
        c.history = entries.reverse.take 20 :=
      StoryboardManager.foldl_cappedPrepend_long entries c.history (by omega)
    refine ⟨{ c with history := entries.reverse.take 20 }, ?_, ?_, rfl, ?_⟩
    · show Except.ok ((StoryboardManager.appendManySets m id
        entries).state.processing_stages.sets.get id) = _
      rw [hg, hfold]
    · show (entries.reverse.take 20).length = 20
      rw [List.length_take, List.length_reverse, hlen]
      decide
    · show (entries.reverse.take 20).head? = entries.getLast?
      rw [StoryboardManager.head?_take20, List.head?_reverse]
  · intro m scene_id shot_id sc sh entries hlen hsc hsh
    obtain ⟨sc2, hsc2, hsh2⟩ :=
      StoryboardManager.appendManyShot_get entries m scene_id shot_id sc sh hsc hsh
    have hfold : entries.foldl (fun hh e => StoryboardManager.cappedPrepend e hh)
        sh.history = entries.reverse.take 20 :=
      StoryboardManager.foldl_cappedPrepend_long entries sh.history (by omega)
    refine ⟨{ sh with history := entries.reverse.take 20 }, ?_, ?_, rfl, ?_⟩
    · show Except.ok (((StoryboardManager.appendManyShot m scene_id shot_id
        entries).state.scenes.get scene_id).bind (fun s => s.shots.get shot_id)) = _
      rw [hsc2]
      show Except.ok (sc2.shots.get shot_id) = _
      rw [hsh2, hfold]
    · show (entries.reverse.take 20).length = 20
      rw [List.length_take, List.length_reverse, hlen]
      decide
    · show (entries.reverse.take 20).head? = entries.getLast?
      rw [StoryboardManager.head?_take20, List.head?_reverse]

/-- C5 witness: 25 identical history entries appended to a concrete
character leave exactly 20, newest first. -/
theorem C5_witness :
    ∃ c2 : Character,
      ((StoryboardManager.appendManyCharacters
          (StoryboardManager.new.create_characters "c1"
            ⟨"c1", "", "", "", StrMap.empty, none, none, none, none, none, none,
              none, none, none, []⟩).2 "c1"
          (List.replicate 25 ⟨"h", "", "", none, none, 0⟩)).get_characters "c1").1 =
        .ok (some c2) ∧
      c2.history.length = 20 ∧
      c2.history = (List.replicate 25
        (⟨"h", "", "", none, none, 0⟩ : AssetHistory)).reverse.take 20 ∧
      c2.history.head? = (List.replicate 25
        (⟨"h", "", "", none, none, 0⟩ : AssetHistory)).getLast? :=
  C5_history_cap.1
    (StoryboardManager.new.create_characters "c1"
      ⟨"c1", "", "", "", StrMap.empty, none, none, none, none, none, none,
        none, none, none, []⟩).2 "c1"
    ⟨"c1", "", "", "", StrMap.empty, none, none, none, none, none, none,
      none, none, none, []⟩
    (List.replicate 25 ⟨"h", "", "", none, none, 0⟩)
    (by rfl) rfl

-- =============================================================================
-- CLAIM C6
-- =============================================================================

namespace StoryboardManager

theorem create_characters_state (m : StoryboardManager) (id : String)
    (entity : Character) :
    ((m.create_characters id entity).2).state =
      if id ∈ m.state.processing_stages.character_order then
        { m.state with processing_stages := { m.state.processing_stages with
            characters := m.state.processing_stages.characters.insert id entity } }
      else
        { m.state with processing_stages := { m.state.processing_stages with
            characters := m.state.processing_stages.characters.insert id entity,
            character_order := m.state.processing_stages.character_order ++ [id] } } :=
  rfl

theorem create_props_state (m : StoryboardManager) (id : String)
    (entity : Prop') :
    ((m.create_props id entity).2).state =
      if id ∈ m.state.processing_stages.prop_order then
        { m.state with processing_stages := { m.state.processing_stages with
            props := m.state.processing_stages.props.insert id entity } }
      else
        { m.state with processing_stages := { m.state.processing_stages with
            props := m.state.processing_stages.props.insert id entity,
            prop_order := m.state.processing_stages.prop_order ++ [id] } } :=
  rfl

theorem create_sets_state (m : StoryboardManager) (id : String)
    (entity : SetLocation) :
    ((m.create_sets id entity).2).state =
      if id ∈ m.state.processing_stages.set_order then
        { m.state with processing_stages := { m.state.processing_stages with
            sets := m.state.processing_stages.sets.insert id entity } }
      else
        { m.state with processing_stages := { m.state.processing_stages with
            sets := m.state.processing_stages.sets.insert id entity,
            set_order := m.state.processing_stages.set_order ++ [id] } } :=
  rfl

theorem create_scene_state (m : StoryboardManager) (id : String) (scene : Scene) :
    ((m.create_scene id scene).2).state =
      if id ∈ m.state.scene_order then
        { m.state with scenes := m.state.scenes.insert id scene }
      else
        { m.state with scenes := m.state.scenes.insert id scene,
                       scene_order := m.state.scene_order ++ [id] } :=
  rfl

end StoryboardManager

theorem not_mem_filter_self (l : List String) (id : String) :
    id ∉ l.filter (fun s => decide (s ≠ id)) := by
  intro h
  have h2 := List.of_mem_filter h
  simp at h2

namespace SequenceManager

/-- Snapshot after `create_and_append` under a coherent state: the node is
inserted and the id appended to the order only when absent. -/
theorem create_and_append_good {m : SequenceManager} {s : DocumentRoot}
    (hG : GoodState m s) (id : String) (node : GenerationNode) :
    ((m.create_and_append id node).2.get_state).1 =
      .ok (if id ∈ s.sequence_order then
            { s with generations := s.generations.insert id node }
          else
            { s with generations := s.generations.insert id node,
                     sequence_order := s.sequence_order ++ [id] }) := by
  have hG2 := goodState_update hG (fun state =>
    let state := { state with generations := state.generations.insert id node }
    if id ∈ state.sequence_order then state
    else { state with sequence_order := state.sequence_order ++ [id] })
  exact congrArg Prod.fst (get_state_good hG2)

/-- Snapshot after `delete_node` under a coherent state. -/
theorem delete_node_good {m : SequenceManager} {s : DocumentRoot}
    (hG : GoodState m s) (id : String) :
    ((m.delete_node id).2.get_state).1 =
      .ok { s with generations := s.generations.erase id,
                   sequence_order := s.sequence_order.filter (fun x => decide (x ≠ id)) } := by
  have hG2 := goodState_update hG (fun state =>
    { state with generations := state.generations.erase id,
                 sequence_order := state.sequence_order.filter (fun x => decide (x ≠ id)) })
  exact congrArg Prod.fst (get_state_good hG2)

end SequenceManager

namespace StoryboardManager

theorem delete_characters_state (m : StoryboardManager) (id : String) :
    ((m.delete_characters id).2).state =
      { m.state with processing_stages := { m.state.processing_stages with
          characters := m.state.processing_stages.characters.erase id,
          character_order :=
            m.state.processing_stages.character_order.filter (fun s => decide (s ≠ id)) } } :=
  rfl

theorem delete_props_state (m : StoryboardManager) (id : String) :
    ((m.delete_props id).2).state =
      { m.state with processing_stages := { m.state.processing_stages with
          props := m.state.processing_stages.props.erase id,
          prop_order :=
            m.state.processing_stages.prop_order.filter (fun s => decide (s ≠ id)) } } :=
  rfl

theorem delete_sets_state (m : StoryboardManager) (id : String) :
    ((m.delete_sets id).2).state =
      { m.state with processing_stages := { m.state.processing_stages with
          sets := m.state.processing_stages.sets.erase id,
          set_order :=
            m.state.processing_stages.set_order.filter (fun s => decide (s ≠ id)) } } :=
  rfl

theorem delete_scene_state (m : StoryboardManager) (id : String) :
    ((m.delete_scene id).2).state =
      { m.state with scenes := m.state.scenes.erase id,
                     scene_order := m.state.scene_order.filter (fun s => decide (s ≠ id)) } :=
  rfl

/-- Scene contents after `create_shot` when the scene exists. -/
theorem create_shot_scene (m : StoryboardManager) (scene_id shot_id : String)
    (shot : Shot) (sc : Scene) (hsc : m.state.scenes.get scene_id = some sc) :
    ((m.create_shot scene_id shot_id shot).2).state.scenes.get scene_id =
      some (if shot_id ∈ sc.shot_order then
              { sc with shots := sc.shots.insert shot_id shot }
            else
              { sc with shots := sc.shots.insert shot_id shot,
                        shot_order := sc.shot_order ++ [shot_id] }) := by
  show (m.state.scenes.modify scene_id (fun scene =>
      let scene := { scene with shots := scene.shots.insert shot_id shot }
      if shot_id ∈ scene.shot_order then scene
      else { scene with shot_order := scene.shot_order ++ [shot_id] })).get scene_id = _
  rw [StrMap.get_modify_self, hsc]
  rfl

/-- Scene contents after `delete_shot` when the scene exists. -/
theorem delete_shot_scene (m : StoryboardManager) (scene_id shot_id : String)
    (sc : Scene) (hsc : m.state.scenes.get scene_id = some sc) :
    ((m.delete_shot scene_id shot_id).2).state.scenes.get scene_id =
      some { sc with shots := sc.shots.erase shot_id,
                     shot_order := sc.shot_order.filter (fun s => decide (s ≠ shot_id)) } := by
  show (m.state.scenes.modify scene_id (fun scene =>
      { scene with shots := scene.shots.erase shot_id,
                   shot_order := scene.shot_order.filter (fun s => decide (s ≠ shot_id)) })).get scene_id = _
  rw [StrMap.get_modify_self, hsc]
  rfl

end StoryboardManager

/-- C6: order-list integrity for every (collection, order-list) pair.
Sequence manager (generations / sequence_order): `create_and_append` stores
the node and appends the id only when absent — re-creating an existing id
overwrites without duplicating or moving the order entry — and `delete_node`
removes the id from both the map and the order list. Storyboard manager:
the same holds for characters / character_order, props / prop_order,
sets / set_order, scenes / scene_order, and per-scene shots / shot_order. -/
theorem C6_order_list_integrity :
    (∀ (m : SequenceManager) (s : DocumentRoot) (id : String) (node : GenerationNode),
      SequenceManager.GoodState m s →
      ∃ s2 : DocumentRoot,
        ((m.create_and_append id node).2.get_state).1 = .ok s2 ∧
        s2.generations.get id = some node ∧
        (id ∈ s.sequence_order → s2.sequence_order = s.sequence_order) ∧
        (id ∉ s.sequence_order → s2.sequence_order = s.sequence_order ++ [id])) ∧
    (∀ (m : SequenceManager) (s : DocumentRoot) (id : String),
      SequenceManager.GoodState m s →
      ∃ s3 : DocumentRoot,
        ((m.delete_node id).2.get_state).1 = .ok s3 ∧
        s3.generations.get id = none ∧
        id ∉ s3.sequence_order ∧
        s3.sequence_order = s.sequence_order.filter (fun x => decide (x ≠ id))) ∧
    (∀ (m : StoryboardManager) (id : String) (entity : Character),
      ((m.create_characters id entity).2).state.processing_stages.characters.get id =
        some entity ∧
      (id ∈ m.state.processing_stages.character_order →
        ((m.create_characters id entity).2).state.processing_stages.character_order =
          m.state.processing_stages.character_order) ∧
      (id ∉ m.state.processing_stages.character_order →
        ((m.create_characters id entity).2).state.processing_stages.character_order =
          m.state.processing_stages.character_order ++ [id])) ∧
    (∀ (m : StoryboardManager) (id : String),
      ((m.delete_characters id).2).state.processing_stages.characters.get id = none ∧
      id ∉ ((m.delete_characters id).2).state.processing_stages.character_order ∧
      ((m.delete_characters id).2).state.processing_stages.character_order =
        m.state.processing_stages.character_order.filter (fun x => decide (x ≠ id))) ∧
    (∀ (m : StoryboardManager) (id : String) (entity : Prop'),
      ((m.create_props id entity).2).state.processing_stages.props.get id =
        some entity ∧
      (id ∈ m.state.processing_stages.prop_order →
        ((m.create_props id entity).2).state.processing_stages.prop_order =
          m.state.processing_stages.prop_order) ∧
      (id ∉ m.state.processing_stages.prop_order →
        ((m.create_props id entity).2).state.processing_stages.prop_order =
          m.state.processing_stages.prop_order ++ [id])) ∧
    (∀ (m : StoryboardManager) (id : String),
      ((m.delete_props id).2).state.processing_stages.props.get id = none ∧
      id ∉ ((m.delete_props id).2).state.processing_stages.prop_order ∧
      ((m.delete_props id).2).state.processing_stages.prop_order =
        m.state.processing_stages.prop_order.filter (fun x => decide (x ≠ id))) ∧
    (∀ (m : StoryboardManager) (id : String) (entity : SetLocation),
      ((m.create_sets id entity).2).state.processing_stages.sets.get id =
        some entity ∧
      (id ∈ m.state.processing_stages.set_order →
        ((m.create_sets id entity).2).state.processing_stages.set_order =
          m.state.processing_stages.set_order) ∧
      (id ∉ m.state.processing_stages.set_order →
        ((m.create_sets id entity).2).state.processing_stages.set_order =
          m.state.processing_stages.set_order ++ [id])) ∧
    (∀ (m : StoryboardManager) (id : String),
      ((m.delete_sets id).2).state.processing_stages.sets.get id = none ∧
      id ∉ ((m.delete_sets id).2).state.processing_stages.set_order ∧
      ((m.delete_sets id).2).state.processing_stages.set_order =
        m.state.processing_stages.set_order.filter (fun x => decide (x ≠ id))) ∧
    (∀ (m : StoryboardManager) (id : String) (scene : Scene),
      ((m.create_scene id scene).2).state.scenes.get id = some scene ∧
      (id ∈ m.state.scene_order →
        ((m.create_scene id scene).2).state.scene_order = m.state.scene_order) ∧
      (id ∉ m.state.scene_order →
        ((m.create_scene id scene).2).state.scene_order =
          m.state.scene_order ++ [id])) ∧
    (∀ (m : StoryboardManager) (id : String),
      ((m.delete_scene id).2).state.scenes.get id = none ∧
      id ∉ ((m.delete_scene id).2).state.scene_order ∧
      ((m.delete_scene id).2).state.scene_order =
        m.state.scene_order.filter (fun x => decide (x ≠ id))) ∧
    (∀ (m : StoryboardManager) (scene_id shot_id : String) (shot : Shot) (sc : Scene),
      m.state.scenes.get scene_id = some sc →
      ∃ sc2 : Scene,
        ((m.create_shot scene_id shot_id shot).2).state.scenes.get scene_id = some sc2 ∧
        sc2.shots.get shot_id = some shot ∧
        (shot_id ∈ sc.shot_order → sc2.shot_order = sc.shot_order) ∧
        (shot_id ∉ sc.shot_order → sc2.shot_order = sc.shot_order ++ [shot_id])) ∧
    (∀ (m : StoryboardManager) (scene_id shot_id : String) (sc : Scene),
      m.state.scenes.get scene_id = some sc →
      ∃ sc2 : Scene,
        ((m.delete_shot scene_id shot_id).2).state.scenes.get scene_id = some sc2 ∧
        sc2.shots.get shot_id = none ∧
        shot_id ∉ sc2.shot_order ∧
        sc2.shot_order = sc.shot_order.filter (fun x => decide (x ≠ shot_id))) := by
  refine ⟨?_, ?_, ?_, ?_, ?_, ?_, ?_, ?_, ?_, ?_, ?_, ?_⟩
  · intro m s id node hG
    refine ⟨_, SequenceManager.create_and_append_good hG id node, ?_, ?_, ?_⟩
    · by_cases h : id ∈ s.sequence_order
      · rw [if_pos h]
        exact StrMap.get_insert_self _ _ _
      · rw [if_neg h]
        exact StrMap.get_insert_self _ _ _
    · intro h
      rw [if_pos h]
    · intro h
      rw [if_neg h]
  · intro m s id hG
    exact ⟨_, SequenceManager.delete_node_good hG id, StrMap.get_erase_self _ _,
      not_mem_filter_self _ _, rfl⟩
  · intro m id entity
    refine ⟨?_, ?_, ?_⟩
    · rw [StoryboardManager.create_characters_state]
      by_cases h : id ∈ m.state.processing_stages.character_order
      · rw [if_pos h]
        exact StrMap.get_insert_self _ _ _
      · rw [if_neg h]
        exact StrMap.get_insert_self _ _ _
    · intro h
      rw [StoryboardManager.create_characters_state, if_pos h]
    · intro h
      rw [StoryboardManager.create_characters_state, if_neg h]
  · intro m id
    refine ⟨?_, ?_, ?_⟩
    · rw [StoryboardManager.delete_characters_state]
      exact StrMap.get_erase_self _ _
    · rw [StoryboardManager.delete_characters_state]
      exact not_mem_filter_self _ _
    · rw [StoryboardManager.delete_characters_state]
  · intro m id entity
    refine ⟨?_, ?_, ?_⟩
    · rw [StoryboardManager.create_props_state]
      by_cases h : id ∈ m.state.processing_stages.prop_order
      · rw [if_pos h]
        exact StrMap.get_insert_self _ _ _
      · rw [if_neg h]
        exact StrMap.get_insert_self _ _ _
    · intro h
      rw [StoryboardManager.create_props_state, if_pos h]
    · intro h
      rw [StoryboardManager.create_props_state, if_neg h]
  · intro m id
    refine ⟨?_, ?_, ?_⟩
    · rw [StoryboardManager.delete_props_state]
      exact StrMap.get_erase_self _ _
    · rw [StoryboardManager.delete_props_state]
      exact not_mem_filter_self _ _
    · rw [StoryboardManager.delete_props_state]
  · intro m id entity
    refine ⟨?_, ?_, ?_⟩
    · rw [StoryboardManager.create_sets_state]
      by_cases h : id ∈ m.state.processing_stages.set_order
      · rw [if_pos h]
        exact StrMap.get_insert_self _ _ _
      · rw [if_neg h]
        exact StrMap.get_insert_self _ _ _
    · intro h
      rw [StoryboardManager.create_sets_state, if_pos h]
    · intro h
      rw [StoryboardManager.create_sets_state, if_neg h]
  · intro m id
    refine ⟨?_, ?_, ?_⟩
    · rw [StoryboardManager.delete_sets_state]
      exact StrMap.get_erase_self _ _
    · rw [StoryboardManager.delete_sets_state]
      exact not_mem_filter_self _ _
    · rw [StoryboardManager.delete_sets_state]
  · intro m id scene
    refine ⟨?_, ?_, ?_⟩
    · rw [StoryboardManager.create_scene_state]
      by_cases h : id ∈ m.state.scene_order
      · rw [if_pos h]
        exact StrMap.get_insert_self _ _ _
      · rw [if_neg h]
        exact StrMap.get_insert_self _ _ _
    · intro h
      rw [StoryboardManager.create_scene_state, if_pos h]
    · intro h
      rw [StoryboardManager.create_scene_state, if_neg h]
  · intro m id
    refine ⟨?_, ?_, ?_⟩
    · rw [StoryboardManager.delete_scene_state]
      exact StrMap.get_erase_self _ _
    · rw [StoryboardManager.delete_scene_state]
      exact not_mem_filter_self _ _
    · rw [StoryboardManager.delete_scene_state]
  · intro m scene_id shot_id shot sc hsc
    refine ⟨_, StoryboardManager.create_shot_scene m scene_id shot_id shot sc hsc,
      ?_, ?_, ?_⟩
    · by_cases h : shot_id ∈ sc.shot_order
      · rw [if_pos h]
        exact StrMap.get_insert_self _ _ _
      · rw [if_neg h]
        exact StrMap.get_insert_self _ _ _
    · intro h
      rw [if_pos h]
    · intro h
      rw [if_neg h]
  · intro m scene_id shot_id sc hsc
    exact ⟨_, StoryboardManager.delete_shot_scene m scene_id shot_id sc hsc,
      StrMap.get_erase_self _ _, not_mem_filter_self _ _, rfl⟩

/-- C6 witness: concrete instantiation on the fresh sequence manager —
creating node "n1" appends it to the empty order list and stores it. -/
theorem C6_witness :
    ∃ s2 : DocumentRoot,
      ((SequenceManager.new.create_and_append "n1"
          (GenerationNode.new "n1" "t2i")).2.get_state).1 = .ok s2 ∧
      s2.generations.get "n1" = some (GenerationNode.new "n1" "t2i") ∧
      ("n1" ∈ ([] : List String) → s2.sequence_order = []) ∧
      ("n1" ∉ ([] : List String) → s2.sequence_order = [] ++ ["n1"]) :=
  C6_order_list_integrity.1 SequenceManager.new DocumentRoot.default "n1"
    (GenerationNode.new "n1" "t2i") SequenceManager.goodState_new

-- =============================================================================
-- CLAIM C7
-- =============================================================================

/-- C7 (amended): container resolution per manager flavor. Both flavors
report `SchemaViolation` when the key exists with a non-object value, and
resolve an existing map or list value to its handle. On a missing key the
flavors diverge: `SequenceManager::get_obj_at_key` applies the UUID-shape
heuristic — `NodeNotFound` when the missing key is exactly 36 bytes,
`FieldNotFound` otherwise — while `StoryboardManager::get_obj_at_key` has no
such heuristic and reports `FieldNotFound` for every missing key. -/
theorem C7_container_resolution :
    (∀ (m : SequenceManager) (parent : ObjPath) (key : String)
        (entries : List (String × AMValue)),
      getAtPath m.doc parent = some (.map entries) →
      ((∀ nes, KV.alookup key entries = some (.map nes) →
        m.get_obj_at_key parent key = .ok (parent ++ [key])) ∧
      (∀ items, KV.alookup key entries = some (.list items) →
        m.get_obj_at_key parent key = .ok (parent ++ [key])) ∧
      (∀ sc, KV.alookup key entries = some (.scalar sc) →
        m.get_obj_at_key parent key =
          .error (.SchemaViolation (String.append key " is not an object"))) ∧
      (KV.alookup key entries = none → key.utf8ByteSize = 36 →
        m.get_obj_at_key parent key = .error (.NodeNotFound key)) ∧
      (KV.alookup key entries = none → key.utf8ByteSize ≠ 36 →
        m.get_obj_at_key parent key = .error (.FieldNotFound key)))) ∧
    (∀ (doc : AMValue) (parent : ObjPath) (key : String)
        (entries : List (String × AMValue)),
      getAtPath doc parent = some (.map entries) →
      ((∀ nes, KV.alookup key entries = some (.map nes) →
        StoryboardManager.get_obj_at_key doc parent key = .ok (parent ++ [key])) ∧
      (∀ items, KV.alookup key entries = some (.list items) →
        StoryboardManager.get_obj_at_key doc parent key = .ok (parent ++ [key])) ∧
      (∀ sc, KV.alookup key entries = some (.scalar sc) →
        StoryboardManager.get_obj_at_key doc parent key =
          .error (.SchemaViolation (String.append key " is not an object"))) ∧
      (KV.alookup key entries = none →
        StoryboardManager.get_obj_at_key doc parent key =
          .error (.FieldNotFound key)))) := by
  constructor
  · intro m parent key entries hp
    refine ⟨?_, ?_, ?_, ?_, ?_⟩
    · intro nes ha
      exact SequenceManager.get_obj_at_key_map hp ha
    · intro items ha
      unfold SequenceManager.get_obj_at_key
      rw [hp]
      show (match KV.alookup key entries with
        | some (.map _) => (.ok (parent ++ [key]) : Except CollabError ObjPath)
        | some (.list _) => .ok (parent ++ [key])
        | some (.scalar _) =>
          .error (.SchemaViolation (String.append key " is not an object"))
        | none =>
          if key.utf8ByteSize = 36 then .error (.NodeNotFound key)
          else .error (.FieldNotFound key)) = .ok (parent ++ [key])
      rw [ha]
    · intro sc ha
      unfold SequenceManager.get_obj_at_key
      rw [hp]
      show (match KV.alookup key entries with
        | some (.map _) => (.ok (parent ++ [key]) : Except CollabError ObjPath)
        | some (.list _) => .ok (parent ++ [key])
        | some (.scalar _) =>
          .error (.SchemaViolation (String.append key " is not an object"))
        | none =>
          if key.utf8ByteSize = 36 then .error (.NodeNotFound key)
          else .error (.FieldNotFound key)) =
        .error (.SchemaViolation (String.append key " is not an object"))
      rw [ha]
    · intro ha h36
      unfold SequenceManager.get_obj_at_key
      rw [hp]
      show (match KV.alookup key entries with
        | some (.map _) => (.ok (parent ++ [key]) : Except CollabError ObjPath)
        | some (.list _) => .ok (parent ++ [key])
        | some (.scalar _) =>
          .error (.SchemaViolation (String.append key " is not an object"))
        | none =>
          if key.utf8ByteSize = 36 then .error (.NodeNotFound key)
          else .error (.FieldNotFound key)) = .error (.NodeNotFound key)
      rw [ha]
      show (if key.utf8ByteSize = 36 then
          (.error (.NodeNotFound key) : Except CollabError ObjPath)
        else .error (.FieldNotFound key)) = .error (.NodeNotFound key)
      rw [if_pos h36]
    · intro ha h36
      unfold SequenceManager.get_obj_at_key
      rw [hp]
      show (match KV.alookup key entries with
        | some (.map _) => (.ok (parent ++ [key]) : Except CollabError ObjPath)
        | some (.list _) => .ok (parent ++ [key])
        | some (.scalar _) =>
          .error (.SchemaViolation (String.append key " is not an object"))
        | none =>
          if key.utf8ByteSize = 36 then .error (.NodeNotFound key)
          else .error (.FieldNotFound key)) = .error (.FieldNotFound key)
      rw [ha]
      show (if key.utf8ByteSize = 36 then
          (.error (.NodeNotFound key) : Except CollabError ObjPath)
        else .error (.FieldNotFound key)) = .error (.FieldNotFound key)
      rw [if_neg h36]
  · intro doc parent key entries hp
    refine ⟨?_, ?_, ?_, ?_⟩
    · intro nes ha
      unfold StoryboardManager.get_obj_at_key
      rw [hp]
      show (match KV.alookup key entries with
        | some (.map _) => (.ok (parent ++ [key]) : Except CollabError ObjPath)
        | some (.list _) => .ok (parent ++ [key])
        | some (.scalar _) =>
          .error (.SchemaViolation (String.append key " is not an object"))
        | none => .error (.FieldNotFound key)) = .ok (parent ++ [key])
      rw [ha]
    · intro items ha
      unfold StoryboardManager.get_obj_at_key
      rw [hp]
      show (match KV.alookup key entries with
        | some (.map _) => (.ok (parent ++ [key]) : Except CollabError ObjPath)
        | some (.list _) => .ok (parent ++ [key])
        | some (.scalar _) =>
          .error (.SchemaViolation (String.append key " is not an object"))
        | none => .error (.FieldNotFound key)) = .ok (parent ++ [key])
      rw [ha]
    · intro sc ha
      unfold StoryboardManager.get_obj_at_key
      rw [hp]
      show (match KV.alookup key entries with
        | some (.map _) => (.ok (parent ++ [key]) : Except CollabError ObjPath)
        | some (.list _) => .ok (parent ++ [key])
        | some (.scalar _) =>
          .error (.SchemaViolation (String.append key " is not an object"))
        | none => .error (.FieldNotFound key)) =
        .error (.SchemaViolation (String.append key " is not an object"))
      rw [ha]
    · intro ha
      unfold StoryboardManager.get_obj_at_key
      rw [hp]
      show (match KV.alookup key entries with
        | some (.map _) => (.ok (parent ++ [key]) : Except CollabError ObjPath)
        | some (.list _) => .ok (parent ++ [key])
        | some (.scalar _) =>
          .error (.SchemaViolation (String.append key " is not an object"))
        | none => .error (.FieldNotFound key)) = .error (.FieldNotFound key)
      rw [ha]

/-- C7 counterexample to the original claim: the storyboard flavour applies
no 36-byte heuristic — a missing UUID-shaped key yields `FieldNotFound`, not
`NodeNotFound`, so the heuristic does not hold "for every manager flavor". -/
theorem C7_counterexample :
    ("000000000000000000000000000000000000" : String).utf8ByteSize = 36 ∧
    StoryboardManager.get_obj_at_key (.map []) []
        "000000000000000000000000000000000000" =
      .error (.FieldNotFound "000000000000000000000000000000000000") ∧
    StoryboardManager.get_obj_at_key (.map []) []
        "000000000000000000000000000000000000" ≠
      .error (.NodeNotFound "000000000000000000000000000000000000") :=
  ⟨rfl, rfl, fun h => CollabError.noConfusion (Except.error.inj h)⟩

/-- C7 witness: the divergent missing-key behaviours on concrete documents —
the sequence flavour maps a missing 36-byte key to `NodeNotFound`, the
storyboard flavour maps a missing key to `FieldNotFound`. -/
theorem C7_witness :
    SequenceManager.get_obj_at_key
        ⟨AMValue.map [("generations", AMValue.map [])], none, none⟩ []
        "000000000000000000000000000000000000" =
      .error (.NodeNotFound "000000000000000000000000000000000000") ∧
    StoryboardManager.get_obj_at_key (.map [("a", AMValue.scalar .null)]) [] "zz" =
      .error (.FieldNotFound "zz") :=
  ⟨(C7_container_resolution.1
      ⟨AMValue.map [("generations", AMValue.map [])], none, none⟩ []
      "000000000000000000000000000000000000"
      [("generations", AMValue.map [])]
      rfl).2.2.2.1 rfl (by decide),
    (C7_container_resolution.2 (AMValue.map [("a", AMValue.scalar .null)]) [] "zz"
      [("a", AMValue.scalar .null)] rfl).2.2.2 rfl⟩
